import Mathlib

/-!
# vSphere Docker volume driver: refcounted mount lifecycle

A shallow embedding of `vmdk_plugin/drivers/vmdk/vmdk_driver.go`.

The driver is a state machine over
* its own state (`Driver`): the reference-count store and the map from
  mount IDs to full volume names;
* the state of the outside world (`ω`): the ESX backend, the kernel mount
  table, the local filesystem;
* the chronological list of calls made to the collaborators (`Call`).

Collaborators (`vmdkops`, `fs`, `plugin_utils`) are fields of `Env`: each takes
the world and returns its Go result together with the new world.  A statement
about "whatever the backend returns" quantifies over `Env`.
-/

namespace Vmdk

/-! ## Go values -/

/-- A Go `map[string]string` handed across a call boundary, as an association list. -/
abbrev StrMap := List (String × String)

/-- Assignment `m[k] = v` on an association-list map. -/
def StrMap.set (m : StrMap) (k v : String) : StrMap :=
  (k, v) :: m.filter (fun p => p.1 != k)

/-- A value of Go type `interface{}` as far as the driver looks at it: the
type assertion `.(string)` succeeds on `str` only. -/
inductive MetaVal where
  | str (s : String)
  | other
deriving DecidableEq, Repr

/-- Volume metadata, Go `map[string]interface{}`; `none` is the nil map. -/
abbrev VolMeta := Option (List (String × MetaVal))

/-- The Go expression `volumeMeta[key].(string)`: the value and whether the
assertion held.  Indexing a nil map yields the zero value. -/
def VolMeta.str (m : VolMeta) (key : String) : Option String :=
  match m with
  | none => none
  | some kv =>
    match kv.lookup key with
    | some (MetaVal.str v) => some v
    | _ => none

/-- Go `error` values the driver handles.  `pluginInit` is
`fmt.Errorf(plugin_utils.ErrorPluginInit)`, `refcount` is the error of the
store's decrement, `callee` carries the message of a collaborator's error. -/
inductive Error where
  | pluginInit
  | refcount (vol : String)
  | callee (msg : String)
deriving DecidableEq, Repr

/-- Result of `plugin_utils.GetVolumeInfo`. -/
structure VolumeInfo where
  VolumeName : String
  VolumeMeta : VolMeta
deriving DecidableEq, Repr

/-- The Docker plugin helper type `volume.Volume`. -/
structure Volume where
  Name : String
  Mountpoint : String
  Status : VolMeta
deriving DecidableEq, Repr

/-- The Docker plugin helper type `volume.Response`. -/
structure Response where
  Err : String := ""
  Mountpoint : String := ""
  Volume : Option Volume := none
  Volumes : List Vmdk.Volume := []
  Capabilities : String := ""
deriving DecidableEq, Repr

/-- The Docker plugin helper type `volume.Request`; `Options = none` is the nil map. -/
structure Request where
  Name : String
  Options : Option StrMap
deriving DecidableEq, Repr

/-- The Docker plugin helper type `volume.MountRequest`. -/
structure MountRequest where
  Name : String
  ID : String
deriving DecidableEq, Repr

/-- The Docker plugin helper type `volume.UnmountRequest`. -/
structure UnmountRequest where
  Name : String
  ID : String
deriving DecidableEq, Repr

/-! ## Reference-count store -/

/-- Modelled from the spec: the initialization state of the reference-count
store (package `refcount`, not among the sources), "a tri-state -
uninitialized, dirty/retrying, initialized". -/
inductive InitState where
  | uninit
  | dirty
  | ready
deriving DecidableEq, Repr

/-- Modelled from the spec: `refcount.RefCountsMap`, whose package is not among
the sources.  A reference count entry "maps a volume name to a non-negative
integer count"; an absent entry and a zero count are not told apart. -/
structure RefCountsMap where
  refMap : String → Nat
  state : InitState

/-- Modelled from the spec: `RefCountsMap.GetInitSuccess`, true once the store
"has completed bootstrap". -/
def RefCountsMap.GetInitSuccess (r : RefCountsMap) : Bool :=
  decide (r.state = InitState.ready)

/-- Modelled from the spec: `RefCountsMap.GetCount`, "returns current count". -/
def RefCountsMap.GetCount (r : RefCountsMap) (vol : String) : Nat :=
  r.refMap vol

/-- Modelled from the spec: `RefCountsMap.Incr`, the store's increment; it
returns the new count. -/
def RefCountsMap.Incr (r : RefCountsMap) (vol : String) : Nat × RefCountsMap :=
  (r.refMap vol + 1,
   { r with refMap := fun v => if v = vol then r.refMap vol + 1 else r.refMap v })

/-- Modelled from the spec: `RefCountsMap.Decr`, the store's decrement.
"Never negative; decrementing an absent/zero entry is an error, not a
decrement"; otherwise it returns the new count. -/
def RefCountsMap.Decr (r : RefCountsMap) (vol : String) :
    (Nat × Option Error) × RefCountsMap :=
  if r.refMap vol = 0 then ((0, some (Error.refcount vol)), r)
  else ((r.refMap vol - 1, none),
        { r with refMap := fun v => if v = vol then r.refMap vol - 1 else r.refMap v })

/-- Modelled from the spec: `RefCountsMap.MarkDirty`, which "signals the
background reconciliation task to re-attempt bootstrap; idempotent"; it has no
effect on a store that completed bootstrap. -/
def RefCountsMap.MarkDirty (r : RefCountsMap) : RefCountsMap :=
  match r.state with
  | InitState.ready => r
  | _ => { r with state := InitState.dirty }

/-! ## Driver state, collaborators, call log -/

/-- `VolumeDriver` together with the package variable `mountRoot`. -/
structure Driver where
  useMockEsx : Bool
  refCounts : RefCountsMap
  mountIDtoName : String → Option String
  mountRoot : String

/-- One call to a collaborator, with its arguments. -/
inductive Call where
  | getVolumeInfo (name : String)
  | alreadyMounted (name root : String)
  | opsCreate (name : String) (opts : StrMap)
  | opsRemove (name : String) (opts : Option StrMap)
  | opsAttach (name : String)
  | opsDetach (name : String)
  | opsGet (name : String)
  | opsList
  | fsMkdir (path : String)
  | fsMount (path fstype device : String) (readOnly : Bool)
  | fsUnmount (path : String)
  | fsGetDevicePath (dev : String)
  | fsDevAttachWaitPrep (name watchPath : String)
  | fsDevAttachWait (watcher : Nat) (name device : String)
  | fsMkfsLookup
  | fsMkfs (mkfscmd name device : String)
  | sleep
deriving DecidableEq, Repr

/-- The collaborators of the driver and the constants it imports.  A Go
`error` result is `Option String` (the message, `none` for nil); a result
with a value is `Except String _`. -/
structure Env (ω : Type) where
  /-- `plugin_utils.ErrorPluginInit` -/
  errorPluginInit : String
  /-- message of the store's decrement error -/
  refcountError : String → String
  /-- `fs.FstypeDefault` -/
  fstypeDefault : String
  /-- `filepath.Join` on two elements -/
  join : String → String → String
  getVolumeInfo : String → ω → Except String VolumeInfo × ω
  alreadyMounted : String → String → ω → Bool × ω
  opsCreate : String → StrMap → ω → Option String × ω
  opsRemove : String → Option StrMap → ω → Option String × ω
  opsAttach : String → ω → Except String String × ω
  opsDetach : String → ω → Option String × ω
  opsGet : String → ω → Except String VolMeta × ω
  opsList : ω → Except String (List String) × ω
  fsMkdir : String → ω → Option String × ω
  fsMount : String → String → String → Bool → ω → Option String × ω
  fsUnmount : String → ω → Option String × ω
  fsGetDevicePath : String → ω → Except String String × ω
  fsDevAttachWaitPrep : String → String → ω → (Nat × Bool) × ω
  fsDevAttachWait : Nat → String → String → ω → Unit × ω
  fsMkfsLookup : ω → StrMap × ω
  fsMkfs : String → String → String → ω → Option String × ω

/-- The method `Error()` of a Go error. -/
def Error.msg {ω : Type} (env : Env ω) : Error → String
  | Error.pluginInit => env.errorPluginInit
  | Error.refcount vol => env.refcountError vol
  | Error.callee msg => msg

/-- Driver state, world state and the calls made so far (oldest first). -/
structure Sys (ω : Type) where
  d : Driver
  w : ω
  trace : List Call

/-- Perform one collaborator call: log it and thread the world through it. -/
def Sys.call {ω α : Type} (s : Sys ω) (c : Call) (f : ω → α × ω) : α × Sys ω :=
  ((f s.w).1, { s with w := (f s.w).2, trace := s.trace ++ [c] })

/-- The constant `watchPath`. -/
def watchPath : String := "/dev/disk/by-path"

/-- The tail shared by the handlers:
`if err != nil { return volume.Response{Err: err.Error()} }; return volume.Response{Err: ""}`. -/
def errResponse : Option String → Response
  | some e => { Err := e }
  | none => { Err := "" }

/-! ## The driver -/

section driver
variable {ω : Type}

/-- `getMountPoint`: the mountpoint of a volume. -/
def getMountPoint (env : Env ω) (d : Driver) (volName : String) : String :=
  env.join d.mountRoot volName

namespace VolumeDriver

/-- `getRefCount`: the number of references for the given volume. -/
def getRefCount (d : Driver) (vol : String) : Nat × Option Error :=
  if d.refCounts.GetInitSuccess != true then (0, some Error.pluginInit)
  else (d.refCounts.GetCount vol, none)

/-- `incrRefCount`: increment the reference count for the given volume. -/
def incrRefCount (d : Driver) (vol : String) : (Nat × Option Error) × Driver :=
  if d.refCounts.GetInitSuccess != true then ((0, some Error.pluginInit), d)
  else (((d.refCounts.Incr vol).1, none), { d with refCounts := (d.refCounts.Incr vol).2 })

/-- `decrRefCount`: decrement the reference count for the given volume. -/
def decrRefCount (d : Driver) (vol : String) : (Nat × Option Error) × Driver :=
  if d.refCounts.GetInitSuccess != true then ((0, some Error.pluginInit), d)
  else ((d.refCounts.Decr vol).1, { d with refCounts := (d.refCounts.Decr vol).2 })

/-- `incrRefCount` on the driver inside a system state. -/
def sysIncr (s : Sys ω) (vol : String) : (Nat × Option Error) × Sys ω :=
  ((incrRefCount s.d vol).1, { s with d := (incrRefCount s.d vol).2 })

/-- `decrRefCount` on the driver inside a system state. -/
def sysDecr (s : Sys ω) (vol : String) : (Nat × Option Error) × Sys ω :=
  ((decrRefCount s.d vol).1, { s with d := (decrRefCount s.d vol).2 })

/-- `GetVolume`: return volume meta-data. -/
def GetVolume (env : Env ω) (name : String) (s : Sys ω) : Except String VolMeta × Sys ω :=
  s.call (Call.opsGet name) (env.opsGet name)

/-- `Get`: info about a single volume. -/
def Get (env : Env ω) (r : Request) (s : Sys ω) : Response × Sys ω :=
  let c := GetVolume env r.Name s
  match c.1 with
  | Except.error e => ({ Err := e }, c.2)
  | Except.ok status =>
    ({ Volume := some { Name := r.Name, Mountpoint := getMountPoint env c.2.d r.Name,
                        Status := status } }, c.2)

/-- `MountVolume`: request attach and then mount the volume.  Returns the
mountpoint and the error (or nil). -/
def MountVolume (env : Env ω) (name fstype _id : String) (isReadOnly _skipAttach : Bool)
    (s : Sys ω) : (String × Option String) × Sys ω :=
  let mountpoint := getMountPoint env s.d name
  -- First, make sure that mountpoint exists.
  let c1 := s.call (Call.fsMkdir mountpoint) (env.fsMkdir mountpoint)
  match c1.1 with
  | some e => ((mountpoint, some e), c1.2)
  | none =>
    let c2 := c1.2.call (Call.fsDevAttachWaitPrep name watchPath)
                (env.fsDevAttachWaitPrep name watchPath)
    let watcher := c2.1.1
    let skipInotify := c2.1.2
    -- Have ESX attach the disk
    let c3 := c2.2.call (Call.opsAttach name) (env.opsAttach name)
    match c3.1 with
    | Except.error e => ((mountpoint, some e), c3.2)
    | Except.ok dev =>
      if c3.2.d.useMockEsx then
        let c4 := c3.2.call (Call.fsMount mountpoint fstype dev false)
                    (env.fsMount mountpoint fstype dev false)
        ((mountpoint, c4.1), c4.2)
      else
        let c4 := c3.2.call (Call.fsGetDevicePath dev) (env.fsGetDevicePath dev)
        match c4.1 with
        | Except.error e => ((mountpoint, some e), c4.2)
        | Except.ok device =>
          if skipInotify then
            let c5 := c4.2.call Call.sleep (fun w => ((), w))
            let c6 := c5.2.call (Call.fsMount mountpoint fstype device false)
                        (env.fsMount mountpoint fstype device false)
            ((mountpoint, c6.1), c6.2)
          else
            let c5 := c4.2.call (Call.fsDevAttachWait watcher name device)
                        (env.fsDevAttachWait watcher name device)
            -- May have timed out waiting for the attach to complete,
            -- attempt the mount anyway.
            let c6 := c5.2.call (Call.fsMount mountpoint fstype device isReadOnly)
                        (env.fsMount mountpoint fstype device isReadOnly)
            ((mountpoint, c6.1), c6.2)

/-- `UnmountVolume`: unmount the volume and then request detach.  The error of
the filesystem unmount is logged and dropped. -/
def UnmountVolume (env : Env ω) (name : String) (s : Sys ω) : Option String × Sys ω :=
  let mountpoint := getMountPoint env s.d name
  let c1 := s.call (Call.fsUnmount mountpoint) (env.fsUnmount mountpoint)
  c1.2.call (Call.opsDetach name) (env.opsDetach name)

/-- The block of `processMount` entered when `MountVolume` failed with error
`e`: decrement the count, try to detach when it dropped to zero, and fail the
request with the original error. -/
def mountRollback (env : Env ω) (name e : String) (s7 : Sys ω) : Response × Sys ω :=
  let c := sysDecr s7 name
  match c.1.2 with
  | some _ => ({ Err := e }, c.2)
  | none =>
    if c.1.1 = 0 then
      -- try to detach before failing the request for volume
      ({ Err := e }, (c.2.call (Call.opsDetach name) (env.opsDetach name)).2)
    else ({ Err := e }, c.2)

/-- The access check of `processMount`: read-only exactly when the metadata
holds the string `read-only` under `access`. -/
def isReadOnlyOf (volumeMeta : VolMeta) : Bool :=
  match volumeMeta.str "access" with
  | none => false
  | some value => value == "read-only"

/-- The file system check of `processMount`: the string under `fstype`, else
the default. -/
def fstypeOf (env : Env ω) (volumeMeta : VolMeta) : String :=
  match volumeMeta.str "fstype" with
  | none => env.fstypeDefault
  | some value => value

/-- The block of `processMount` from the check `if err != nil` that follows
the metadata fetch to the end: fail on a pending error, else check access type
and file system type, call `MountVolume`, and roll back on failure. -/
def mountWithMeta (env : Env ω) (name : String) (volumeMeta : VolMeta) (err : Option Error)
    (s6 : Sys ω) : Response × Sys ω :=
  match err with
  | some e => ({ Err := e.msg env }, (sysDecr s6 name).2)
  | none =>
    let isReadOnly : Bool := isReadOnlyOf volumeMeta
    let fstype : String := fstypeOf env volumeMeta
    let c := MountVolume env name fstype "" isReadOnly false s6
    match c.1.2 with
    | none => ({ Mountpoint := c.1.1 }, c.2)
    | some e => mountRollback env name e c.2

/-- The private `processMount`: mounting a volume in conjunction with
refcounting.  Its last blocks are `mountWithMeta` and `mountRollback`. -/
def processMount (env : Env ω) (r : MountRequest) (s : Sys ω) : Response × Sys ω :=
  let c1 := s.call (Call.getVolumeInfo r.Name) (env.getVolumeInfo r.Name)
  match c1.1 with
  | Except.error e => ({ Err := e }, c1.2)
  | Except.ok volumeInfo =>
    let name := volumeInfo.VolumeName
    let s2 : Sys ω :=
      { c1.2 with d := { c1.2.d with mountIDtoName :=
          fun i => if i = r.ID then some name else c1.2.d.mountIDtoName i } }
    -- If the volume is already mounted, just increase the refcount.
    let c3 := sysIncr s2 name
    let refcnt := c3.1.1
    let err := c3.1.2
    -- on error we proceed with mount here
    if refcnt > 1 then ({ Mountpoint := getMountPoint env c3.2.d name }, c3.2)
    else
      let c4 := c3.2.call (Call.alreadyMounted name c3.2.d.mountRoot)
                  (env.alreadyMounted name c3.2.d.mountRoot)
      if c4.1 then ({ Mountpoint := getMountPoint env c4.2.d name }, c4.2)
      else
        -- get volume metadata if required
        match volumeInfo.VolumeMeta with
        | some m =>
          -- `err` is still the error of `incrRefCount`
          mountWithMeta env name (some m) err c4.2
        | none =>
          -- `volumeMeta, err = d.ops.Get(r.Name)`
          let c5 := c4.2.call (Call.opsGet name) (env.opsGet name)
          match c5.1 with
          | Except.error e => ({ Err := e }, (sysDecr c5.2 name).2)
          | Except.ok m => mountWithMeta env name m none c5.2

/-- The message listing the supported filesystems, built by the `range` loop
of `Create` over the keys of `supportedFs` in the order the loop visits them. -/
def validfs (keys : List String) : String :=
  keys.foldl (fun acc fs => if acc != "" then acc ++ ", " ++ fs else acc ++ fs) ""

/-- The rollback of `Create`: detach, then remove; both errors are only logged. -/
def createRollback (env : Env ω) (name : String) (s : Sys ω) : Sys ω :=
  ((s.call (Call.opsDetach name) (env.opsDetach name)).2.call
    (Call.opsRemove name none) (env.opsRemove name none)).2

/-- `Create`: create a volume. -/
def Create (env : Env ω) (r : Request) (s : Sys ω) : Response × Sys ω :=
  let options0 : StrMap := match r.Options with
    | none => []
    | some m => m
  -- If cloning a existent volume, create and return
  if (options0.lookup "clone-from").isSome then
    let c := s.call (Call.opsCreate r.Name options0) (env.opsCreate r.Name options0)
    (errResponse c.1, c.2)
  else
    -- Use default fstype if not specified
    let options : StrMap :=
      if (options0.lookup "fstype").isSome then options0
      else options0.set "fstype" env.fstypeDefault
    let fstype : String := (options.lookup "fstype").getD ""
    -- Get existent filesystem tools
    let c1 := s.call Call.fsMkfsLookup env.fsMkfsLookup
    let supportedFs := c1.1
    -- Verify the existence of fstype mkfs
    match supportedFs.lookup fstype with
    | none =>
      ({ Err := "Not found mkfs for " ++ fstype ++ "\nSupported filesystems found: "
                  ++ validfs (supportedFs.map Prod.fst) }, c1.2)
    | some mkfscmd =>
      let c2 := c1.2.call (Call.opsCreate r.Name options) (env.opsCreate r.Name options)
      match c2.1 with
      | some errCreate => ({ Err := errCreate }, c2.2)
      | none =>
        -- Handle filesystem creation
        let c3 := c2.2.call (Call.fsDevAttachWaitPrep r.Name watchPath)
                    (env.fsDevAttachWaitPrep r.Name watchPath)
        let watcher := c3.1.1
        let skipInotify := c3.1.2
        let c4 := c3.2.call (Call.opsAttach r.Name) (env.opsAttach r.Name)
        match c4.1 with
        | Except.error errAttach =>
          -- detach before removing below
          ({ Err := errAttach }, createRollback env r.Name c4.2)
        | Except.ok dev =>
          let c5 := c4.2.call (Call.fsGetDevicePath dev) (env.fsGetDevicePath dev)
          match c5.1 with
          | Except.error errGetDevicePath =>
            ({ Err := errGetDevicePath }, createRollback env r.Name c5.2)
          | Except.ok device =>
            let s6 : Sys ω :=
              if skipInotify then (c5.2.call Call.sleep (fun w => ((), w))).2
              else (c5.2.call (Call.fsDevAttachWait watcher r.Name device)
                      (env.fsDevAttachWait watcher r.Name device)).2
            let c7 := s6.call (Call.fsMkfs mkfscmd r.Name device)
                        (env.fsMkfs mkfscmd r.Name device)
            match c7.1 with
            | some errMkfs => ({ Err := errMkfs }, createRollback env r.Name c7.2)
            | none =>
              let c8 := c7.2.call (Call.opsDetach r.Name) (env.opsDetach r.Name)
              (errResponse c8.1, c8.2)

/-- The message of `Remove` on a volume that is still mounted:
`fmt.Sprintf("Remove failure - volume is still mounted. "+" volume=%s, refcount=%d", ...)`. -/
def stillMountedMsg (name : String) (refcnt : Nat) : String :=
  "Remove failure - volume is still mounted. " ++ " volume=" ++ name
    ++ ", refcount=" ++ toString refcnt

/-- `Remove`: remove an individual volume. -/
def Remove (env : Env ω) (r : Request) (s : Sys ω) : Response × Sys ω :=
  -- Docker is supposed to block 'remove' command if the volume is used. Verify.
  let c := getRefCount s.d r.Name
  match c.2 with
  | some err => ({ Err := err.msg env }, s)
  | none =>
    if c.1 != 0 then ({ Err := stillMountedMsg r.Name c.1 }, s)
    else
      let c1 := s.call (Call.opsRemove r.Name r.Options) (env.opsRemove r.Name r.Options)
      (errResponse c1.1, c1.2)

/-- `Path`: give docker a reminder of the volume mount path. -/
def Path (env : Env ω) (r : Request) (s : Sys ω) : Response × Sys ω :=
  ({ Mountpoint := getMountPoint env s.d r.Name }, s)

/-- `Mount`: provide a volume to a docker container.  The state lock is held
for the whole call. -/
def Mount (env : Env ω) (r : MountRequest) (s : Sys ω) : Response × Sys ω :=
  processMount env r { s with d := { s.d with refCounts := s.d.refCounts.MarkDirty } }

/-- The block of `Unmount` that follows name resolution: decrement, return when
the volume is still used, else unmount and detach. -/
def unmountResolved (env : Env ω) (name : String) (s1 : Sys ω) : Response × Sys ω :=
  let c := sysDecr s1 name
  -- on error: yell, but still try to unmount
  if c.1.1 ≥ 1 then ({ Err := "" }, c.2)
  else
    -- and if nobody needs it, unmount and detach
    let u := UnmountVolume env name c.2
    (errResponse u.1, u.2)

/-- `Unmount`: unmount request from Docker.  The state lock is held for the
whole call.  Its last block is `unmountResolved`. -/
def Unmount (env : Env ω) (r : UnmountRequest) (s : Sys ω) : Response × Sys ω :=
  if s.d.refCounts.GetInitSuccess != true then
    -- all unmounts are delayed until the refcount map is populated
    ({ Err := "" }, { s with d := { s.d with refCounts := s.d.refCounts.MarkDirty } })
  else
    match s.d.mountIDtoName r.ID with
    | some fullVolName =>
      unmountResolved env fullVolName
        { s with d := { s.d with mountIDtoName :=
            fun i => if i = r.ID then none else s.d.mountIDtoName i } }
    | none =>
      let c := s.call (Call.getVolumeInfo r.Name) (env.getVolumeInfo r.Name)
      match c.1 with
      | Except.error e => ({ Err := e }, c.2)
      | Except.ok volumeInfo => unmountResolved env volumeInfo.VolumeName c.2

/-- `Capabilities`: report plugin scope to Docker. -/
def Capabilities (_r : Request) (s : Sys ω) : Response × Sys ω :=
  ({ Capabilities := "global" }, s)

/-- `List`: volumes known to the driver. -/
def List (env : Env ω) (_r : Request) (s : Sys ω) : Response × Sys ω :=
  let c := s.call Call.opsList env.opsList
  match c.1 with
  | Except.error e => ({ Err := e }, c.2)
  | Except.ok volumes =>
    ({ Volumes := volumes.map (fun n =>
        { Name := n, Mountpoint := getMountPoint env c.2.d n, Status := none }) }, c.2)

end VolumeDriver

end driver

/-! ## Vocabulary of the lifecycle properties -/

/-- The call is the filesystem unmount or the backend `Detach`. -/
def Call.isUnmountOrDetach : Call → Bool
  | Call.fsUnmount _ => true
  | Call.opsDetach _ => true
  | _ => false

/-- The calls made between an earlier state and a later one. -/
def callsSince {ω : Type} (s s' : Sys ω) : List Call :=
  s'.trace.drop s.trace.length

/-- The full volume name an `Unmount` request operates on: the mount record
of its ID when there is one, else the result of resolving its name (`none`
when resolution fails). -/
def unmountTarget {ω : Type} (env : Env ω) (r : UnmountRequest) (s : Sys ω) : Option String :=
  match s.d.mountIDtoName r.ID with
  | some fullVolName => some fullVolName
  | none =>
    match (env.getVolumeInfo r.Name s.w).1 with
    | Except.ok volumeInfo => some volumeInfo.VolumeName
    | Except.error _ => none

/-! ## A world in which every collaborator call succeeds -/

/-- Modelled from the spec: the part of the outside world the lifecycle
properties speak of - which volumes the backend has attached to the host, and
which mountpoints are mounted in the kernel mount table. -/
structure World where
  attached : String → Bool
  mounted : String → Bool

/-- Modelled from the spec: collaborators (packages `vmdkops`, `fs` and
`plugin_utils`, not among the sources) every call of which succeeds.
`Attach`/`Detach` set and clear the attach state of the volume, the filesystem
`Mount`/`Unmount` set and clear the mount state of the mountpoint, and
`AlreadyMounted` reads the mount state of the volume's mountpoint under the
mount root.  `resolve` is name resolution, `volMeta` the backend metadata,
`skip` the answer of `DevAttachWaitPrep`, `tools` the table of mkfs tools. -/
def okEnv (resolve : String → VolumeInfo) (volMeta : String → VolMeta) (skip : Bool)
    (tools : StrMap) : Env World where
  errorPluginInit := "Plugin initialization in progress."
  refcountError := fun vol => "Decr: Missing refcount. name=" ++ vol
  fstypeDefault := "ext4"
  join := fun root name => root ++ "/" ++ name
  getVolumeInfo := fun name w => (Except.ok (resolve name), w)
  alreadyMounted := fun name root w => (w.mounted (root ++ "/" ++ name), w)
  opsCreate := fun _ _ w => (none, w)
  opsRemove := fun _ _ w => (none, w)
  opsAttach := fun name w =>
    (Except.ok "0:0", { w with attached := fun v => if v = name then true else w.attached v })
  opsDetach := fun name w =>
    (none, { w with attached := fun v => if v = name then false else w.attached v })
  opsGet := fun name w => (Except.ok (volMeta name), w)
  opsList := fun w => (Except.ok [], w)
  fsMkdir := fun _ w => (none, w)
  fsMount := fun path _ _ _ w =>
    (none, { w with mounted := fun p => if p = path then true else w.mounted p })
  fsUnmount := fun path w =>
    (none, { w with mounted := fun p => if p = path then false else w.mounted p })
  fsGetDevicePath := fun dev w => (Except.ok ("/dev/disk/by-path/" ++ dev), w)
  fsDevAttachWaitPrep := fun _ _ w => ((0, skip), w)
  fsDevAttachWait := fun _ _ _ w => ((), w)
  fsMkfsLookup := fun w => (tools, w)
  fsMkfs := fun _ _ _ w => (none, w)

/-- A world with nothing attached and nothing mounted. -/
def emptyWorld : World := { attached := fun _ => false, mounted := fun _ => false }

/-- A driver for the real backend with the given store contents and no mount record. -/
def freshDriver (state : InitState) (refMap : String → Nat) : Driver :=
  { useMockEsx := false, refCounts := { refMap := refMap, state := state },
    mountIDtoName := fun _ => none, mountRoot := "/mnt/vmdk" }

/-- A system state around `freshDriver` with an empty call log. -/
def freshSys (state : InitState) (refMap : String → Nat) (w : World) : Sys World :=
  { d := freshDriver state refMap, w := w, trace := [] }

/-- Name resolution that keeps the name and supplies no metadata. -/
def bareInfo (name : String) : VolumeInfo := { VolumeName := name, VolumeMeta := none }

/-- Name resolution that qualifies a bare name with a datastore and supplies
the metadata it fetched on the way. -/
def qualifiedInfo (name : String) : VolumeInfo :=
  { VolumeName := name ++ "@datastore1",
    VolumeMeta := some [("datastore", MetaVal.str "datastore1"), ("fstype", MetaVal.str "ext4"),
                        ("access", MetaVal.str "read-write")] }

/-! ## Request sequences on one volume -/

/-- A `Mount` or `Unmount` request with the given mount ID. -/
inductive Req where
  | mount (id : String)
  | unmount (id : String)
deriving DecidableEq, Repr

/-- Serve one request for the volume name `name`. -/
def Req.run {ω : Type} (env : Env ω) (name : String) : Req → Sys ω → Response × Sys ω
  | Req.mount id, s => VolumeDriver.Mount env { Name := name, ID := id } s
  | Req.unmount id, s => VolumeDriver.Unmount env { Name := name, ID := id } s

/-- The numbers of backend `Attach`, filesystem mount, filesystem unmount and
backend `Detach` calls in a list of calls. -/
def physical (cs : List Call) : Nat × Nat × Nat × Nat :=
  (cs.countP (fun c => match c with | Call.opsAttach _ => true | _ => false),
   cs.countP (fun c => match c with | Call.fsMount _ _ _ _ => true | _ => false),
   cs.countP (fun c => match c with | Call.fsUnmount _ => true | _ => false),
   cs.countP (fun c => match c with | Call.opsDetach _ => true | _ => false))

/-- What one request of a sequence did: its response, the physical calls it
made, and the count of the volume `full` after it. -/
structure Step where
  resp : Response
  phys : Nat × Nat × Nat × Nat
  count : Nat
deriving DecidableEq, Repr

/-- Serve the requests in order, one after the other (the state lock serializes
them), recording what each did. -/
def runLog {ω : Type} (env : Env ω) (name full : String) : List Req → Sys ω → List Step × Sys ω
  | [], s => ([], s)
  | q :: qs, s =>
    let o := q.run env name s
    let rest := runLog env name full qs o.2
    ({ resp := o.1, phys := physical (callsSince s o.2),
       count := o.2.d.refCounts.GetCount full } :: rest.1, rest.2)

/-- The calls of `MountVolume` on a run in which every call succeeds, for the
mock backend (`mock`), the sleep fallback (`skip`) and the watched attach. -/
def mountCalls (mock skip : Bool) (mountpoint name fstype dev device : String) (watcher : Nat)
    (isReadOnly : Bool) : List Call :=
  [Call.fsMkdir mountpoint, Call.fsDevAttachWaitPrep name watchPath, Call.opsAttach name] ++
    (if mock then [Call.fsMount mountpoint fstype dev false]
     else if skip then
       [Call.fsGetDevicePath dev, Call.sleep, Call.fsMount mountpoint fstype device false]
     else
       [Call.fsGetDevicePath dev, Call.fsDevAttachWait watcher name device,
        Call.fsMount mountpoint fstype device isReadOnly])

/-- No `Unmount` of the sequence comes without an outstanding `Mount`: served
with `k` holders, every prefix has at least as many mounts (plus `k`) as
unmounts. -/
def wellNested : Nat → List Req → Bool
  | _, [] => true
  | k, Req.mount _ :: qs => wellNested (k + 1) qs
  | 0, Req.unmount _ :: _ => false
  | k + 1, Req.unmount _ :: qs => wellNested k qs

/-- Number of `Mount` requests in a sequence. -/
def mounts (qs : List Req) : Nat :=
  qs.countP (fun q => match q with | Req.mount _ => true | _ => false)

/-- Number of `Unmount` requests in a sequence. -/
def unmounts (qs : List Req) : Nat :=
  qs.countP (fun q => match q with | Req.unmount _ => true | _ => false)

/-- What the `i`-th of a run of `Mount` requests does when the volume had no
holder before the run: it returns the mountpoint, the first one attaches and
mounts, and the count becomes `i + 1`. -/
def mountStep (mountpoint : String) (i : Nat) : Step :=
  { resp := { Mountpoint := mountpoint },
    phys := if i = 0 then (1, 1, 0, 0) else (0, 0, 0, 0),
    count := i + 1 }

/-- What the `i`-th of a run of `k` `Unmount` requests does when the volume
had `k` holders before the run: it returns success, the last one unmounts and
detaches, and the count becomes `k - 1 - i`. -/
def unmountStep (k i : Nat) : Step :=
  { resp := { Err := "" },
    phys := if i + 1 = k then (0, 0, 1, 1) else (0, 0, 0, 0),
    count := k - 1 - i }

/-- The volume `full` has `k` holders in a consistent state: the store
completed bootstrap and counts `k`, the mountpoint is mounted exactly when
`k > 0`, and then the volume is attached. -/
def Holders (root full : String) (k : Nat) (s : Sys World) : Prop :=
  s.d.refCounts.state = InitState.ready ∧ s.d.refCounts.refMap full = k ∧
  s.d.mountRoot = root ∧ s.w.mounted (root ++ "/" ++ full) = decide (0 < k) ∧
  (0 < k → s.w.attached full = true)

/-- A world in which nothing is attached and only the mountpoint of `vol1`
is (still) mounted. -/
def staleWorld : World :=
  { attached := fun _ => false, mounted := fun p => decide (p = "/mnt/vmdk/vol1") }

/-! ## The stages of `Create` -/

/-- The option map `Create` works on: the request's, or a fresh empty one when
the request carries none. -/
def optionsOf (r : Request) : StrMap :=
  match r.Options with
  | none => []
  | some m => m

/-- The option map `Create` hands to backend `Create`: the request's options,
with `fstype` set to the default when the key is missing. -/
def createOptions {ω : Type} (env : Env ω) (r : Request) : StrMap :=
  if ((optionsOf r).lookup "fstype").isSome then optionsOf r
  else (optionsOf r).set "fstype" env.fstypeDefault

/-- The filesystem type `Create` looks the mkfs tool up for: `r.Options["fstype"]`
after the default was filled in. -/
def createFstype {ω : Type} (env : Env ω) (r : Request) : String :=
  ((createOptions env r).lookup "fstype").getD ""

/-- First call of `Create` without clone source: the lookup of the mkfs tools. -/
def createLookup {ω : Type} (env : Env ω) (s : Sys ω) : StrMap × Sys ω :=
  s.call Call.fsMkfsLookup env.fsMkfsLookup

/-- Second call of `Create`: backend `Create`, in the world the lookup left. -/
def createBackend {ω : Type} (env : Env ω) (r : Request) (s : Sys ω) : Option String × Sys ω :=
  (createLookup env s).2.call (Call.opsCreate r.Name (createOptions env r))
    (env.opsCreate r.Name (createOptions env r))

/-- Third call of `Create`: arming the device watch. -/
def createPrep {ω : Type} (env : Env ω) (r : Request) (s : Sys ω) : (Nat × Bool) × Sys ω :=
  (createBackend env r s).2.call (Call.fsDevAttachWaitPrep r.Name watchPath)
    (env.fsDevAttachWaitPrep r.Name watchPath)

/-- Fourth call of `Create`: backend `Attach`. -/
def createAttach {ω : Type} (env : Env ω) (r : Request) (s : Sys ω) :
    Except String String × Sys ω :=
  (createPrep env r s).2.call (Call.opsAttach r.Name) (env.opsAttach r.Name)

/-- Fifth call of `Create`: device-path resolution of the attached device `dev`. -/
def createDevPath {ω : Type} (env : Env ω) (r : Request) (s : Sys ω) (dev : String) :
    Except String String × Sys ω :=
  (createAttach env r s).2.call (Call.fsGetDevicePath dev) (env.fsGetDevicePath dev)

/-- The call by which `Create` waits for the device node: the fixed sleep when
the watch is unavailable, else the device wait on the armed watch. -/
def createWaitCall {ω : Type} (env : Env ω) (r : Request) (s : Sys ω) (device : String) : Call :=
  if (createPrep env r s).1.2 then Call.sleep
  else Call.fsDevAttachWait (createPrep env r s).1.1 r.Name device

/-- The state of `Create` after it waited for the device node. -/
def createWait {ω : Type} (env : Env ω) (r : Request) (s : Sys ω) (dev device : String) : Sys ω :=
  if (createPrep env r s).1.2 then
    ((createDevPath env r s dev).2.call Call.sleep (fun w => ((), w))).2
  else
    ((createDevPath env r s dev).2.call
      (Call.fsDevAttachWait (createPrep env r s).1.1 r.Name device)
      (env.fsDevAttachWait (createPrep env r s).1.1 r.Name device)).2

/-- Seventh call of `Create`: `Mkfs` with the tool `mkfscmd` on the device node. -/
def createMkfs {ω : Type} (env : Env ω) (r : Request) (s : Sys ω) (dev device mkfscmd : String) :
    Option String × Sys ω :=
  (createWait env r s dev device).call (Call.fsMkfs mkfscmd r.Name device)
    (env.fsMkfs mkfscmd r.Name device)

/-- Last call of a `Create` whose `Mkfs` succeeded: backend `Detach`. -/
def createDetach {ω : Type} (env : Env ω) (r : Request) (s : Sys ω)
    (dev device mkfscmd : String) : Option String × Sys ω :=
  (createMkfs env r s dev device mkfscmd).2.call (Call.opsDetach r.Name) (env.opsDetach r.Name)

/-- The numbers of `Mkfs`, backend `Detach` and backend `Remove` calls in a
list of calls. -/
def provisioning (cs : List Call) : Nat × Nat × Nat :=
  (cs.countP (fun c => match c with | Call.fsMkfs _ _ _ => true | _ => false),
   cs.countP (fun c => match c with | Call.opsDetach _ => true | _ => false),
   cs.countP (fun c => match c with | Call.opsRemove _ _ => true | _ => false))

/-- Modelled from the spec: collaborators as in `okEnv`, except that the
operations named in `bad` fail, with a message naming the operation, and leave
the world as it was. -/
def flakyEnv (resolve : String → VolumeInfo) (volMeta : String → VolMeta) (skip : Bool)
    (tools : StrMap) (bad : List String) : Env World :=
  { okEnv resolve volMeta skip tools with
    opsCreate := fun name opts w =>
      if "Create" ∈ bad then (some "Create failed", w)
      else (okEnv resolve volMeta skip tools).opsCreate name opts w
    opsRemove := fun name opts w =>
      if "Remove" ∈ bad then (some "Remove failed", w)
      else (okEnv resolve volMeta skip tools).opsRemove name opts w
    opsAttach := fun name w =>
      if "Attach" ∈ bad then (Except.error "Attach failed", w)
      else (okEnv resolve volMeta skip tools).opsAttach name w
    opsDetach := fun name w =>
      if "Detach" ∈ bad then (some "Detach failed", w)
      else (okEnv resolve volMeta skip tools).opsDetach name w
    opsGet := fun name w =>
      if "Get" ∈ bad then (Except.error "Get failed", w)
      else (okEnv resolve volMeta skip tools).opsGet name w
    fsMkdir := fun path w =>
      if "Mkdir" ∈ bad then (some "Mkdir failed", w)
      else (okEnv resolve volMeta skip tools).fsMkdir path w
    fsMount := fun path fstype device ro w =>
      if "Mount" ∈ bad then (some "Mount failed", w)
      else (okEnv resolve volMeta skip tools).fsMount path fstype device ro w
    fsUnmount := fun path w =>
      if "Unmount" ∈ bad then (some "Unmount failed", w)
      else (okEnv resolve volMeta skip tools).fsUnmount path w
    fsGetDevicePath := fun dev w =>
      if "GetDevicePath" ∈ bad then (Except.error "GetDevicePath failed", w)
      else (okEnv resolve volMeta skip tools).fsGetDevicePath dev w
    fsMkfs := fun cmd name device w =>
      if "Mkfs" ∈ bad then (some "Mkfs failed", w)
      else (okEnv resolve volMeta skip tools).fsMkfs cmd name device w }

/-- The mkfs tools of a host with ext4 and xfs support. -/
def someTools : StrMap := [("ext4", "/sbin/mkfs.ext4"), ("xfs", "/sbin/mkfs.xfs")]

/-! ## The stages of `Mount` and `Unmount` -/

/-- First call of `Mount`: name resolution, after the store was marked dirty. -/
def mountResolve {ω : Type} (env : Env ω) (r : MountRequest) (s : Sys ω) :
    Except String VolumeInfo × Sys ω :=
  ({ s with d := { s.d with refCounts := s.d.refCounts.MarkDirty } } : Sys ω).call
    (Call.getVolumeInfo r.Name) (env.getVolumeInfo r.Name)

/-- The increment of `Mount` for the resolved name `name`, made after the
mount record was written. -/
def mountIncr {ω : Type} (env : Env ω) (r : MountRequest) (name : String) (s : Sys ω) :
    (Nat × Option Error) × Sys ω :=
  let s1 := (mountResolve env r s).2
  let s2 : Sys ω :=
    { s1 with d := { s1.d with mountIDtoName :=
        fun i => if i = r.ID then some name else s1.d.mountIDtoName i } }
  VolumeDriver.sysIncr s2 name

/-- The already-mounted check of `Mount`. -/
def mountCheck {ω : Type} (env : Env ω) (r : MountRequest) (name : String) (s : Sys ω) :
    Bool × Sys ω :=
  (mountIncr env r name s).2.call
    (Call.alreadyMounted name (mountIncr env r name s).2.d.mountRoot)
    (env.alreadyMounted name (mountIncr env r name s).2.d.mountRoot)

/-- The metadata fetch of `Mount`, made when name resolution supplied none. -/
def mountGet {ω : Type} (env : Env ω) (r : MountRequest) (name : String) (s : Sys ω) :
    Except String VolMeta × Sys ω :=
  (mountCheck env r name s).2.call (Call.opsGet name) (env.opsGet name)

/-- The metadata `Mount` works with: that of name resolution when it supplied
some, else the result of the fetch. -/
def mountMetaOf {ω : Type} (env : Env ω) (r : MountRequest) (vi : VolumeInfo) (s : Sys ω) :
    Except String VolMeta :=
  match vi.VolumeMeta with
  | some m => Except.ok (some m)
  | none => (mountGet env r vi.VolumeName s).1

/-- The state in which `Mount` calls `MountVolume`. -/
def mountPre {ω : Type} (env : Env ω) (r : MountRequest) (vi : VolumeInfo) (s : Sys ω) : Sys ω :=
  match vi.VolumeMeta with
  | some _ => (mountCheck env r vi.VolumeName s).2
  | none => (mountGet env r vi.VolumeName s).2

/-- The call of `MountVolume` made by `Mount` with metadata `m`. -/
def mountVolumeCall {ω : Type} (env : Env ω) (r : MountRequest) (vi : VolumeInfo) (m : VolMeta)
    (s : Sys ω) : (String × Option String) × Sys ω :=
  VolumeDriver.MountVolume env vi.VolumeName (VolumeDriver.fstypeOf env m) ""
    (VolumeDriver.isReadOnlyOf m) false (mountPre env r vi s)

/-- The calls by which `Unmount` resolves the volume name: none when the mount
ID is recorded, else name resolution. -/
def unmountResolveCalls {ω : Type} (r : UnmountRequest) (s : Sys ω) : List Call :=
  match s.d.mountIDtoName r.ID with
  | some _ => []
  | none => [Call.getVolumeInfo r.Name]

/-- The world in which `Unmount` goes on after resolving the volume name. -/
def unmountWorld {ω : Type} (env : Env ω) (r : UnmountRequest) (s : Sys ω) : ω :=
  match s.d.mountIDtoName r.ID with
  | some _ => s.w
  | none => (env.getVolumeInfo r.Name s.w).2

/-- Backend metadata of a read-only ext4 volume. -/
def readOnlyMeta : VolMeta :=
  some [("access", MetaVal.str "read-only"), ("fstype", MetaVal.str "ext4")]

/-! ## The stages of `MountVolume` and the calls of `Mount` -/

/-- First call of `MountVolume`: making the mountpoint directory. -/
def mvMkdir {ω : Type} (env : Env ω) (name : String) (s : Sys ω) : Option String × Sys ω :=
  s.call (Call.fsMkdir (getMountPoint env s.d name)) (env.fsMkdir (getMountPoint env s.d name))

/-- Second call of `MountVolume`: arming the device watch. -/
def mvPrep {ω : Type} (env : Env ω) (name : String) (s : Sys ω) : (Nat × Bool) × Sys ω :=
  (mvMkdir env name s).2.call (Call.fsDevAttachWaitPrep name watchPath)
    (env.fsDevAttachWaitPrep name watchPath)

/-- Third call of `MountVolume`: backend `Attach`. -/
def mvAttach {ω : Type} (env : Env ω) (name : String) (s : Sys ω) :
    Except String String × Sys ω :=
  (mvPrep env name s).2.call (Call.opsAttach name) (env.opsAttach name)

/-- Fourth call of `MountVolume` on the real backend: device-path resolution of
the attached device `dev`. -/
def mvDevPath {ω : Type} (env : Env ω) (name : String) (s : Sys ω) (dev : String) :
    Except String String × Sys ω :=
  (mvAttach env name s).2.call (Call.fsGetDevicePath dev) (env.fsGetDevicePath dev)

/-- The calls `MountVolume` makes, read off the results of its stages: it stops
at the first failing stage, and ends in the filesystem mount on each of its
three paths (mock backend, sleep fallback, watched attach). -/
def mvCalls {ω : Type} (env : Env ω) (name fstype : String) (isReadOnly : Bool) (s : Sys ω) :
    List Call :=
  match (mvMkdir env name s).1 with
  | some _ => [Call.fsMkdir (getMountPoint env s.d name)]
  | none =>
    match (mvAttach env name s).1 with
    | Except.error _ =>
      [Call.fsMkdir (getMountPoint env s.d name), Call.fsDevAttachWaitPrep name watchPath,
       Call.opsAttach name]
    | Except.ok dev =>
      if s.d.useMockEsx then
        [Call.fsMkdir (getMountPoint env s.d name), Call.fsDevAttachWaitPrep name watchPath,
         Call.opsAttach name, Call.fsMount (getMountPoint env s.d name) fstype dev false]
      else
        match (mvDevPath env name s dev).1 with
        | Except.error _ =>
          [Call.fsMkdir (getMountPoint env s.d name), Call.fsDevAttachWaitPrep name watchPath,
           Call.opsAttach name, Call.fsGetDevicePath dev]
        | Except.ok device =>
          if (mvPrep env name s).1.2 then
            [Call.fsMkdir (getMountPoint env s.d name), Call.fsDevAttachWaitPrep name watchPath,
             Call.opsAttach name, Call.fsGetDevicePath dev, Call.sleep,
             Call.fsMount (getMountPoint env s.d name) fstype device false]
          else
            [Call.fsMkdir (getMountPoint env s.d name), Call.fsDevAttachWaitPrep name watchPath,
             Call.opsAttach name, Call.fsGetDevicePath dev,
             Call.fsDevAttachWait (mvPrep env name s).1.1 name device,
             Call.fsMount (getMountPoint env s.d name) fstype device isReadOnly]

/-- The error `processMount` still holds when it reaches the check that follows
the metadata block: that of the increment when name resolution supplied the
metadata, none after a successful metadata fetch. -/
def mountPending {ω : Type} (env : Env ω) (r : MountRequest) (vi : VolumeInfo) (s : Sys ω) :
    Option Error :=
  match vi.VolumeMeta with
  | some _ => (mountIncr env r vi.VolumeName s).1.2
  | none => none

/-- The calls of `Mount` before it calls `MountVolume`. -/
def mountPreCalls {ω : Type} (r : MountRequest) (vi : VolumeInfo) (s : Sys ω) : List Call :=
  match vi.VolumeMeta with
  | some _ => [Call.getVolumeInfo r.Name, Call.alreadyMounted vi.VolumeName s.d.mountRoot]
  | none => [Call.getVolumeInfo r.Name, Call.alreadyMounted vi.VolumeName s.d.mountRoot,
             Call.opsGet vi.VolumeName]

/-- Every backend `Attach` in the list of calls comes after an arming of the
device watch that no earlier `Attach` used; `armed` tells whether such an
arming precedes the list. -/
def armedBeforeAttach : Bool → List Call → Bool
  | _, [] => true
  | _, Call.fsDevAttachWaitPrep _ _ :: cs => armedBeforeAttach true cs
  | armed, Call.opsAttach _ :: cs => armed && armedBeforeAttach false cs
  | armed, _ :: cs => armedBeforeAttach armed cs

/-- The filesystem mount calls among a list of calls. -/
def fsMounts (cs : List Call) : List Call :=
  cs.filter (fun c => match c with | Call.fsMount _ _ _ _ => true | _ => false)

/-- The backend `Detach` calls among a list of calls. -/
def detaches (cs : List Call) : List Call :=
  cs.filter (fun c => match c with | Call.opsDetach _ => true | _ => false)

/-! ## Properties -/

section properties
variable {ω : Type}

/-- The error string of the shared response tail. -/
@[simp] theorem errResponse_Err (e : Option String) : (errResponse e).Err = e.getD "" := by
  cases e <;> rfl

/-- `Unmount` on a store that has not completed bootstrap, in closed form. -/
theorem Unmount_eq_of_uninit (env : Env ω) (r : UnmountRequest) (s : Sys ω)
    (h : s.d.refCounts.GetInitSuccess = false) :
    VolumeDriver.Unmount env r s =
      ({ Err := "" }, { s with d := { s.d with refCounts := s.d.refCounts.MarkDirty } }) := by
  simp [VolumeDriver.Unmount, h]

/-- `MarkDirty` never touches the counts. -/
theorem MarkDirty_refMap (r : RefCountsMap) : r.MarkDirty.refMap = r.refMap := by
  unfold RefCountsMap.MarkDirty
  split <;> rfl

/-- `MarkDirty` leaves a store that has not completed bootstrap in state `dirty`. -/
theorem MarkDirty_state_of_uninit (r : RefCountsMap) (h : r.GetInitSuccess = false) :
    r.MarkDirty.state = InitState.dirty := by
  have hs : r.state ≠ InitState.ready := by
    simpa [RefCountsMap.GetInitSuccess] using h
  unfold RefCountsMap.MarkDirty
  split
  · next h1 => exact absurd h1 hs
  · rfl

/-- C7. While the refcount store has not completed bootstrap, `Unmount` returns
an empty error, makes no collaborator call at all (so no name resolution, no
filesystem unmount, no `Detach`), leaves the world, the refcount map and the
mount-record map unchanged, and leaves the store marked dirty. -/
theorem Unmount_uninit_deferred (env : Env ω) (r : UnmountRequest) (s : Sys ω)
    (h : s.d.refCounts.GetInitSuccess = false) :
    (VolumeDriver.Unmount env r s).1.Err = "" ∧
    (VolumeDriver.Unmount env r s).2.trace = s.trace ∧
    (VolumeDriver.Unmount env r s).2.w = s.w ∧
    (VolumeDriver.Unmount env r s).2.d.refCounts.refMap = s.d.refCounts.refMap ∧
    (VolumeDriver.Unmount env r s).2.d.mountIDtoName = s.d.mountIDtoName ∧
    (VolumeDriver.Unmount env r s).2.d.refCounts.state = InitState.dirty := by
  rw [Unmount_eq_of_uninit env r s h]
  exact ⟨rfl, rfl, rfl, MarkDirty_refMap _, rfl, MarkDirty_state_of_uninit _ h⟩

/-- Instance of `Unmount_uninit_deferred` on a store that never started bootstrap. -/
theorem Unmount_uninit_deferred_witness :
    (freshSys InitState.uninit (fun _ => 0) emptyWorld).d.refCounts.GetInitSuccess = false ∧
    (VolumeDriver.Unmount (okEnv bareInfo (fun _ => none) false [])
      { Name := "vol1", ID := "a" } (freshSys InitState.uninit (fun _ => 0) emptyWorld)).2.trace
      = [] :=
  ⟨rfl, (Unmount_uninit_deferred (okEnv bareInfo (fun _ => none) false [])
      { Name := "vol1", ID := "a" } (freshSys InitState.uninit (fun _ => 0) emptyWorld) rfl).2.1⟩

/-- C9. `getRefCount`, `incrRefCount` and `decrRefCount` return the plugin-init
error exactly when the store has not completed bootstrap, and then they return
count 0 and leave the driver (every refcount entry) unchanged; on a store that
completed bootstrap they return the store's own `GetCount` / `Incr` / `Decr`
result. -/
theorem refcount_ops_pluginInit_iff (d : Driver) (vol : String) :
    ((VolumeDriver.getRefCount d vol).2 = some Error.pluginInit ↔
        d.refCounts.GetInitSuccess = false) ∧
    ((VolumeDriver.incrRefCount d vol).1.2 = some Error.pluginInit ↔
        d.refCounts.GetInitSuccess = false) ∧
    ((VolumeDriver.decrRefCount d vol).1.2 = some Error.pluginInit ↔
        d.refCounts.GetInitSuccess = false) ∧
    (d.refCounts.GetInitSuccess = false →
        VolumeDriver.getRefCount d vol = (0, some Error.pluginInit) ∧
        VolumeDriver.incrRefCount d vol = ((0, some Error.pluginInit), d) ∧
        VolumeDriver.decrRefCount d vol = ((0, some Error.pluginInit), d)) ∧
    (d.refCounts.GetInitSuccess = true →
        VolumeDriver.getRefCount d vol = (d.refCounts.GetCount vol, none) ∧
        VolumeDriver.incrRefCount d vol =
          (((d.refCounts.Incr vol).1, none), { d with refCounts := (d.refCounts.Incr vol).2 }) ∧
        VolumeDriver.decrRefCount d vol =
          ((d.refCounts.Decr vol).1, { d with refCounts := (d.refCounts.Decr vol).2 })) := by
  cases h : d.refCounts.GetInitSuccess
  · simp [VolumeDriver.getRefCount, VolumeDriver.incrRefCount, VolumeDriver.decrRefCount, h]
  · simp only [VolumeDriver.getRefCount, VolumeDriver.incrRefCount,
      VolumeDriver.decrRefCount, h, RefCountsMap.Decr]
    by_cases h0 : d.refCounts.refMap vol = 0 <;> simp [h0]

/-- Instance of `refcount_ops_pluginInit_iff`: on a dirty store holding count 2
for `vol1@ds1` the decrement fails with the plugin-init error and changes
nothing; on a bootstrapped store it yields 1. -/
theorem refcount_ops_pluginInit_iff_witness :
    (freshDriver InitState.dirty (fun _ => 2)).refCounts.GetInitSuccess = false ∧
    VolumeDriver.decrRefCount (freshDriver InitState.dirty (fun _ => 2)) "vol1@ds1"
      = ((0, some Error.pluginInit), freshDriver InitState.dirty (fun _ => 2)) ∧
    (VolumeDriver.decrRefCount (freshDriver InitState.ready (fun _ => 2)) "vol1@ds1").1
      = (1, none) :=
  ⟨rfl,
   ((refcount_ops_pluginInit_iff (freshDriver InitState.dirty (fun _ => 2)) "vol1@ds1").2.2.2.1
      rfl).2.2,
   by rw [((refcount_ops_pluginInit_iff (freshDriver InitState.ready (fun _ => 2))
        "vol1@ds1").2.2.2.2 rfl).2.2]; rfl⟩

/-- `Remove` on a bootstrapped store, in closed form. -/
theorem Remove_eq_of_init (env : Env ω) (r : Request) (s : Sys ω)
    (h : s.d.refCounts.GetInitSuccess = true) :
    VolumeDriver.Remove env r s =
      if s.d.refCounts.refMap r.Name ≠ 0 then
        ({ Err := VolumeDriver.stillMountedMsg r.Name (s.d.refCounts.refMap r.Name) }, s)
      else
        (errResponse (env.opsRemove r.Name r.Options s.w).1,
         { s with w := (env.opsRemove r.Name r.Options s.w).2,
                  trace := s.trace ++ [Call.opsRemove r.Name r.Options] }) := by
  simp only [VolumeDriver.Remove, VolumeDriver.getRefCount, h, RefCountsMap.GetCount, Sys.call]
  by_cases h0 : s.d.refCounts.refMap r.Name = 0 <;> simp [h0]

/-- C5. On a bootstrapped store, `Remove` of a volume name whose count is
greater than 0 returns the "Remove failure - volume is still mounted" message
naming the volume and its count, and leaves the whole system state (call log
and world included) as it was, whatever the collaborators are; when the count
is 0 its only call is backend `Remove` with the request's name and options, and
its error is that call's message, or empty when the call succeeds. -/
theorem Remove_still_mounted (env : Env ω) (r : Request) (s : Sys ω)
    (h : s.d.refCounts.GetInitSuccess = true) :
    (0 < s.d.refCounts.GetCount r.Name →
      VolumeDriver.Remove env r s =
        ({ Err := "Remove failure - volume is still mounted. " ++ " volume=" ++ r.Name
                    ++ ", refcount=" ++ toString (s.d.refCounts.GetCount r.Name) }, s)) ∧
    (s.d.refCounts.GetCount r.Name = 0 →
      (VolumeDriver.Remove env r s).1.Err = ((env.opsRemove r.Name r.Options s.w).1).getD "" ∧
      (VolumeDriver.Remove env r s).2.trace = s.trace ++ [Call.opsRemove r.Name r.Options] ∧
      (VolumeDriver.Remove env r s).2.d = s.d) := by
  rw [Remove_eq_of_init env r s h]
  constructor
  · intro hpos
    have : s.d.refCounts.refMap r.Name ≠ 0 := Nat.pos_iff_ne_zero.mp hpos
    simp [this, VolumeDriver.stillMountedMsg, RefCountsMap.GetCount]
  · intro h0
    have : s.d.refCounts.refMap r.Name = 0 := h0
    simp [this]

/-- Instance of `Remove_still_mounted`: a volume held twice. -/
theorem Remove_still_mounted_witness :
    (freshSys InitState.ready (fun _ => 2) emptyWorld).d.refCounts.GetInitSuccess = true ∧
    0 < (freshSys InitState.ready (fun _ => 2) emptyWorld).d.refCounts.GetCount "vol1" ∧
    (VolumeDriver.Remove (okEnv bareInfo (fun _ => none) false [])
        { Name := "vol1", Options := none }
        (freshSys InitState.ready (fun _ => 2) emptyWorld)).2.trace = [] :=
  ⟨rfl, by decide,
   by rw [(Remove_still_mounted (okEnv bareInfo (fun _ => none) false [])
        { Name := "vol1", Options := none }
        (freshSys InitState.ready (fun _ => 2) emptyWorld) rfl).1 (by decide)]; rfl⟩

/-- C10. When the options of a `Create` request contain the key `clone-from`
(with any value), the only collaborator call is backend `Create` with the
request's name and options - no mkfs lookup, `Attach`, `Mkfs`, `Detach` or
`Remove` - and the response error is the message of backend `Create`, or empty
when it succeeds. -/
theorem Create_clone_only_backend_create (env : Env ω) (r : Request) (s : Sys ω)
    (opts : StrMap) (src : String) (hopts : r.Options = some opts)
    (hclone : opts.lookup "clone-from" = some src) :
    (VolumeDriver.Create env r s).2.trace = s.trace ++ [Call.opsCreate r.Name opts] ∧
    (VolumeDriver.Create env r s).1.Err = ((env.opsCreate r.Name opts s.w).1).getD "" ∧
    (VolumeDriver.Create env r s).2.d = s.d := by
  simp [VolumeDriver.Create, hopts, hclone, Sys.call]

/-- Instance of `Create_clone_only_backend_create`: cloning `vol1` into `vol2`. -/
theorem Create_clone_only_backend_create_witness :
    (VolumeDriver.Create (okEnv bareInfo (fun _ => none) false [("ext4", "mkfs.ext4")])
        { Name := "vol2", Options := some [("clone-from", "vol1")] }
        (freshSys InitState.ready (fun _ => 0) emptyWorld)).2.trace
      = [Call.opsCreate "vol2" [("clone-from", "vol1")]] :=
  (Create_clone_only_backend_create
      (okEnv bareInfo (fun _ => none) false [("ext4", "mkfs.ext4")])
      { Name := "vol2", Options := some [("clone-from", "vol1")] }
      (freshSys InitState.ready (fun _ => 0) emptyWorld)
      [("clone-from", "vol1")] "vol1" rfl (by decide)).1

/-- C1, as the code has it. Whenever an `Unmount` on a bootstrapped store
invokes the filesystem unmount or backend `Detach`, the request resolved to a
volume whose count was at most 1 before the call - either 1, or 0 with the
decrement failing on the absent entry - and is 0 after it. -/
theorem Unmount_physical_only_at_zero (env : Env ω) (r : UnmountRequest) (s : Sys ω)
    (h : s.d.refCounts.GetInitSuccess = true)
    (hcall : ∃ c ∈ callsSince s (VolumeDriver.Unmount env r s).2, c.isUnmountOrDetach = true) :
    ∃ name, unmountTarget env r s = some name ∧
      (s.d.refCounts.GetCount name = 1 ∨
        (s.d.refCounts.GetCount name = 0 ∧
          (VolumeDriver.decrRefCount s.d name).1.2 = some (Error.refcount name))) ∧
      (VolumeDriver.Unmount env r s).2.d.refCounts.GetCount name = 0 := by
  unfold callsSince at hcall
  obtain ⟨c, hc, hphys⟩ := hcall
  cases hid : s.d.mountIDtoName r.ID with
  | some n =>
    refine ⟨n, by simp [unmountTarget, hid], ?_⟩
    simp only [VolumeDriver.Unmount, h, hid, VolumeDriver.unmountResolved, VolumeDriver.sysDecr,
      VolumeDriver.decrRefCount, RefCountsMap.Decr, VolumeDriver.UnmountVolume, Sys.call,
      RefCountsMap.GetCount] at hc ⊢
    by_cases h0 : s.d.refCounts.refMap n = 0
    · simp [h0] at hc ⊢
    · by_cases h1 : s.d.refCounts.refMap n = 1
      · simp [h1] at hc ⊢
      · have h2 : 1 ≤ s.d.refCounts.refMap n - 1 := by omega
        simp [h0, h2] at hc
  | none =>
    cases hres : (env.getVolumeInfo r.Name s.w).1 with
    | error e =>
      simp [VolumeDriver.Unmount, h, hid, Sys.call, hres] at hc
      simp [hc, Call.isUnmountOrDetach] at hphys
    | ok vi =>
      refine ⟨vi.VolumeName, by simp [unmountTarget, hid, hres], ?_⟩
      simp only [VolumeDriver.Unmount, h, hid, VolumeDriver.unmountResolved, VolumeDriver.sysDecr,
        VolumeDriver.decrRefCount, RefCountsMap.Decr, VolumeDriver.UnmountVolume, Sys.call,
        RefCountsMap.GetCount, hres] at hc ⊢
      by_cases h0 : s.d.refCounts.refMap vi.VolumeName = 0
      · simp [h0] at hc ⊢
      · by_cases h1 : s.d.refCounts.refMap vi.VolumeName = 1
        · simp [h1] at hc ⊢
        · have h2 : 1 ≤ s.d.refCounts.refMap vi.VolumeName - 1 := by omega
          simp [h0, h2] at hc
          simp [hc, Call.isUnmountOrDetach] at hphys

/-- Instance of `Unmount_physical_only_at_zero`: the last holder of `vol1` unmounts. -/
theorem Unmount_physical_only_at_zero_witness :
    ∃ name, unmountTarget (okEnv bareInfo (fun _ => none) false [])
        { Name := "vol1", ID := "a" }
        (freshSys InitState.ready (fun v => if v = "vol1" then 1 else 0) emptyWorld) = some name ∧
      ((freshSys InitState.ready (fun v => if v = "vol1" then 1 else 0)
          emptyWorld).d.refCounts.GetCount name = 1 ∨
        ((freshSys InitState.ready (fun v => if v = "vol1" then 1 else 0)
            emptyWorld).d.refCounts.GetCount name = 0 ∧
          (VolumeDriver.decrRefCount (freshSys InitState.ready
            (fun v => if v = "vol1" then 1 else 0) emptyWorld).d name).1.2
            = some (Error.refcount name))) ∧
      (VolumeDriver.Unmount (okEnv bareInfo (fun _ => none) false [])
        { Name := "vol1", ID := "a" }
        (freshSys InitState.ready (fun v => if v = "vol1" then 1 else 0)
          emptyWorld)).2.d.refCounts.GetCount name = 0 :=
  Unmount_physical_only_at_zero (okEnv bareInfo (fun _ => none) false [])
    { Name := "vol1", ID := "a" }
    (freshSys InitState.ready (fun v => if v = "vol1" then 1 else 0) emptyWorld) rfl
    ⟨Call.opsDetach "vol1", by decide, rfl⟩

/-- C1 fails as stated: on a bootstrapped store with no count for `vol1` the
decrement of an `Unmount` fails on the absent entry, and the filesystem unmount
and backend `Detach` are invoked all the same, although the count was 0 and
not 1 before the call. -/
theorem Unmount_absent_entry_still_detaches :
    (freshSys InitState.ready (fun _ => 0) emptyWorld).d.refCounts.GetInitSuccess = true ∧
    (freshSys InitState.ready (fun _ => 0) emptyWorld).d.refCounts.GetCount "vol1" ≠ 1 ∧
    unmountTarget (okEnv bareInfo (fun _ => none) false []) { Name := "vol1", ID := "a" }
      (freshSys InitState.ready (fun _ => 0) emptyWorld) = some "vol1" ∧
    (VolumeDriver.decrRefCount (freshSys InitState.ready (fun _ => 0) emptyWorld).d "vol1").1
      = (0, some (Error.refcount "vol1")) ∧
    (VolumeDriver.Unmount (okEnv bareInfo (fun _ => none) false [])
        { Name := "vol1", ID := "a" } (freshSys InitState.ready (fun _ => 0) emptyWorld)).2.trace
      = [Call.getVolumeInfo "vol1", Call.fsUnmount "/mnt/vmdk/vol1", Call.opsDetach "vol1"] := by
  refine ⟨rfl, by decide, rfl, rfl, ?_⟩
  decide

/-! ### The response of `Mount` -/

/-- `MountVolume` always returns the mountpoint of the volume. -/
theorem MountVolume_mountpoint (env : Env ω) (name fstype id : String) (ro sk : Bool)
    (s : Sys ω) :
    (VolumeDriver.MountVolume env name fstype id ro sk s).1.1 = getMountPoint env s.d name := by
  simp only [VolumeDriver.MountVolume]
  repeat' split
  all_goals rfl

/-- The driver's counter wrappers keep the mount root. -/
@[simp] theorem incrRefCount_mountRoot (d : Driver) (vol : String) :
    (VolumeDriver.incrRefCount d vol).2.mountRoot = d.mountRoot := by
  unfold VolumeDriver.incrRefCount; split <;> rfl

/-- The driver's counter wrappers keep the mount root. -/
@[simp] theorem decrRefCount_mountRoot (d : Driver) (vol : String) :
    (VolumeDriver.decrRefCount d vol).2.mountRoot = d.mountRoot := by
  unfold VolumeDriver.decrRefCount; split <;> rfl

/-- The rollback block answers with the original error. -/
@[simp] theorem mountRollback_resp (env : Env ω) (name e : String) (s : Sys ω) :
    (VolumeDriver.mountRollback env name e s).1 = { Err := e } := by
  simp only [VolumeDriver.mountRollback]
  repeat' split
  all_goals rfl

/-- The response of the mount block: the pending error if there is one, else
the mountpoint of the volume when `MountVolume` succeeds and its error
otherwise. -/
theorem mountWithMeta_resp (env : Env ω) (name : String) (m : VolMeta) (err : Option Error)
    (s : Sys ω) :
    (VolumeDriver.mountWithMeta env name m err s).1 =
      match err with
      | some e => { Err := e.msg env }
      | none =>
        match (VolumeDriver.MountVolume env name (VolumeDriver.fstypeOf env m) ""
                (VolumeDriver.isReadOnlyOf m) false s).1.2 with
        | none => { Mountpoint := getMountPoint env s.d name }
        | some e => { Err := e } := by
  simp only [VolumeDriver.mountWithMeta]
  cases err with
  | some e => rfl
  | none =>
    simp only []
    split
    · simp [MountVolume_mountpoint]
    · simp

/-- A `Mount` response is an error without mountpoint, or the mountpoint of the
volume the request resolved to without error. -/
theorem Mount_resp (env : Env ω) (r : MountRequest) (s : Sys ω) :
    (∃ e, (VolumeDriver.Mount env r s).1 = { Err := e }) ∨
    ∃ vi, (env.getVolumeInfo r.Name s.w).1 = Except.ok vi ∧
      (VolumeDriver.Mount env r s).1 = { Mountpoint := env.join s.d.mountRoot vi.VolumeName } := by
  simp only [VolumeDriver.Mount, VolumeDriver.processMount, Sys.call, VolumeDriver.sysIncr,
    VolumeDriver.sysDecr]
  cases hres : (env.getVolumeInfo r.Name s.w).1 with
  | error e => left; exact ⟨e, rfl⟩
  | ok vi =>
    simp only []
    split
    · right; exact ⟨vi, rfl, by simp [getMountPoint]⟩
    · split
      · right; exact ⟨vi, rfl, by simp [getMountPoint]⟩
      · split
        · rw [mountWithMeta_resp]
          repeat' split
          · left; exact ⟨_, rfl⟩
          · right; exact ⟨vi, rfl, by simp [getMountPoint]⟩
          · left; exact ⟨_, rfl⟩
        · split
          · left; exact ⟨_, rfl⟩
          · rw [mountWithMeta_resp]
            simp only []
            split
            · right; exact ⟨vi, rfl, by simp [getMountPoint]⟩
            · left; exact ⟨_, rfl⟩

/-- `MarkDirty` does nothing to a store that completed bootstrap. -/
theorem MarkDirty_of_init (r : RefCountsMap) (h : r.GetInitSuccess = true) :
    r.MarkDirty = r := by
  have hs : r.state = InitState.ready := by
    simpa [RefCountsMap.GetInitSuccess] using h
  unfold RefCountsMap.MarkDirty
  split
  · rfl
  · next h1 => exact absurd hs (h1 ·)

/-- C4. On a bootstrapped store, a `Mount` whose name resolves and whose
incremented count is greater than 1, or whose mountpoint is reported already
mounted, calls nothing but name resolution and (when the count did not
decide) the already-mounted check - no mkdir, no backend `Get` or `Attach`, no
filesystem mount - and returns, with an empty error, the mountpoint of the
resolved volume; that is the mountpoint every `Mount` of the same volume under
the same mount root returns when it returns one. -/
theorem Mount_short_circuit (env : Env ω) (r : MountRequest) (s : Sys ω) (vi : VolumeInfo)
    (hinit : s.d.refCounts.GetInitSuccess = true)
    (hres : (env.getVolumeInfo r.Name s.w).1 = Except.ok vi)
    (hshort : 1 < (s.d.refCounts.Incr vi.VolumeName).1 ∨
      (env.alreadyMounted vi.VolumeName s.d.mountRoot (env.getVolumeInfo r.Name s.w).2).1 = true) :
    (VolumeDriver.Mount env r s).1 = { Err := "", Mountpoint := env.join s.d.mountRoot vi.VolumeName } ∧
    (∀ c ∈ callsSince s (VolumeDriver.Mount env r s).2,
      c = Call.getVolumeInfo r.Name ∨ c = Call.alreadyMounted vi.VolumeName s.d.mountRoot) ∧
    (∀ (r1 : MountRequest) (s1 : Sys ω) (vi1 : VolumeInfo),
      s1.d.mountRoot = s.d.mountRoot →
      (env.getVolumeInfo r1.Name s1.w).1 = Except.ok vi1 →
      vi1.VolumeName = vi.VolumeName →
      (VolumeDriver.Mount env r1 s1).1.Mountpoint ≠ "" →
      (VolumeDriver.Mount env r s).1.Mountpoint = (VolumeDriver.Mount env r1 s1).1.Mountpoint) := by
  have hresp : (VolumeDriver.Mount env r s).1
        = { Err := "", Mountpoint := env.join s.d.mountRoot vi.VolumeName } ∧
      (∀ c ∈ callsSince s (VolumeDriver.Mount env r s).2,
        c = Call.getVolumeInfo r.Name ∨ c = Call.alreadyMounted vi.VolumeName s.d.mountRoot) := by
    simp only [callsSince, VolumeDriver.Mount, VolumeDriver.processMount, Sys.call,
      VolumeDriver.sysIncr, VolumeDriver.incrRefCount, MarkDirty_of_init _ hinit, hinit, hres,
      RefCountsMap.Incr] at hshort ⊢
    by_cases hgt : 1 < s.d.refCounts.refMap vi.VolumeName + 1
    · simp [hgt, getMountPoint]
    · rcases hshort with h1 | h1
      · exact absurd h1 hgt
      · simp [hgt, h1, getMountPoint]
  refine ⟨hresp.1, hresp.2, ?_⟩
  intro r1 s1 vi1 hroot hres1 hname hne
  rw [hresp.1]
  rcases Mount_resp env r1 s1 with ⟨e, he⟩ | ⟨vi2, hvi2, he⟩
  · rw [he] at hne
    exact absurd rfl hne
  · rw [hres1] at hvi2
    cases hvi2
    rw [he, hroot, hname]

/-- Instance of `Mount_short_circuit`: a second holder mounts `vol1`. -/
theorem Mount_short_circuit_witness :
    (freshSys InitState.ready (fun v => if v = "vol1" then 1 else 0)
      emptyWorld).d.refCounts.GetInitSuccess = true ∧
    1 < ((freshSys InitState.ready (fun v => if v = "vol1" then 1 else 0)
      emptyWorld).d.refCounts.Incr "vol1").1 ∧
    (VolumeDriver.Mount (okEnv bareInfo (fun _ => none) false []) { Name := "vol1", ID := "b" }
      (freshSys InitState.ready (fun v => if v = "vol1" then 1 else 0) emptyWorld)).1
      = { Err := "", Mountpoint := "/mnt/vmdk/vol1" } :=
  ⟨rfl, by decide,
   (Mount_short_circuit (okEnv bareInfo (fun _ => none) false []) { Name := "vol1", ID := "b" }
      (freshSys InitState.ready (fun v => if v = "vol1" then 1 else 0) emptyWorld)
      (bareInfo "vol1") rfl rfl (Or.inl (by decide))).1⟩

end properties

/-! ### Request sequences in the world where every call succeeds -/

section sequences
variable (resolve : String → VolumeInfo) (volMeta : String → VolMeta) (skip : Bool)
  (tools : StrMap)

/-- A successful `MountVolume` makes one `Attach` and one filesystem mount. -/
theorem physical_mountCalls (mock sk : Bool) (mountpoint name fstype dev device : String)
    (watcher : Nat) (ro : Bool) :
    physical (mountCalls mock sk mountpoint name fstype dev device watcher ro) = (1, 1, 0, 0) := by
  cases mock <;> cases sk <;> rfl

/-- In the world where every call succeeds, `MountVolume` attaches the volume
and mounts its mountpoint on each of its three paths. -/
theorem MountVolume_okEnv (name fstype id : String) (ro sk : Bool) (s : Sys World) :
    VolumeDriver.MountVolume (okEnv resolve volMeta skip tools) name fstype id ro sk s
      = ((s.d.mountRoot ++ "/" ++ name, none),
         { d := s.d,
           w := { attached := fun v => if v = name then true else s.w.attached v,
                  mounted := fun p =>
                    if p = s.d.mountRoot ++ "/" ++ name then true else s.w.mounted p },
           trace := s.trace ++ mountCalls s.d.useMockEsx skip (s.d.mountRoot ++ "/" ++ name) name
             fstype "0:0" "/dev/disk/by-path/0:0" 0 ro }) := by
  cases hm : s.d.useMockEsx <;> cases skip <;>
    simp [VolumeDriver.MountVolume, Sys.call, getMountPoint, okEnv, hm, mountCalls]

/-- No physical call in an empty list of calls. -/
@[simp] theorem physical_nil : physical [] = (0, 0, 0, 0) := rfl

/-- Physical calls of a list of calls, call by call. -/
theorem physical_cons (c : Call) (cs : List Call) :
    physical (c :: cs) =
      ((match c with | Call.opsAttach _ => 1 | _ => 0) + (physical cs).1,
       (match c with | Call.fsMount _ _ _ _ => 1 | _ => 0) + (physical cs).2.1,
       (match c with | Call.fsUnmount _ => 1 | _ => 0) + (physical cs).2.2.1,
       (match c with | Call.opsDetach _ => 1 | _ => 0) + (physical cs).2.2.2) := by
  cases c <;> simp [physical, List.countP_cons, Nat.add_comm]

/-- Physical calls of two lists of calls in a row. -/
theorem physical_append (a b : List Call) :
    physical (a ++ b) =
      ((physical a).1 + (physical b).1, (physical a).2.1 + (physical b).2.1,
       (physical a).2.2.1 + (physical b).2.2.1, (physical a).2.2.2 + (physical b).2.2.2) := by
  simp [physical, List.countP_append]

/-- A `Mount` of a volume without holders attaches and mounts it. -/
theorem Mount_first (root name full id : String) (s : Sys World)
    (hfull : (resolve name).VolumeName = full) (h : Holders root full 0 s) :
    (VolumeDriver.Mount (okEnv resolve volMeta skip tools) { Name := name, ID := id } s).1
      = { Mountpoint := root ++ "/" ++ full } ∧
    physical (callsSince s
      (VolumeDriver.Mount (okEnv resolve volMeta skip tools) { Name := name, ID := id } s).2)
      = (1, 1, 0, 0) ∧
    Holders root full 1
      (VolumeDriver.Mount (okEnv resolve volMeta skip tools) { Name := name, ID := id } s).2 ∧
    (VolumeDriver.Mount (okEnv resolve volMeta skip tools)
      { Name := name, ID := id } s).2.d.mountIDtoName
      = fun i => if i = id then some full else s.d.mountIDtoName i := by
  obtain ⟨hst, hcnt, hroot, hmnt, -⟩ := h
  have hinit : s.d.refCounts.GetInitSuccess = true := by simp [RefCountsMap.GetInitSuccess, hst]
  simp only [decide_eq_false_iff_not, Nat.lt_irrefl, not_false_eq_true, decide_False] at hmnt
  subst hfull
  have hget : ∀ w, (okEnv resolve volMeta skip tools).getVolumeInfo name w
      = (Except.ok (resolve name), w) := fun _ => rfl
  have hal : ∀ n r w, (okEnv resolve volMeta skip tools).alreadyMounted n r w
      = (w.mounted (r ++ "/" ++ n), w) := fun _ _ _ => rfl
  have hops : ∀ n w, (okEnv resolve volMeta skip tools).opsGet n w
      = (Except.ok (volMeta n), w) := fun _ _ => rfl
  simp only [Holders, VolumeDriver.Mount, VolumeDriver.processMount, Sys.call,
    VolumeDriver.sysIncr, VolumeDriver.incrRefCount, MarkDirty_of_init _ hinit, hinit,
    RefCountsMap.Incr, hcnt, hroot, hmnt, hget, hal, hops, VolumeDriver.mountWithMeta,
    MountVolume_okEnv]
  cases hvm : (resolve name).VolumeMeta <;>
    simp [hroot, hmnt, hst, callsSince, physical_mountCalls, physical_append, physical_cons]

/-- A `Mount` of a volume that has holders only increments the count. -/
theorem Mount_more (root name full id : String) (k : Nat) (s : Sys World)
    (hfull : (resolve name).VolumeName = full) (h : Holders root full (k + 1) s) :
    (VolumeDriver.Mount (okEnv resolve volMeta skip tools) { Name := name, ID := id } s).1
      = { Mountpoint := root ++ "/" ++ full } ∧
    physical (callsSince s
      (VolumeDriver.Mount (okEnv resolve volMeta skip tools) { Name := name, ID := id } s).2)
      = (0, 0, 0, 0) ∧
    Holders root full (k + 2)
      (VolumeDriver.Mount (okEnv resolve volMeta skip tools) { Name := name, ID := id } s).2 ∧
    (VolumeDriver.Mount (okEnv resolve volMeta skip tools)
      { Name := name, ID := id } s).2.d.mountIDtoName
      = fun i => if i = id then some full else s.d.mountIDtoName i := by
  obtain ⟨hst, hcnt, hroot, hmnt, hatt⟩ := h
  have hinit : s.d.refCounts.GetInitSuccess = true := by simp [RefCountsMap.GetInitSuccess, hst]
  subst hfull
  have hget : ∀ w, (okEnv resolve volMeta skip tools).getVolumeInfo name w
      = (Except.ok (resolve name), w) := fun _ => rfl
  have hj : ∀ a b, (okEnv resolve volMeta skip tools).join a b = a ++ "/" ++ b := fun _ _ => rfl
  simp only [Holders, VolumeDriver.Mount, VolumeDriver.processMount, Sys.call,
    VolumeDriver.sysIncr, VolumeDriver.incrRefCount, MarkDirty_of_init _ hinit, hinit,
    RefCountsMap.Incr, hcnt, hroot, hget]
  simp [hroot, hst, callsSince, physical_cons, getMountPoint, hj] at hmnt hatt ⊢
  exact ⟨hmnt, hatt⟩

/-- The `Unmount` of a holder that is not the last one only decrements the count. -/
theorem Unmount_more (root name full id : String) (k : Nat) (s : Sys World)
    (hfull : (resolve name).VolumeName = full) (h : Holders root full (k + 2) s)
    (hrec : s.d.mountIDtoName id = none ∨ s.d.mountIDtoName id = some full) :
    (VolumeDriver.Unmount (okEnv resolve volMeta skip tools) { Name := name, ID := id } s).1
      = { Err := "" } ∧
    physical (callsSince s
      (VolumeDriver.Unmount (okEnv resolve volMeta skip tools) { Name := name, ID := id } s).2)
      = (0, 0, 0, 0) ∧
    Holders root full (k + 1)
      (VolumeDriver.Unmount (okEnv resolve volMeta skip tools) { Name := name, ID := id } s).2 ∧
    (∀ i, (VolumeDriver.Unmount (okEnv resolve volMeta skip tools)
      { Name := name, ID := id } s).2.d.mountIDtoName i
      = if i = id then none else s.d.mountIDtoName i) := by
  obtain ⟨hst, hcnt, hroot, hmnt, hatt⟩ := h
  have hinit : s.d.refCounts.GetInitSuccess = true := by simp [RefCountsMap.GetInitSuccess, hst]
  subst hfull
  have hget : ∀ w, (okEnv resolve volMeta skip tools).getVolumeInfo name w
      = (Except.ok (resolve name), w) := fun _ => rfl
  rcases hrec with hrec | hrec
  · simp only [Holders, VolumeDriver.Unmount, VolumeDriver.unmountResolved, Sys.call,
      VolumeDriver.sysDecr, VolumeDriver.decrRefCount, hinit, RefCountsMap.Decr, hcnt, hroot,
      hget, hrec]
    simp [hroot, hst, callsSince, physical_cons] at hmnt hatt ⊢
    refine ⟨⟨hmnt, hatt⟩, ?_⟩
    intro i
    split
    · next hi => rw [hi, hrec]
    · rfl
  · simp only [Holders, VolumeDriver.Unmount, VolumeDriver.unmountResolved, Sys.call,
      VolumeDriver.sysDecr, VolumeDriver.decrRefCount, hinit, RefCountsMap.Decr, hcnt, hroot,
      hget, hrec]
    simp [hroot, hst, callsSince] at hmnt hatt ⊢
    exact ⟨hmnt, hatt⟩

/-- The `Unmount` of the last holder unmounts the mountpoint and detaches the volume. -/
theorem Unmount_last (root name full id : String) (s : Sys World)
    (hfull : (resolve name).VolumeName = full) (h : Holders root full 1 s)
    (hrec : s.d.mountIDtoName id = none ∨ s.d.mountIDtoName id = some full) :
    (VolumeDriver.Unmount (okEnv resolve volMeta skip tools) { Name := name, ID := id } s).1
      = { Err := "" } ∧
    physical (callsSince s
      (VolumeDriver.Unmount (okEnv resolve volMeta skip tools) { Name := name, ID := id } s).2)
      = (0, 0, 1, 1) ∧
    Holders root full 0
      (VolumeDriver.Unmount (okEnv resolve volMeta skip tools) { Name := name, ID := id } s).2 ∧
    (∀ i, (VolumeDriver.Unmount (okEnv resolve volMeta skip tools)
      { Name := name, ID := id } s).2.d.mountIDtoName i
      = if i = id then none else s.d.mountIDtoName i) := by
  obtain ⟨hst, hcnt, hroot, hmnt, hatt⟩ := h
  have hinit : s.d.refCounts.GetInitSuccess = true := by simp [RefCountsMap.GetInitSuccess, hst]
  subst hfull
  have hget : ∀ w, (okEnv resolve volMeta skip tools).getVolumeInfo name w
      = (Except.ok (resolve name), w) := fun _ => rfl
  have hun : ∀ p w, (okEnv resolve volMeta skip tools).fsUnmount p w
      = (none, { w with mounted := fun q => if q = p then false else w.mounted q }) :=
    fun _ _ => rfl
  have hde : ∀ n w, (okEnv resolve volMeta skip tools).opsDetach n w
      = (none, { w with attached := fun v => if v = n then false else w.attached v }) :=
    fun _ _ => rfl
  have hj : ∀ a b, (okEnv resolve volMeta skip tools).join a b = a ++ "/" ++ b := fun _ _ => rfl
  rcases hrec with hrec | hrec
  · simp only [Holders, VolumeDriver.Unmount, VolumeDriver.unmountResolved, Sys.call,
      VolumeDriver.sysDecr, VolumeDriver.decrRefCount, hinit, RefCountsMap.Decr, hcnt, hroot,
      hget, hrec, VolumeDriver.UnmountVolume, hun, hde, getMountPoint, hj]
    simp [hroot, hst, callsSince, physical_cons]
    refine ⟨rfl, ?_⟩
    intro i
    split
    · next hi => rw [hi, hrec]
    · rfl
  · simp only [Holders, VolumeDriver.Unmount, VolumeDriver.unmountResolved, Sys.call,
      VolumeDriver.sysDecr, VolumeDriver.decrRefCount, hinit, RefCountsMap.Decr, hcnt, hroot,
      hget, hrec, VolumeDriver.UnmountVolume, hun, hde, getMountPoint, hj]
    simp [hroot, hst, callsSince, physical_cons]
    rfl

/-- Serving a sequence without unmatched `Unmount` from a consistent state with
`k` holders leads to a consistent state with `k + N - M` holders. -/
theorem runLog_Holders (root name full : String) (hfull : (resolve name).VolumeName = full)
    (qs : List Req) :
    ∀ (k : Nat) (s : Sys World), Holders root full k s →
      (∀ id n, s.d.mountIDtoName id = some n → n = full) → wellNested k qs = true →
      unmounts qs ≤ k + mounts qs ∧
      Holders root full (k + mounts qs - unmounts qs)
        (runLog (okEnv resolve volMeta skip tools) name full qs s).2 := by
  induction qs with
  | nil => intro k s h _ _; exact ⟨Nat.zero_le _, by simpa [runLog, mounts, unmounts] using h⟩
  | cons q qs ih =>
    intro k s h hrec hnest
    cases q with
    | mount id =>
      have hstep : Holders root full (k + 1)
            (VolumeDriver.Mount (okEnv resolve volMeta skip tools) { Name := name, ID := id } s).2 ∧
          (VolumeDriver.Mount (okEnv resolve volMeta skip tools)
            { Name := name, ID := id } s).2.d.mountIDtoName
            = fun i => if i = id then some full else s.d.mountIDtoName i := by
        cases k with
        | zero =>
          have := Mount_first resolve volMeta skip tools root name full id s hfull h
          exact ⟨this.2.2.1, this.2.2.2⟩
        | succ k =>
          have := Mount_more resolve volMeta skip tools root name full id k s hfull h
          exact ⟨this.2.2.1, this.2.2.2⟩
      have hrec1 : ∀ i n, (VolumeDriver.Mount (okEnv resolve volMeta skip tools)
          { Name := name, ID := id } s).2.d.mountIDtoName i = some n → n = full := by
        intro i n hi
        rw [hstep.2] at hi
        by_cases hid : i = id
        · simp only [hid, if_true, Option.some.injEq] at hi
          exact hi.symm
        · simp only [hid, if_false] at hi
          exact hrec i n hi
      have hnest1 : wellNested (k + 1) qs = true := by simpa [wellNested] using hnest
      obtain ⟨hle, hfin⟩ := ih (k + 1) _ hstep.1 hrec1 hnest1
      have hm : mounts (Req.mount id :: qs) = mounts qs + 1 := by simp [mounts]
      have hu : unmounts (Req.mount id :: qs) = unmounts qs := by simp [unmounts]
      refine ⟨by omega, ?_⟩
      have hk : k + mounts (Req.mount id :: qs) - unmounts (Req.mount id :: qs)
          = k + 1 + mounts qs - unmounts qs := by omega
      rw [hk]
      exact hfin
    | unmount id =>
      cases k with
      | zero => simp [wellNested] at hnest
      | succ k =>
        have hrec0 : s.d.mountIDtoName id = none ∨ s.d.mountIDtoName id = some full := by
          cases hid : s.d.mountIDtoName id with
          | none => exact Or.inl rfl
          | some n => exact Or.inr (by rw [hrec id n hid])
        have hstep : Holders root full k
              (VolumeDriver.Unmount (okEnv resolve volMeta skip tools)
                { Name := name, ID := id } s).2 ∧
            (∀ i, (VolumeDriver.Unmount (okEnv resolve volMeta skip tools)
              { Name := name, ID := id } s).2.d.mountIDtoName i
              = if i = id then none else s.d.mountIDtoName i) := by
          cases k with
          | zero =>
            have := Unmount_last resolve volMeta skip tools root name full id s hfull h hrec0
            exact ⟨this.2.2.1, this.2.2.2⟩
          | succ k =>
            have := Unmount_more resolve volMeta skip tools root name full id k s hfull h hrec0
            exact ⟨this.2.2.1, this.2.2.2⟩
        have hrec1 : ∀ i n, (VolumeDriver.Unmount (okEnv resolve volMeta skip tools)
            { Name := name, ID := id } s).2.d.mountIDtoName i = some n → n = full := by
          intro i n hi
          rw [hstep.2] at hi
          by_cases hid : i = id
          · simp [hid] at hi
          · simp only [hid, if_false] at hi
            exact hrec i n hi
        have hnest1 : wellNested k qs = true := by simpa [wellNested] using hnest
        obtain ⟨hle, hfin⟩ := ih k _ hstep.1 hrec1 hnest1
        have hm : mounts (Req.unmount id :: qs) = mounts qs := by simp [mounts]
        have hu : unmounts (Req.unmount id :: qs) = unmounts qs + 1 := by simp [unmounts]
        refine ⟨by omega, ?_⟩
        have hk : k + 1 + mounts (Req.unmount id :: qs) - unmounts (Req.unmount id :: qs)
            = k + mounts qs - unmounts qs := by omega
        rw [hk]
        exact hfin

/-- Serving two sequences in a row. -/
theorem runLog_append {ω : Type} (env : Env ω) (name full : String) (qs qs' : List Req) :
    ∀ s : Sys ω, runLog env name full (qs ++ qs') s =
      ((runLog env name full qs s).1 ++ (runLog env name full qs' (runLog env name full qs s).2).1,
       (runLog env name full qs' (runLog env name full qs s).2).2) := by
  induction qs with
  | nil => intro s; simp [runLog]
  | cons q qs ih => intro s; simp [runLog, ih]

/-- A run of `Mount` requests on a volume that has holders. -/
theorem runLog_mounts_more (root name full : String) (hfull : (resolve name).VolumeName = full)
    (ms : List String) :
    ∀ (c : Nat) (s : Sys World), Holders root full (c + 1) s →
      (runLog (okEnv resolve volMeta skip tools) name full (ms.map Req.mount) s).1
        = (List.range ms.length).map (fun i => mountStep (root ++ "/" ++ full) (c + 1 + i)) ∧
      Holders root full (c + 1 + ms.length)
        (runLog (okEnv resolve volMeta skip tools) name full (ms.map Req.mount) s).2 ∧
      (∀ u, (u ∈ ms ∨ s.d.mountIDtoName u = some full) →
        (runLog (okEnv resolve volMeta skip tools) name full
          (ms.map Req.mount) s).2.d.mountIDtoName u = some full) := by
  induction ms with
  | nil => intro c s h; exact ⟨rfl, h, fun u hu => by simpa using hu⟩
  | cons m ms ih =>
    intro c s h
    obtain ⟨hresp, hphys, hnext, hmap⟩ :=
      Mount_more resolve volMeta skip tools root name full m c s hfull h
    obtain ⟨hlog, hfin, hrec⟩ := ih (c + 1) _ hnext
    refine ⟨?_, ?_, ?_⟩
    · simp only [List.map_cons, runLog, Req.run, List.length_cons, List.range_succ_eq_map,
        List.map_map, hlog]
      refine congrArg₂ _ ?_ ?_
      · simp [mountStep, hresp, hphys, hnext.2.1, RefCountsMap.GetCount]
      · apply List.map_congr_left
        intro i _
        simp [mountStep]
        omega
    · have : c + 1 + (m :: ms).length = c + 1 + 1 + ms.length := by simp; omega
      rw [this]; exact hfin
    · intro u hu
      apply hrec
      rw [hmap]
      by_cases hum : u = m
      · right; simp [hum]
      · rcases hu with hu | hu
        · left; simpa [hum] using hu
        · right; simpa [hum] using hu

/-- A run of `Unmount` requests with distinct recorded mount IDs, one for each holder. -/
theorem runLog_unmounts_all (root name full : String) (hfull : (resolve name).VolumeName = full)
    (us : List String) :
    ∀ s : Sys World, Holders root full us.length s → us.Nodup →
      (∀ u ∈ us, s.d.mountIDtoName u = some full) →
      (runLog (okEnv resolve volMeta skip tools) name full (us.map Req.unmount) s).1
        = (List.range us.length).map (unmountStep us.length) ∧
      Holders root full 0
        (runLog (okEnv resolve volMeta skip tools) name full (us.map Req.unmount) s).2 := by
  induction us with
  | nil => intro s h _ _; exact ⟨rfl, h⟩
  | cons u us ih =>
    intro s h hnd hrec
    have hu : s.d.mountIDtoName u = none ∨ s.d.mountIDtoName u = some full :=
      Or.inr (hrec u (List.mem_cons_self _ _))
    have hstep : (VolumeDriver.Unmount (okEnv resolve volMeta skip tools)
          { Name := name, ID := u } s).1 = { Err := "" } ∧
        physical (callsSince s (VolumeDriver.Unmount (okEnv resolve volMeta skip tools)
          { Name := name, ID := u } s).2)
          = (if us.length = 0 then (0, 0, 1, 1) else (0, 0, 0, 0)) ∧
        Holders root full us.length (VolumeDriver.Unmount (okEnv resolve volMeta skip tools)
          { Name := name, ID := u } s).2 ∧
        (∀ i, (VolumeDriver.Unmount (okEnv resolve volMeta skip tools)
          { Name := name, ID := u } s).2.d.mountIDtoName i
          = if i = u then none else s.d.mountIDtoName i) := by
      cases hlen : us.length with
      | zero =>
        rw [List.length_cons, hlen] at h
        simpa using Unmount_last resolve volMeta skip tools root name full u s hfull h hu
      | succ n =>
        rw [List.length_cons, hlen] at h
        simpa using Unmount_more resolve volMeta skip tools root name full u n s hfull h hu
    obtain ⟨hresp, hphys, hnext, hmap⟩ := hstep
    have hnd' : us.Nodup := (List.nodup_cons.mp hnd).2
    have hnotin : u ∉ us := (List.nodup_cons.mp hnd).1
    have hrec' : ∀ v ∈ us, (VolumeDriver.Unmount (okEnv resolve volMeta skip tools)
        { Name := name, ID := u } s).2.d.mountIDtoName v = some full := by
      intro v hv
      rw [hmap]
      have hvu : v ≠ u := fun h => hnotin (h ▸ hv)
      simpa [hvu] using hrec v (List.mem_cons_of_mem _ hv)
    obtain ⟨hlog, hfin⟩ := ih _ hnext hnd' hrec'
    refine ⟨?_, hfin⟩
    simp only [List.map_cons, runLog, Req.run, List.length_cons, List.range_succ_eq_map,
      List.map_map, hlog]
    refine congrArg₂ _ ?_ ?_
    · simp [unmountStep, hresp, hphys, hnext.2.1, RefCountsMap.GetCount]
    · apply List.map_congr_left
      intro i _
      simp [unmountStep]
      omega

/-- C2, as the code has it. In the world where every call succeeds, serve any
sequence of `N` Mount and `M` Unmount requests for one volume in which no
`Unmount` comes without an outstanding `Mount` (every prefix has at least as
many mounts as unmounts), starting on a bootstrapped store with no count for the
volume, the mountpoint not mounted, and no mount record of another volume.
Then `M ≤ N`, the final count is `N - M`, and the volume is attached and
mounted exactly when `N > M`. -/
theorem mount_unmount_sequence (root name full : String) (qs : List Req) (s : Sys World)
    (hfull : (resolve name).VolumeName = full)
    (hinit : s.d.refCounts.GetInitSuccess = true)
    (hcount : s.d.refCounts.GetCount full = 0)
    (hroot : s.d.mountRoot = root)
    (hmounted : s.w.mounted (root ++ "/" ++ full) = false)
    (hrec : ∀ id n, s.d.mountIDtoName id = some n → n = full)
    (hnest : wellNested 0 qs = true) :
    unmounts qs ≤ mounts qs ∧
    (runLog (okEnv resolve volMeta skip tools) name full qs s).2.d.refCounts.GetCount full
      = mounts qs - unmounts qs ∧
    (((runLog (okEnv resolve volMeta skip tools) name full qs s).2.w.attached full = true ∧
      (runLog (okEnv resolve volMeta skip tools) name full qs s).2.w.mounted
        (root ++ "/" ++ full) = true) ↔ unmounts qs < mounts qs) := by
  have h0 : Holders root full 0 s := by
    refine ⟨?_, hcount, hroot, by simpa using hmounted, fun h => absurd h (Nat.lt_irrefl 0)⟩
    simpa [RefCountsMap.GetInitSuccess] using hinit
  obtain ⟨hle, _, hcnt, _, hmnt, hatt⟩ :=
    runLog_Holders resolve volMeta skip tools root name full hfull qs 0 s h0 hrec hnest
  rw [Nat.zero_add] at hle hcnt hmnt hatt
  refine ⟨hle, hcnt, ?_⟩
  constructor
  · rintro ⟨-, hm⟩
    rw [hmnt] at hm
    have := of_decide_eq_true hm
    omega
  · intro hlt
    have hpos : 0 < mounts qs - unmounts qs := by omega
    exact ⟨hatt hpos, by rw [hmnt]; exact decide_eq_true hpos⟩

/-- C3, as the code has it. In the world where every call succeeds, on a
bootstrapped store with no count for the volume and with its mountpoint not
already mounted, `k ≥ 1` Mount requests with distinct mount IDs followed by the
`k` matching Unmount requests (in any order) do this, request by request: every
Mount returns the mountpoint and every Unmount an empty error; the first Mount
makes exactly one `Attach` and one filesystem mount and no other request makes
any; the last Unmount makes exactly one filesystem unmount and one `Detach` and
no other request makes any; the count goes 1, 2, ..., k, k-1, ..., 0. -/
theorem mounts_then_unmounts (root name full : String) (ms us : List String) (s : Sys World)
    (hfull : (resolve name).VolumeName = full)
    (hinit : s.d.refCounts.GetInitSuccess = true)
    (hcount : s.d.refCounts.GetCount full = 0)
    (hroot : s.d.mountRoot = root)
    (hmounted : s.w.mounted (root ++ "/" ++ full) = false)
    (hne : ms ≠ []) (hnodup : ms.Nodup) (hperm : us.Perm ms) :
    (runLog (okEnv resolve volMeta skip tools) name full
        (ms.map Req.mount ++ us.map Req.unmount) s).1
      = (List.range ms.length).map (mountStep (root ++ "/" ++ full))
          ++ (List.range ms.length).map (unmountStep ms.length) := by
  have h0 : Holders root full 0 s := by
    refine ⟨?_, hcount, hroot, by simpa using hmounted, fun h => absurd h (Nat.lt_irrefl 0)⟩
    simpa [RefCountsMap.GetInitSuccess] using hinit
  cases ms with
  | nil => exact absurd rfl hne
  | cons m ms =>
    obtain ⟨hresp, hphys, hnext, hmap⟩ :=
      Mount_first resolve volMeta skip tools root name full m s hfull h0
    obtain ⟨hlog, hfin, hrec⟩ :=
      runLog_mounts_more resolve volMeta skip tools root name full hfull ms 0 _ hnext
    have hlen : us.length = (m :: ms).length := hperm.length_eq
    have hfin' : Holders root full us.length
        (runLog (okEnv resolve volMeta skip tools) name full ((m :: ms).map Req.mount) s).2 := by
      rw [hlen]
      have : (m :: ms).length = 0 + 1 + ms.length := by simp; omega
      rw [this]
      exact hfin
    have hrec' : ∀ u ∈ us,
        (runLog (okEnv resolve volMeta skip tools) name full
          ((m :: ms).map Req.mount) s).2.d.mountIDtoName u = some full := by
      intro u hu
      have hmem : u ∈ m :: ms := hperm.subset hu
      apply hrec
      rw [hmap]
      by_cases hum : u = m
      · right; simp [hum]
      · left; simpa [hum] using hmem
    obtain ⟨hulog, -⟩ :=
      runLog_unmounts_all resolve volMeta skip tools root name full hfull us _ hfin'
        (hperm.nodup_iff.mpr hnodup) hrec'
    rw [runLog_append]
    simp only []
    rw [hulog, hlen]
    refine congrArg₂ _ ?_ rfl
    simp only [List.map_cons, runLog, Req.run, List.length_cons, List.range_succ_eq_map,
      List.map_map, hlog]
    refine congrArg₂ _ ?_ ?_
    · simp [mountStep, hresp, hphys, hnext.2.1, RefCountsMap.GetCount]
    · apply List.map_congr_left
      intro i _
      simp [mountStep]
      omega

end sequences

/-- Instance of `mount_unmount_sequence`: two mounts and one unmount of `vol1`
leave count 1. -/
theorem mount_unmount_sequence_witness :
    wellNested 0 [Req.mount "a", Req.mount "b", Req.unmount "a"] = true ∧
    (runLog (okEnv bareInfo (fun _ => none) false []) "vol1" "vol1"
        [Req.mount "a", Req.mount "b", Req.unmount "a"]
        (freshSys InitState.ready (fun _ => 0) emptyWorld)).2.d.refCounts.GetCount "vol1"
      = mounts [Req.mount "a", Req.mount "b", Req.unmount "a"]
          - unmounts [Req.mount "a", Req.mount "b", Req.unmount "a"] :=
  ⟨rfl,
   (mount_unmount_sequence bareInfo (fun _ => none) false [] "/mnt/vmdk" "vol1" "vol1"
      [Req.mount "a", Req.mount "b", Req.unmount "a"]
      (freshSys InitState.ready (fun _ => 0) emptyWorld) rfl rfl rfl rfl rfl
      (fun _ _ h => by simp [freshSys, freshDriver] at h) rfl).2.1⟩

/-- Instance of `mounts_then_unmounts` with `k = 2`: mounts `a`, `b`, then
unmounts `b`, `a`. -/
theorem mounts_then_unmounts_witness :
    ["a", "b"].Nodup ∧ ["b", "a"].Perm ["a", "b"] ∧
    (runLog (okEnv bareInfo (fun _ => none) false []) "vol1" "vol1"
        (["a", "b"].map Req.mount ++ ["b", "a"].map Req.unmount)
        (freshSys InitState.ready (fun _ => 0) emptyWorld)).1
      = [ { resp := { Mountpoint := "/mnt/vmdk/vol1" }, phys := (1, 1, 0, 0), count := 1 },
          { resp := { Mountpoint := "/mnt/vmdk/vol1" }, phys := (0, 0, 0, 0), count := 2 },
          { resp := { Err := "" }, phys := (0, 0, 0, 0), count := 1 },
          { resp := { Err := "" }, phys := (0, 0, 1, 1), count := 0 } ] :=
  ⟨by decide, List.Perm.swap "a" "b" [],
   (mounts_then_unmounts bareInfo (fun _ => none) false [] "/mnt/vmdk" "vol1" "vol1"
      ["a", "b"] ["b", "a"] (freshSys InitState.ready (fun _ => 0) emptyWorld)
      rfl rfl rfl rfl rfl (by decide) (by decide) (List.Perm.swap "a" "b" [])).trans
      (by decide)⟩

/-- C3 fails as stated: on a bootstrapped store with no count for `vol1` whose
mountpoint is still mounted, with every call succeeding, `Mount` followed by the
matching `Unmount` (`k = 1`) both succeed, but the first (and only) Mount makes
no `Attach` and no filesystem mount: it is answered by the already-mounted
check. -/
theorem first_mount_of_mounted_volume_skips_attach :
    (freshSys InitState.ready (fun _ => 0) staleWorld).d.refCounts.GetInitSuccess = true ∧
    (freshSys InitState.ready (fun _ => 0) staleWorld).d.refCounts.GetCount "vol1" = 0 ∧
    (runLog (okEnv bareInfo (fun _ => none) false []) "vol1" "vol1"
        (["a"].map Req.mount ++ ["a"].map Req.unmount)
        (freshSys InitState.ready (fun _ => 0) staleWorld)).1
      = [ { resp := { Mountpoint := "/mnt/vmdk/vol1" }, phys := (0, 0, 0, 0), count := 1 },
          { resp := { Err := "" }, phys := (0, 0, 1, 1), count := 0 } ] := by
  refine ⟨rfl, rfl, ?_⟩
  decide

/-- C6: the code at the failing input. Name resolution qualifies the bare
name `vol1` to `vol1@datastore1`. After a successful `Mount` of `vol1` the count
is kept under the full name, `Remove` looks the bare request name up, finds no
count, and hands the volume to backend `Remove`. -/
theorem Remove_bare_name_after_Mount :
    (VolumeDriver.Mount (okEnv qualifiedInfo (fun _ => none) false []) { Name := "vol1", ID := "a" }
        (freshSys InitState.ready (fun _ => 0) emptyWorld)).1
      = { Mountpoint := "/mnt/vmdk/vol1@datastore1" } ∧
    (VolumeDriver.Mount (okEnv qualifiedInfo (fun _ => none) false []) { Name := "vol1", ID := "a" }
        (freshSys InitState.ready (fun _ => 0) emptyWorld)).2.d.refCounts.GetCount
          "vol1@datastore1" = 1 ∧
    (VolumeDriver.Mount (okEnv qualifiedInfo (fun _ => none) false []) { Name := "vol1", ID := "a" }
        (freshSys InitState.ready (fun _ => 0) emptyWorld)).2.d.refCounts.GetCount "vol1" = 0 ∧
    (VolumeDriver.Remove (okEnv qualifiedInfo (fun _ => none) false [])
        { Name := "vol1", Options := none }
        (VolumeDriver.Mount (okEnv qualifiedInfo (fun _ => none) false [])
          { Name := "vol1", ID := "a" }
          (freshSys InitState.ready (fun _ => 0) emptyWorld)).2).1 = { Err := "" } ∧
    callsSince
        (VolumeDriver.Mount (okEnv qualifiedInfo (fun _ => none) false [])
          { Name := "vol1", ID := "a" } (freshSys InitState.ready (fun _ => 0) emptyWorld)).2
        (VolumeDriver.Remove (okEnv qualifiedInfo (fun _ => none) false [])
          { Name := "vol1", Options := none }
          (VolumeDriver.Mount (okEnv qualifiedInfo (fun _ => none) false [])
            { Name := "vol1", ID := "a" }
            (freshSys InitState.ready (fun _ => 0) emptyWorld)).2).2
      = [Call.opsRemove "vol1" none] := by
  refine ⟨?_, ?_, ?_, ?_, ?_⟩ <;> decide

/-- C8: the code at the failing input. The store has not completed bootstrap,
name resolution of `vol1` succeeds and supplies the volume metadata, and the
mountpoint is not mounted. `Mount` fails with the plugin-init error after the
already-mounted check: it makes no `Attach` and no filesystem mount, although
every collaborator call would succeed. -/
theorem Mount_uninit_with_metadata_fails :
    (freshSys InitState.uninit (fun _ => 0) emptyWorld).d.refCounts.GetInitSuccess = false ∧
    (VolumeDriver.Mount (okEnv qualifiedInfo (fun _ => none) false []) { Name := "vol1", ID := "a" }
        (freshSys InitState.uninit (fun _ => 0) emptyWorld)).1
      = { Err := (okEnv qualifiedInfo (fun _ => none) false []).errorPluginInit } ∧
    (VolumeDriver.Mount (okEnv qualifiedInfo (fun _ => none) false []) { Name := "vol1", ID := "a" }
        (freshSys InitState.uninit (fun _ => 0) emptyWorld)).2.trace
      = [Call.getVolumeInfo "vol1", Call.alreadyMounted "vol1@datastore1" "/mnt/vmdk"] ∧
    (VolumeDriver.Mount (okEnv qualifiedInfo (fun _ => none) false []) { Name := "vol1", ID := "a" }
        (freshSys InitState.uninit (fun _ => 0) emptyWorld)).2.w.attached "vol1@datastore1"
      = false := by
  refine ⟨rfl, ?_, ?_, ?_⟩ <;> decide

/-- C2 fails as stated: serve `Unmount` and then `Mount` of `vol1` (`N = M = 1`)
on a bootstrapped store with no count for it, every call succeeding.  Both
requests succeed, and afterwards the count is 1, not `N - M = 0`, and the
volume is attached and mounted though `N > M` does not hold. -/
theorem unmount_then_mount_leaves_count_one :
    mounts [Req.unmount "a", Req.mount "a"] = 1 ∧
    unmounts [Req.unmount "a", Req.mount "a"] = 1 ∧
    (freshSys InitState.ready (fun _ => 0) emptyWorld).d.refCounts.GetInitSuccess = true ∧
    (freshSys InitState.ready (fun _ => 0) emptyWorld).d.refCounts.GetCount "vol1" = 0 ∧
    ((runLog (okEnv bareInfo (fun _ => none) false []) "vol1" "vol1"
        [Req.unmount "a", Req.mount "a"]
        (freshSys InitState.ready (fun _ => 0) emptyWorld)).1.map (fun st => st.resp.Err)
      = ["", ""]) ∧
    (runLog (okEnv bareInfo (fun _ => none) false []) "vol1" "vol1"
        [Req.unmount "a", Req.mount "a"]
        (freshSys InitState.ready (fun _ => 0) emptyWorld)).2.d.refCounts.GetCount "vol1" = 1 ∧
    (runLog (okEnv bareInfo (fun _ => none) false []) "vol1" "vol1"
        [Req.unmount "a", Req.mount "a"]
        (freshSys InitState.ready (fun _ => 0) emptyWorld)).2.w.attached "vol1" = true ∧
    (runLog (okEnv bareInfo (fun _ => none) false []) "vol1" "vol1"
        [Req.unmount "a", Req.mount "a"]
        (freshSys InitState.ready (fun _ => 0) emptyWorld)).2.w.mounted "/mnt/vmdk/vol1" = true := by
  refine ⟨rfl, rfl, rfl, rfl, ?_, ?_, ?_, ?_⟩ <;> decide

/-! ### `Create` without clone source -/

section create
variable {ω : Type}

/-- `Create` without clone source, stage by stage. -/
theorem Create_eq (env : Env ω) (r : Request) (s : Sys ω)
    (hnoclone : (optionsOf r).lookup "clone-from" = none) :
    VolumeDriver.Create env r s =
      match (createLookup env s).1.lookup (createFstype env r) with
      | none =>
        ({ Err := "Not found mkfs for " ++ createFstype env r ++ "\nSupported filesystems found: "
                    ++ VolumeDriver.validfs ((createLookup env s).1.map Prod.fst) },
         (createLookup env s).2)
      | some mkfscmd =>
        match (createBackend env r s).1 with
        | some errCreate => ({ Err := errCreate }, (createBackend env r s).2)
        | none =>
          match (createAttach env r s).1 with
          | Except.error errAttach =>
            ({ Err := errAttach }, VolumeDriver.createRollback env r.Name (createAttach env r s).2)
          | Except.ok dev =>
            match (createDevPath env r s dev).1 with
            | Except.error errGetDevicePath =>
              ({ Err := errGetDevicePath },
               VolumeDriver.createRollback env r.Name (createDevPath env r s dev).2)
            | Except.ok device =>
              match (createMkfs env r s dev device mkfscmd).1 with
              | some errMkfs =>
                ({ Err := errMkfs },
                 VolumeDriver.createRollback env r.Name (createMkfs env r s dev device mkfscmd).2)
              | none =>
                (errResponse (createDetach env r s dev device mkfscmd).1,
                 (createDetach env r s dev device mkfscmd).2) := by
  have h0 : (match r.Options with | none => [] | some m => m) = optionsOf r := rfl
  simp only [VolumeDriver.Create, h0, hnoclone, Option.isSome_none, Bool.false_eq_true, if_false]
  rfl

/-! #### The message listing the supported filesystems -/

/-- A string that is not empty stays so when something is appended. -/
theorem append_ne_empty (a b : String) (h : a ≠ "") : a ++ b ≠ "" := by
  intro hab
  have hl : (a ++ b).length = 0 := by rw [hab]; rfl
  rw [String.length_append] at hl
  have ha : a.length = 0 := by omega
  apply h
  apply String.ext
  exact List.length_eq_zero.mp ha

/-- Once the listing is not empty, the loop of `Create` appends every further
type after a `", "`. -/
theorem validfs_foldl_ne_empty (ks : List String) :
    ∀ acc : String, acc ≠ "" →
      ks.foldl (fun acc fs => if acc != "" then acc ++ ", " ++ fs else acc ++ fs) acc
        = String.intercalate.go acc ", " ks := by
  induction ks with
  | nil => intro acc _; rfl
  | cons k ks ih =>
    intro acc hacc
    have hstep : (if acc != "" then acc ++ ", " ++ k else acc ++ k) = acc ++ ", " ++ k := by
      simp [hacc]
    simp only [List.foldl_cons, hstep, String.intercalate.go]
    exact ih _ (append_ne_empty _ _ (append_ne_empty _ _ hacc))

/-- The listing built by `Create`: the types in the order the loop visits them,
separated by `", "`; empty type names visited before the first non-empty one
leave no trace. -/
theorem validfs_eq (ks : List String) :
    VolumeDriver.validfs ks = ", ".intercalate (ks.dropWhile (fun k => k == "")) := by
  unfold VolumeDriver.validfs
  induction ks with
  | nil => rfl
  | cons k ks ih =>
    by_cases hk : k = ""
    · subst hk
      simpa using ih
    · have hstep : (if ("" : String) != "" then "" ++ ", " ++ k else "" ++ k) = k := by simp
      simp only [List.foldl_cons, hstep]
      rw [validfs_foldl_ne_empty ks k hk]
      have hb : (k == "") = false := by simpa using hk
      rw [List.dropWhile_cons, hb]
      rfl

/-- When no type name is empty the listing is the types separated by `", "`. -/
theorem validfs_eq_intercalate (ks : List String) (h : ∀ k ∈ ks, k ≠ "") :
    VolumeDriver.validfs ks = ", ".intercalate ks := by
  rw [validfs_eq]
  congr 1
  cases ks with
  | nil => rfl
  | cons k ks =>
    have hk : k ≠ "" := h k (List.mem_cons_self _ _)
    have hb : (k == "") = false := by simpa using hk
    rw [List.dropWhile_cons, hb]
    rfl

/-! #### Options and stages -/

/-- Reading back the key just assigned. -/
theorem lookup_set_self (m : StrMap) (k v : String) : (m.set k v).lookup k = some v := by
  simp [StrMap.set, List.lookup]

/-- Assignment leaves the other keys alone. -/
theorem lookup_set_other (m : StrMap) (k v k' : String) (h : k' ≠ k) :
    (m.set k v).lookup k' = m.lookup k' := by
  have hb : (k' == k) = false := by simpa using h
  simp only [StrMap.set, List.lookup, hb]
  induction m with
  | nil => rfl
  | cons p m ih =>
    obtain ⟨a, b⟩ := p
    by_cases ha : a = k
    · subst ha
      have hb' : (k' == a) = false := hb
      simp [List.filter, List.lookup, hb', ih]
    · have hne : (a != k) = true := by simpa using ha
      simp only [List.filter, hne, List.lookup]
      cases k' == a <;> simp [ih]

/-- A requested filesystem type is used unchanged, and so are the options. -/
theorem createFstype_of_some (env : Env ω) (r : Request) (v : String)
    (h : (optionsOf r).lookup "fstype" = some v) :
    createFstype env r = v ∧ createOptions env r = optionsOf r := by
  simp [createFstype, createOptions, h]

/-- Without a requested filesystem type the default is used, and handed to the
backend under `fstype` with the other options unchanged. -/
theorem createFstype_of_none (env : Env ω) (r : Request)
    (h : (optionsOf r).lookup "fstype" = none) :
    createFstype env r = env.fstypeDefault ∧
    (createOptions env r).lookup "fstype" = some env.fstypeDefault ∧
    ∀ k, k ≠ "fstype" → (createOptions env r).lookup k = (optionsOf r).lookup k := by
  refine ⟨?_, ?_, ?_⟩
  · simp [createFstype, createOptions, h, lookup_set_self]
  · simp [createOptions, h, lookup_set_self]
  · intro k hk
    simp [createOptions, h, lookup_set_other _ _ _ _ hk]

/-- The calls made since a state, read off an extension of its call log. -/
theorem callsSince_of_trace (s s' : Sys ω) (cs : List Call) (h : s'.trace = s.trace ++ cs) :
    callsSince s s' = cs := by
  simp [callsSince, h]

/-- Call log after the mkfs lookup. -/
theorem createLookup_trace (env : Env ω) (s : Sys ω) :
    (createLookup env s).2.trace = s.trace ++ [Call.fsMkfsLookup] := rfl

/-- Call log after backend `Create`. -/
theorem createBackend_trace (env : Env ω) (r : Request) (s : Sys ω) :
    (createBackend env r s).2.trace
      = s.trace ++ [Call.fsMkfsLookup, Call.opsCreate r.Name (createOptions env r)] := by
  simp [createBackend, createLookup, Sys.call]

/-- Call log after `Attach`. -/
theorem createAttach_trace (env : Env ω) (r : Request) (s : Sys ω) :
    (createAttach env r s).2.trace
      = s.trace ++ [Call.fsMkfsLookup, Call.opsCreate r.Name (createOptions env r),
          Call.fsDevAttachWaitPrep r.Name watchPath, Call.opsAttach r.Name] := by
  simp [createAttach, createPrep, createBackend, createLookup, Sys.call]

/-- Call log after device-path resolution. -/
theorem createDevPath_trace (env : Env ω) (r : Request) (s : Sys ω) (dev : String) :
    (createDevPath env r s dev).2.trace
      = s.trace ++ [Call.fsMkfsLookup, Call.opsCreate r.Name (createOptions env r),
          Call.fsDevAttachWaitPrep r.Name watchPath, Call.opsAttach r.Name,
          Call.fsGetDevicePath dev] := by
  simp [createDevPath, createAttach_trace, Sys.call]

/-- Call log after `Mkfs`. -/
theorem createMkfs_trace (env : Env ω) (r : Request) (s : Sys ω) (dev device mkfscmd : String) :
    (createMkfs env r s dev device mkfscmd).2.trace
      = s.trace ++ [Call.fsMkfsLookup, Call.opsCreate r.Name (createOptions env r),
          Call.fsDevAttachWaitPrep r.Name watchPath, Call.opsAttach r.Name,
          Call.fsGetDevicePath dev, createWaitCall env r s device,
          Call.fsMkfs mkfscmd r.Name device] := by
  simp only [createMkfs, createWait, createWaitCall, Sys.call]
  split <;> simp [createDevPath_trace, Sys.call]

/-- Call log after the final `Detach`. -/
theorem createDetach_trace (env : Env ω) (r : Request) (s : Sys ω)
    (dev device mkfscmd : String) :
    (createDetach env r s dev device mkfscmd).2.trace
      = s.trace ++ [Call.fsMkfsLookup, Call.opsCreate r.Name (createOptions env r),
          Call.fsDevAttachWaitPrep r.Name watchPath, Call.opsAttach r.Name,
          Call.fsGetDevicePath dev, createWaitCall env r s device,
          Call.fsMkfs mkfscmd r.Name device, Call.opsDetach r.Name] := by
  simp [createDetach, createMkfs_trace, Sys.call]

/-- The rollback of `Create` adds `Detach` and then `Remove` to the call log. -/
theorem createRollback_trace (env : Env ω) (name : String) (s : Sys ω) :
    (VolumeDriver.createRollback env name s).trace
      = s.trace ++ [Call.opsDetach name, Call.opsRemove name none] := by
  simp [VolumeDriver.createRollback, Sys.call]

/-- C11, as the code has it. A `Create` request without clone source whose
requested (or, when none is requested, default) filesystem type has no
registered mkfs tool fails with the message `Not found mkfs for <fstype>`, a
line break, `Supported filesystems found: ` and the listing of the registered
types in the order the loop visits them, leading empty type names dropped and
the rest joined by `", "` - so, whenever no type name is empty, every type
once per entry of the table, separated by `", "`. Its only call is the mkfs
lookup: no backend call and no `Mkfs`. -/
theorem Create_unknown_fstype (env : Env ω) (r : Request) (s : Sys ω)
    (hnoclone : (optionsOf r).lookup "clone-from" = none)
    (hmissing : (env.fsMkfsLookup s.w).1.lookup (createFstype env r) = none) :
    (∀ v, (optionsOf r).lookup "fstype" = some v → createFstype env r = v) ∧
    ((optionsOf r).lookup "fstype" = none → createFstype env r = env.fstypeDefault) ∧
    (VolumeDriver.Create env r s).1 =
      { Err := "Not found mkfs for " ++ createFstype env r ++ "\nSupported filesystems found: "
          ++ ", ".intercalate
              (((env.fsMkfsLookup s.w).1.map Prod.fst).dropWhile (fun k => k == "")) } ∧
    ((∀ k ∈ (env.fsMkfsLookup s.w).1.map Prod.fst, k ≠ "") →
      (VolumeDriver.Create env r s).1.Err =
        "Not found mkfs for " ++ createFstype env r ++ "\nSupported filesystems found: "
          ++ ", ".intercalate ((env.fsMkfsLookup s.w).1.map Prod.fst)) ∧
    callsSince s (VolumeDriver.Create env r s).2 = [Call.fsMkfsLookup] ∧
    (VolumeDriver.Create env r s).2.d = s.d := by
  have hm : (createLookup env s).1.lookup (createFstype env r) = none := hmissing
  have hc := Create_eq env r s hnoclone
  simp only [hm] at hc
  refine ⟨fun v hv => (createFstype_of_some env r v hv).1,
    fun hn => (createFstype_of_none env r hn).1, ?_, ?_, ?_, ?_⟩
  · rw [hc, validfs_eq]; rfl
  · intro hne
    rw [hc]
    show _ ++ VolumeDriver.validfs ((env.fsMkfsLookup s.w).1.map Prod.fst) = _
    rw [validfs_eq_intercalate _ hne]
  · rw [hc]; exact callsSince_of_trace _ _ _ (createLookup_trace env s)
  · rw [hc]; rfl

/-- C12. In a `Create` without clone source whose mkfs tool is found and whose
backend `Create` succeeds, a failure of `Attach`, of device-path resolution or
of `Mkfs` is followed by backend `Detach` and then backend `Remove` and by
nothing else: the calls of the whole request are the stages up to the failing
one, then `Detach`, then `Remove`, so that each of the two occurs exactly once. -/
theorem Create_rollback_calls (env : Env ω) (r : Request) (s : Sys ω) (mkfscmd : String)
    (hnoclone : (optionsOf r).lookup "clone-from" = none)
    (htool : (env.fsMkfsLookup s.w).1.lookup (createFstype env r) = some mkfscmd)
    (hcreate : (createBackend env r s).1 = none) :
    (∀ e, (createAttach env r s).1 = Except.error e →
      callsSince s (VolumeDriver.Create env r s).2
        = [Call.fsMkfsLookup, Call.opsCreate r.Name (createOptions env r),
           Call.fsDevAttachWaitPrep r.Name watchPath, Call.opsAttach r.Name,
           Call.opsDetach r.Name, Call.opsRemove r.Name none]) ∧
    (∀ dev e, (createAttach env r s).1 = Except.ok dev →
      (createDevPath env r s dev).1 = Except.error e →
      callsSince s (VolumeDriver.Create env r s).2
        = [Call.fsMkfsLookup, Call.opsCreate r.Name (createOptions env r),
           Call.fsDevAttachWaitPrep r.Name watchPath, Call.opsAttach r.Name,
           Call.fsGetDevicePath dev,
           Call.opsDetach r.Name, Call.opsRemove r.Name none]) ∧
    (∀ dev device e, (createAttach env r s).1 = Except.ok dev →
      (createDevPath env r s dev).1 = Except.ok device →
      (createMkfs env r s dev device mkfscmd).1 = some e →
      callsSince s (VolumeDriver.Create env r s).2
        = [Call.fsMkfsLookup, Call.opsCreate r.Name (createOptions env r),
           Call.fsDevAttachWaitPrep r.Name watchPath, Call.opsAttach r.Name,
           Call.fsGetDevicePath dev, createWaitCall env r s device,
           Call.fsMkfs mkfscmd r.Name device,
           Call.opsDetach r.Name, Call.opsRemove r.Name none]) := by
  have ht : (createLookup env s).1.lookup (createFstype env r) = some mkfscmd := htool
  have hc := Create_eq env r s hnoclone
  simp only [ht, hcreate] at hc
  refine ⟨?_, ?_, ?_⟩
  · intro e ha
    simp only [ha] at hc
    rw [hc]
    apply callsSince_of_trace
    simp [createRollback_trace, createAttach_trace]
  · intro dev e ha hd
    simp only [ha, hd] at hc
    rw [hc]
    apply callsSince_of_trace
    simp [createRollback_trace, createDevPath_trace]
  · intro dev device e ha hd hm
    simp only [ha, hd, hm] at hc
    rw [hc]
    apply callsSince_of_trace
    simp [createRollback_trace, createMkfs_trace]

/-- C13. A `Create` that fails at the `Attach`, device-path-resolution or `Mkfs`
stage answers with exactly the error of that stage, whatever the `Detach` and
`Remove` of the rollback return (the collaborators are arbitrary). -/
theorem Create_stage_error (env : Env ω) (r : Request) (s : Sys ω) (mkfscmd : String)
    (hnoclone : (optionsOf r).lookup "clone-from" = none)
    (htool : (env.fsMkfsLookup s.w).1.lookup (createFstype env r) = some mkfscmd)
    (hcreate : (createBackend env r s).1 = none) :
    (∀ e, (createAttach env r s).1 = Except.error e →
      (VolumeDriver.Create env r s).1 = { Err := e }) ∧
    (∀ dev e, (createAttach env r s).1 = Except.ok dev →
      (createDevPath env r s dev).1 = Except.error e →
      (VolumeDriver.Create env r s).1 = { Err := e }) ∧
    (∀ dev device e, (createAttach env r s).1 = Except.ok dev →
      (createDevPath env r s dev).1 = Except.ok device →
      (createMkfs env r s dev device mkfscmd).1 = some e →
      (VolumeDriver.Create env r s).1 = { Err := e }) := by
  have ht : (createLookup env s).1.lookup (createFstype env r) = some mkfscmd := htool
  have hc := Create_eq env r s hnoclone
  simp only [ht, hcreate] at hc
  refine ⟨?_, ?_, ?_⟩
  · intro e ha
    simp only [ha] at hc
    rw [hc]
  · intro dev e ha hd
    simp only [ha, hd] at hc
    rw [hc]
  · intro dev device e ha hd hm
    simp only [ha, hd, hm] at hc
    rw [hc]

/-- C14. In a `Create` without clone source in which the tool is found and
backend `Create`, `Attach`, device-path resolution and `Mkfs` all succeed, a
failure of the final `Detach` is the error of the request, and backend `Remove`
is not invoked: `Detach` is the last call. -/
theorem Create_final_detach_error (env : Env ω) (r : Request) (s : Sys ω)
    (mkfscmd dev device e : String)
    (hnoclone : (optionsOf r).lookup "clone-from" = none)
    (htool : (env.fsMkfsLookup s.w).1.lookup (createFstype env r) = some mkfscmd)
    (hcreate : (createBackend env r s).1 = none)
    (hattach : (createAttach env r s).1 = Except.ok dev)
    (hdev : (createDevPath env r s dev).1 = Except.ok device)
    (hmkfs : (createMkfs env r s dev device mkfscmd).1 = none)
    (hdetach : (createDetach env r s dev device mkfscmd).1 = some e) :
    (VolumeDriver.Create env r s).1 = { Err := e } ∧
    callsSince s (VolumeDriver.Create env r s).2
      = [Call.fsMkfsLookup, Call.opsCreate r.Name (createOptions env r),
         Call.fsDevAttachWaitPrep r.Name watchPath, Call.opsAttach r.Name,
         Call.fsGetDevicePath dev, createWaitCall env r s device,
         Call.fsMkfs mkfscmd r.Name device, Call.opsDetach r.Name] ∧
    (∀ c ∈ callsSince s (VolumeDriver.Create env r s).2, ∀ n o, c ≠ Call.opsRemove n o) := by
  have ht : (createLookup env s).1.lookup (createFstype env r) = some mkfscmd := htool
  have hc := Create_eq env r s hnoclone
  simp only [ht, hcreate, hattach, hdev, hmkfs, hdetach] at hc
  have hcalls : callsSince s (VolumeDriver.Create env r s).2
      = [Call.fsMkfsLookup, Call.opsCreate r.Name (createOptions env r),
         Call.fsDevAttachWaitPrep r.Name watchPath, Call.opsAttach r.Name,
         Call.fsGetDevicePath dev, createWaitCall env r s device,
         Call.fsMkfs mkfscmd r.Name device, Call.opsDetach r.Name] := by
    rw [hc]
    exact callsSince_of_trace _ _ _ (createDetach_trace env r s dev device mkfscmd)
  refine ⟨by rw [hc]; rfl, hcalls, ?_⟩
  intro c hcmem n o
  rw [hcalls] at hcmem
  simp only [List.mem_cons, List.mem_singleton, List.not_mem_nil, or_false] at hcmem
  rcases hcmem with h | h | h | h | h | h | h | h <;> subst h <;> try simp
  unfold createWaitCall
  split <;> simp

/-- `Mkfs`, `Detach` and `Remove` calls of a list of calls, call by call. -/
theorem provisioning_cons (c : Call) (cs : List Call) :
    provisioning (c :: cs) =
      ((match c with | Call.fsMkfs _ _ _ => 1 | _ => 0) + (provisioning cs).1,
       (match c with | Call.opsDetach _ => 1 | _ => 0) + (provisioning cs).2.1,
       (match c with | Call.opsRemove _ _ => 1 | _ => 0) + (provisioning cs).2.2) := by
  cases c <;> simp [provisioning, List.countP_cons, Nat.add_comm]

/-- No `Mkfs`, `Detach` or `Remove` in an empty list of calls. -/
theorem provisioning_nil : provisioning [] = (0, 0, 0) := rfl

/-- The wait of `Create` is neither `Mkfs` nor `Detach` nor `Remove`. -/
theorem provisioning_wait_cons (env : Env ω) (r : Request) (s : Sys ω) (device : String)
    (cs : List Call) :
    provisioning (createWaitCall env r s device :: cs) = provisioning cs := by
  unfold createWaitCall
  split <;> simp [provisioning_cons]

/-- C15, as the code has it. A `Create` without clone source invokes `Mkfs` at
most once and the rollback (`Detach` followed by `Remove`) at most once, stage
by stage: neither when no mkfs tool is found or backend `Create` fails; the
rollback alone when `Attach` or device-path resolution fails; `Mkfs` and then
the rollback when `Mkfs` fails; `Mkfs` and no rollback (only the final `Detach`,
no `Remove`) when `Mkfs` succeeds. The triples count `Mkfs`, `Detach`, `Remove`. -/
theorem Create_mkfs_and_rollback (env : Env ω) (r : Request) (s : Sys ω)
    (hnoclone : (optionsOf r).lookup "clone-from" = none) :
    ((env.fsMkfsLookup s.w).1.lookup (createFstype env r) = none →
      provisioning (callsSince s (VolumeDriver.Create env r s).2) = (0, 0, 0)) ∧
    (∀ mkfscmd, (env.fsMkfsLookup s.w).1.lookup (createFstype env r) = some mkfscmd →
      (∀ e, (createBackend env r s).1 = some e →
        provisioning (callsSince s (VolumeDriver.Create env r s).2) = (0, 0, 0)) ∧
      ((createBackend env r s).1 = none →
        (∀ e, (createAttach env r s).1 = Except.error e →
          provisioning (callsSince s (VolumeDriver.Create env r s).2) = (0, 1, 1)) ∧
        (∀ dev e, (createAttach env r s).1 = Except.ok dev →
          (createDevPath env r s dev).1 = Except.error e →
          provisioning (callsSince s (VolumeDriver.Create env r s).2) = (0, 1, 1)) ∧
        (∀ dev device e, (createAttach env r s).1 = Except.ok dev →
          (createDevPath env r s dev).1 = Except.ok device →
          (createMkfs env r s dev device mkfscmd).1 = some e →
          provisioning (callsSince s (VolumeDriver.Create env r s).2) = (1, 1, 1)) ∧
        (∀ dev device, (createAttach env r s).1 = Except.ok dev →
          (createDevPath env r s dev).1 = Except.ok device →
          (createMkfs env r s dev device mkfscmd).1 = none →
          provisioning (callsSince s (VolumeDriver.Create env r s).2) = (1, 1, 0)))) := by
  have hc := Create_eq env r s hnoclone
  constructor
  · intro hmissing
    have hm : (createLookup env s).1.lookup (createFstype env r) = none := hmissing
    simp only [hm] at hc
    rw [hc, callsSince_of_trace _ _ _ (createLookup_trace env s)]
    simp [provisioning_cons, provisioning_nil]
  · intro mkfscmd htool
    have ht : (createLookup env s).1.lookup (createFstype env r) = some mkfscmd := htool
    simp only [ht] at hc
    constructor
    · intro e he
      simp only [he] at hc
      rw [hc, callsSince_of_trace _ _ _ (createBackend_trace env r s)]
      simp [provisioning_cons, provisioning_nil]
    · intro hcreate
      simp only [hcreate] at hc
      refine ⟨?_, ?_, ?_, ?_⟩
      · intro e ha
        simp only [ha] at hc
        rw [hc, callsSince_of_trace _ _
          [Call.fsMkfsLookup, Call.opsCreate r.Name (createOptions env r),
           Call.fsDevAttachWaitPrep r.Name watchPath, Call.opsAttach r.Name,
           Call.opsDetach r.Name, Call.opsRemove r.Name none]
          (by simp [createRollback_trace, createAttach_trace])]
        simp [provisioning_cons, provisioning_nil]
      · intro dev e ha hd
        simp only [ha, hd] at hc
        rw [hc, callsSince_of_trace _ _
          [Call.fsMkfsLookup, Call.opsCreate r.Name (createOptions env r),
           Call.fsDevAttachWaitPrep r.Name watchPath, Call.opsAttach r.Name,
           Call.fsGetDevicePath dev, Call.opsDetach r.Name, Call.opsRemove r.Name none]
          (by simp [createRollback_trace, createDevPath_trace])]
        simp [provisioning_cons, provisioning_nil]
      · intro dev device e ha hd hm
        simp only [ha, hd, hm] at hc
        rw [hc, callsSince_of_trace _ _
          [Call.fsMkfsLookup, Call.opsCreate r.Name (createOptions env r),
           Call.fsDevAttachWaitPrep r.Name watchPath, Call.opsAttach r.Name,
           Call.fsGetDevicePath dev, createWaitCall env r s device,
           Call.fsMkfs mkfscmd r.Name device, Call.opsDetach r.Name,
           Call.opsRemove r.Name none]
          (by simp [createRollback_trace, createMkfs_trace])]
        cases hsk : (createPrep env r s).1.2 <;>
          simp [provisioning_cons, provisioning_nil, createWaitCall, hsk]
      · intro dev device ha hd hm
        simp only [ha, hd, hm] at hc
        rw [hc, callsSince_of_trace _ _ _ (createDetach_trace env r s dev device mkfscmd)]
        cases hsk : (createPrep env r s).1.2 <;>
          simp [provisioning_cons, provisioning_nil, createWaitCall, hsk]

/-- C16, as the code has it. In a `Create` without clone source the filesystem
type that selects the mkfs tool is the value of `fstype` in the options, used
unchanged together with the options, or the default when the option map is nil
or lacks the key, and then the default is what the options handed to backend
`Create` hold under `fstype`. When every step succeeds the calls are exactly
the mkfs lookup, backend `Create` with these options, the arming of the device
watch, `Attach`, device-path resolution, the device wait (or the fixed sleep),
`Mkfs` with the selected tool and `Detach`, in that order, and the error is
empty. -/
theorem Create_success (env : Env ω) (r : Request) (s : Sys ω)
    (hnoclone : (optionsOf r).lookup "clone-from" = none) :
    ((optionsOf r).lookup "fstype" = none →
      createFstype env r = env.fstypeDefault ∧
      (createOptions env r).lookup "fstype" = some env.fstypeDefault ∧
      ∀ k, k ≠ "fstype" → (createOptions env r).lookup k = (optionsOf r).lookup k) ∧
    (∀ v, (optionsOf r).lookup "fstype" = some v →
      createFstype env r = v ∧ createOptions env r = optionsOf r) ∧
    (∀ mkfscmd dev device,
      (env.fsMkfsLookup s.w).1.lookup (createFstype env r) = some mkfscmd →
      (createBackend env r s).1 = none →
      (createAttach env r s).1 = Except.ok dev →
      (createDevPath env r s dev).1 = Except.ok device →
      (createMkfs env r s dev device mkfscmd).1 = none →
      (createDetach env r s dev device mkfscmd).1 = none →
      (VolumeDriver.Create env r s).1 = { Err := "" } ∧
      callsSince s (VolumeDriver.Create env r s).2
        = [Call.fsMkfsLookup, Call.opsCreate r.Name (createOptions env r),
           Call.fsDevAttachWaitPrep r.Name watchPath, Call.opsAttach r.Name,
           Call.fsGetDevicePath dev, createWaitCall env r s device,
           Call.fsMkfs mkfscmd r.Name device, Call.opsDetach r.Name]) := by
  refine ⟨createFstype_of_none env r, createFstype_of_some env r, ?_⟩
  intro mkfscmd dev device htool hcreate hattach hdev hmkfs hdetach
  have ht : (createLookup env s).1.lookup (createFstype env r) = some mkfscmd := htool
  have hc := Create_eq env r s hnoclone
  simp only [ht, hcreate, hattach, hdev, hmkfs, hdetach] at hc
  rw [hc]
  exact ⟨rfl, callsSince_of_trace _ _ _ (createDetach_trace env r s dev device mkfscmd)⟩

end create

/-- Instance of `Create_unknown_fstype`: the scenario `Create("v2", fstype=zz)`
on a host with ext4 and xfs tools. -/
theorem Create_unknown_fstype_witness :
    (optionsOf { Name := "v2", Options := some [("fstype", "zz")] }).lookup "clone-from" = none ∧
    (VolumeDriver.Create (okEnv bareInfo (fun _ => none) false someTools)
        { Name := "v2", Options := some [("fstype", "zz")] }
        (freshSys InitState.ready (fun _ => 0) emptyWorld)).1.Err
      = "Not found mkfs for zz\nSupported filesystems found: ext4, xfs" ∧
    callsSince (freshSys InitState.ready (fun _ => 0) emptyWorld)
        (VolumeDriver.Create (okEnv bareInfo (fun _ => none) false someTools)
          { Name := "v2", Options := some [("fstype", "zz")] }
          (freshSys InitState.ready (fun _ => 0) emptyWorld)).2
      = [Call.fsMkfsLookup] :=
  ⟨rfl,
   ((Create_unknown_fstype (okEnv bareInfo (fun _ => none) false someTools)
      { Name := "v2", Options := some [("fstype", "zz")] }
      (freshSys InitState.ready (fun _ => 0) emptyWorld) rfl (by decide)).2.2.2.1
      (by decide)).trans (by decide),
   (Create_unknown_fstype (okEnv bareInfo (fun _ => none) false someTools)
      { Name := "v2", Options := some [("fstype", "zz")] }
      (freshSys InitState.ready (fun _ => 0) emptyWorld) rfl (by decide)).2.2.2.2.1⟩

/-- C11 fails as stated: with a tool registered under the empty type name ahead
of the `ext4` tool, the message of `Create("v2", fstype=zz)` lists `ext4` alone;
the registered types separated by `", "` would read `, ext4`. -/
theorem Create_listing_drops_empty_type_name :
    (optionsOf { Name := "v2", Options := some [("fstype", "zz")] }).lookup "clone-from" = none ∧
    ([("", "/sbin/mkfs"), ("ext4", "/sbin/mkfs.ext4")] : StrMap).lookup "zz" = none ∧
    (VolumeDriver.Create
        (okEnv bareInfo (fun _ => none) false [("", "/sbin/mkfs"), ("ext4", "/sbin/mkfs.ext4")])
        { Name := "v2", Options := some [("fstype", "zz")] }
        (freshSys InitState.ready (fun _ => 0) emptyWorld)).1.Err
      = "Not found mkfs for zz\nSupported filesystems found: ext4" ∧
    (VolumeDriver.Create
        (okEnv bareInfo (fun _ => none) false [("", "/sbin/mkfs"), ("ext4", "/sbin/mkfs.ext4")])
        { Name := "v2", Options := some [("fstype", "zz")] }
        (freshSys InitState.ready (fun _ => 0) emptyWorld)).1.Err
      ≠ "Not found mkfs for zz\nSupported filesystems found: "
          ++ ", ".intercalate ["", "ext4"] := by
  refine ⟨rfl, ?_, ?_, ?_⟩ <;> decide

/-- Instance of `Create_rollback_calls`: the scenario in which `Attach` fails
during `Create("v3")`. -/
theorem Create_rollback_calls_witness :
    callsSince (freshSys InitState.ready (fun _ => 0) emptyWorld)
        (VolumeDriver.Create (flakyEnv bareInfo (fun _ => none) false someTools ["Attach"])
          { Name := "v3", Options := none }
          (freshSys InitState.ready (fun _ => 0) emptyWorld)).2
      = [Call.fsMkfsLookup, Call.opsCreate "v3" [("fstype", "ext4")],
         Call.fsDevAttachWaitPrep "v3" "/dev/disk/by-path", Call.opsAttach "v3",
         Call.opsDetach "v3", Call.opsRemove "v3" none] :=
  (Create_rollback_calls (flakyEnv bareInfo (fun _ => none) false someTools ["Attach"])
      { Name := "v3", Options := none } (freshSys InitState.ready (fun _ => 0) emptyWorld)
      "/sbin/mkfs.ext4" rfl (by decide) (by decide)).1 "Attach failed" rfl

/-- Instance of `Create_stage_error`: `Mkfs` fails and so do the `Detach` and the
`Remove` of the rollback; the error of the request is that of `Mkfs`. -/
theorem Create_stage_error_witness :
    (VolumeDriver.Create
        (flakyEnv bareInfo (fun _ => none) false someTools ["Mkfs", "Detach", "Remove"])
        { Name := "v3", Options := none }
        (freshSys InitState.ready (fun _ => 0) emptyWorld)).1 = { Err := "Mkfs failed" } :=
  (Create_stage_error
      (flakyEnv bareInfo (fun _ => none) false someTools ["Mkfs", "Detach", "Remove"])
      { Name := "v3", Options := none } (freshSys InitState.ready (fun _ => 0) emptyWorld)
      "/sbin/mkfs.ext4" rfl (by decide) (by decide)).2.2 "0:0" "/dev/disk/by-path/0:0"
      "Mkfs failed" rfl rfl (by decide)

/-- Instance of `Create_final_detach_error`: only the final `Detach` fails. -/
theorem Create_final_detach_error_witness :
    (VolumeDriver.Create (flakyEnv bareInfo (fun _ => none) false someTools ["Detach"])
        { Name := "v3", Options := none }
        (freshSys InitState.ready (fun _ => 0) emptyWorld)).1 = { Err := "Detach failed" } :=
  (Create_final_detach_error (flakyEnv bareInfo (fun _ => none) false someTools ["Detach"])
      { Name := "v3", Options := none } (freshSys InitState.ready (fun _ => 0) emptyWorld)
      "/sbin/mkfs.ext4" "0:0" "/dev/disk/by-path/0:0" "Detach failed"
      rfl (by decide) (by decide) rfl rfl (by decide) (by decide)).1

/-- Instance of `Create_mkfs_and_rollback`: device-path resolution fails, and
the rollback runs without `Mkfs`. -/
theorem Create_mkfs_and_rollback_witness :
    provisioning (callsSince (freshSys InitState.ready (fun _ => 0) emptyWorld)
        (VolumeDriver.Create
          (flakyEnv bareInfo (fun _ => none) false someTools ["GetDevicePath"])
          { Name := "v3", Options := none }
          (freshSys InitState.ready (fun _ => 0) emptyWorld)).2) = (0, 1, 1) :=
  (((Create_mkfs_and_rollback
      (flakyEnv bareInfo (fun _ => none) false someTools ["GetDevicePath"])
      { Name := "v3", Options := none } (freshSys InitState.ready (fun _ => 0) emptyWorld)
      rfl).2 "/sbin/mkfs.ext4" (by decide)).2 (by decide)).2.1 "0:0" "GetDevicePath failed"
      rfl rfl

/-- C15 fails as stated: in a `Create` without clone source whose `Mkfs` fails,
`Mkfs` is invoked and so is the full rollback, `Detach` followed by `Remove`:
both, not exactly one of the two. -/
theorem Create_mkfs_failure_invokes_both :
    (optionsOf { Name := "v3", Options := none }).lookup "clone-from" = none ∧
    callsSince (freshSys InitState.ready (fun _ => 0) emptyWorld)
        (VolumeDriver.Create (flakyEnv bareInfo (fun _ => none) false someTools ["Mkfs"])
          { Name := "v3", Options := none }
          (freshSys InitState.ready (fun _ => 0) emptyWorld)).2
      = [Call.fsMkfsLookup, Call.opsCreate "v3" [("fstype", "ext4")],
         Call.fsDevAttachWaitPrep "v3" "/dev/disk/by-path", Call.opsAttach "v3",
         Call.fsGetDevicePath "0:0",
         Call.fsDevAttachWait 0 "v3" "/dev/disk/by-path/0:0",
         Call.fsMkfs "/sbin/mkfs.ext4" "v3" "/dev/disk/by-path/0:0",
         Call.opsDetach "v3", Call.opsRemove "v3" none] ∧
    provisioning (callsSince (freshSys InitState.ready (fun _ => 0) emptyWorld)
        (VolumeDriver.Create (flakyEnv bareInfo (fun _ => none) false someTools ["Mkfs"])
          { Name := "v3", Options := none }
          (freshSys InitState.ready (fun _ => 0) emptyWorld)).2) = (1, 1, 1) := by
  refine ⟨rfl, ?_, ?_⟩ <;> decide

/-- Instance of `Create_success`: `Create("v4")` without options, every step
succeeding and the watch available. -/
theorem Create_success_witness :
    (VolumeDriver.Create (okEnv bareInfo (fun _ => none) false someTools)
        { Name := "v4", Options := none }
        (freshSys InitState.ready (fun _ => 0) emptyWorld)).1 = { Err := "" } ∧
    callsSince (freshSys InitState.ready (fun _ => 0) emptyWorld)
        (VolumeDriver.Create (okEnv bareInfo (fun _ => none) false someTools)
          { Name := "v4", Options := none }
          (freshSys InitState.ready (fun _ => 0) emptyWorld)).2
      = [Call.fsMkfsLookup, Call.opsCreate "v4" [("fstype", "ext4")],
         Call.fsDevAttachWaitPrep "v4" "/dev/disk/by-path", Call.opsAttach "v4",
         Call.fsGetDevicePath "0:0",
         Call.fsDevAttachWait 0 "v4" "/dev/disk/by-path/0:0",
         Call.fsMkfs "/sbin/mkfs.ext4" "v4" "/dev/disk/by-path/0:0",
         Call.opsDetach "v4"] :=
  (Create_success (okEnv bareInfo (fun _ => none) false someTools)
      { Name := "v4", Options := none } (freshSys InitState.ready (fun _ => 0) emptyWorld)
      rfl).2.2 "/sbin/mkfs.ext4" "0:0" "/dev/disk/by-path/0:0"
      (by decide) (by decide) rfl rfl (by decide) (by decide)

/-- C16 fails as stated: in a `Create` without clone source in which every step
succeeds, the calls are not just backend `Create`, `Attach`, device-path
resolution, `Mkfs` and `Detach`: the mkfs lookup comes first, the device watch
is armed before `Attach`, and the device wait precedes `Mkfs`. -/
theorem Create_success_makes_eight_calls :
    (VolumeDriver.Create (okEnv bareInfo (fun _ => none) false someTools)
        { Name := "v4", Options := none }
        (freshSys InitState.ready (fun _ => 0) emptyWorld)).1 = { Err := "" } ∧
    callsSince (freshSys InitState.ready (fun _ => 0) emptyWorld)
        (VolumeDriver.Create (okEnv bareInfo (fun _ => none) false someTools)
          { Name := "v4", Options := none }
          (freshSys InitState.ready (fun _ => 0) emptyWorld)).2
      = [Call.fsMkfsLookup, Call.opsCreate "v4" [("fstype", "ext4")],
         Call.fsDevAttachWaitPrep "v4" "/dev/disk/by-path", Call.opsAttach "v4",
         Call.fsGetDevicePath "0:0",
         Call.fsDevAttachWait 0 "v4" "/dev/disk/by-path/0:0",
         Call.fsMkfs "/sbin/mkfs.ext4" "v4" "/dev/disk/by-path/0:0",
         Call.opsDetach "v4"] ∧
    callsSince (freshSys InitState.ready (fun _ => 0) emptyWorld)
        (VolumeDriver.Create (okEnv bareInfo (fun _ => none) false someTools)
          { Name := "v4", Options := none }
          (freshSys InitState.ready (fun _ => 0) emptyWorld)).2
      ≠ [Call.opsCreate "v4" [("fstype", "ext4")], Call.opsAttach "v4",
         Call.fsGetDevicePath "0:0",
         Call.fsMkfs "/sbin/mkfs.ext4" "v4" "/dev/disk/by-path/0:0",
         Call.opsDetach "v4"] := by
  refine ⟨?_, ?_, ?_⟩ <;> decide

/-! ### `Mount` and `Unmount`, stage by stage -/

section stages
variable {ω : Type}

/-- `Mount`, stage by stage. -/
theorem Mount_eq (env : Env ω) (r : MountRequest) (s : Sys ω) :
    VolumeDriver.Mount env r s =
      match (mountResolve env r s).1 with
      | Except.error e => ({ Err := e }, (mountResolve env r s).2)
      | Except.ok vi =>
        if (mountIncr env r vi.VolumeName s).1.1 > 1 then
          ({ Mountpoint := getMountPoint env (mountIncr env r vi.VolumeName s).2.d vi.VolumeName },
           (mountIncr env r vi.VolumeName s).2)
        else if (mountCheck env r vi.VolumeName s).1 then
          ({ Mountpoint := getMountPoint env (mountCheck env r vi.VolumeName s).2.d vi.VolumeName },
           (mountCheck env r vi.VolumeName s).2)
        else
          match vi.VolumeMeta with
          | some m =>
            VolumeDriver.mountWithMeta env vi.VolumeName (some m)
              (mountIncr env r vi.VolumeName s).1.2 (mountCheck env r vi.VolumeName s).2
          | none =>
            match (mountGet env r vi.VolumeName s).1 with
            | Except.error e =>
              ({ Err := e }, (VolumeDriver.sysDecr (mountGet env r vi.VolumeName s).2
                vi.VolumeName).2)
            | Except.ok m =>
              VolumeDriver.mountWithMeta env vi.VolumeName m none
                (mountGet env r vi.VolumeName s).2 := by
  rfl

/-- `MountVolume` leaves the driver state alone. -/
theorem MountVolume_d (env : Env ω) (name fstype id : String) (ro sk : Bool) (s : Sys ω) :
    (VolumeDriver.MountVolume env name fstype id ro sk s).2.d = s.d := by
  simp only [VolumeDriver.MountVolume]
  repeat' split
  all_goals rfl

/-- Call log after the name resolution of `Mount`. -/
theorem mountResolve_trace (env : Env ω) (r : MountRequest) (s : Sys ω) :
    (mountResolve env r s).2.trace = s.trace ++ [Call.getVolumeInfo r.Name] := rfl

/-- Call log after the already-mounted check of `Mount`. -/
theorem mountCheck_trace (env : Env ω) (r : MountRequest) (name : String) (s : Sys ω) :
    (mountCheck env r name s).2.trace
      = s.trace ++ [Call.getVolumeInfo r.Name, Call.alreadyMounted name s.d.mountRoot] := by
  simp [mountCheck, mountIncr, mountResolve, VolumeDriver.sysIncr, Sys.call]

/-- Call log after the metadata fetch of `Mount`. -/
theorem mountGet_trace (env : Env ω) (r : MountRequest) (name : String) (s : Sys ω) :
    (mountGet env r name s).2.trace
      = s.trace ++ [Call.getVolumeInfo r.Name, Call.alreadyMounted name s.d.mountRoot,
          Call.opsGet name] := by
  simp [mountGet, mountCheck_trace, Sys.call]

/-- On a bootstrapped store the increment of `Mount` succeeds and adds one. -/
theorem mountIncr_of_init (env : Env ω) (r : MountRequest) (name : String) (s : Sys ω)
    (hinit : s.d.refCounts.GetInitSuccess = true) :
    (mountIncr env r name s).1 = (s.d.refCounts.refMap name + 1, none) ∧
    (mountIncr env r name s).2.d.refCounts.GetInitSuccess = true ∧
    (mountIncr env r name s).2.d.refCounts.refMap
      = fun v => if v = name then s.d.refCounts.refMap name + 1 else s.d.refCounts.refMap v := by
  have hst : s.d.refCounts.state = InitState.ready := by
    simpa [RefCountsMap.GetInitSuccess] using hinit
  simp [mountIncr, mountResolve, VolumeDriver.sysIncr, VolumeDriver.incrRefCount, Sys.call,
    MarkDirty_of_init _ hinit, RefCountsMap.Incr, RefCountsMap.GetInitSuccess, hst]

/-- Undoing an increment restores the counts. -/
theorem decr_after_incr (d : Driver) (name : String) (f : String → Nat)
    (hinit : d.refCounts.GetInitSuccess = true)
    (hmap : d.refCounts.refMap = fun v => if v = name then f name + 1 else f v) :
    (VolumeDriver.decrRefCount d name).1 = (f name, none) ∧
    (VolumeDriver.decrRefCount d name).2.refCounts.refMap = f := by
  have hname : d.refCounts.refMap name = f name + 1 := by rw [hmap]; simp
  constructor
  · simp [VolumeDriver.decrRefCount, hinit, RefCountsMap.Decr, hname]
  · simp only [VolumeDriver.decrRefCount, hinit, RefCountsMap.Decr, hname]
    simp only [bne_self_eq_false, Bool.false_eq_true, if_false, Nat.add_one_ne_zero,
      Nat.add_sub_cancel]
    funext v
    by_cases hv : v = name
    · simp [hv]
    · simp [hv, hmap]

/-- The rollback block when the decrement succeeds and reaches zero: `Detach`
is the last call. -/
theorem mountRollback_of_zero (env : Env ω) (name e : String) (s : Sys ω)
    (h : (VolumeDriver.decrRefCount s.d name).1 = (0, none)) :
    VolumeDriver.mountRollback env name e s =
      ({ Err := e },
       { d := (VolumeDriver.decrRefCount s.d name).2,
         w := (env.opsDetach name s.w).2,
         trace := s.trace ++ [Call.opsDetach name] }) := by
  simp [VolumeDriver.mountRollback, VolumeDriver.sysDecr, h, Sys.call]

/-- The mount block when `MountVolume` fails on a volume whose only holder is
the request itself: the count is taken back and `Detach` is the last call. -/
theorem mountWithMeta_of_failure (env : Env ω) (name e : String) (m : VolMeta) (s : Sys ω)
    (f : String → Nat) (hinit : s.d.refCounts.GetInitSuccess = true)
    (hmap : s.d.refCounts.refMap = fun v => if v = name then f name + 1 else f v)
    (hzero : f name = 0)
    (hfail : (VolumeDriver.MountVolume env name (VolumeDriver.fstypeOf env m) ""
      (VolumeDriver.isReadOnlyOf m) false s).1.2 = some e) :
    (VolumeDriver.mountWithMeta env name m none s).1 = { Err := e } ∧
    (VolumeDriver.mountWithMeta env name m none s).2.d.refCounts.refMap = f ∧
    (VolumeDriver.mountWithMeta env name m none s).2.trace
      = (VolumeDriver.MountVolume env name (VolumeDriver.fstypeOf env m) ""
          (VolumeDriver.isReadOnlyOf m) false s).2.trace ++ [Call.opsDetach name] ∧
    (VolumeDriver.mountWithMeta env name m none s).2.w
      = (env.opsDetach name (VolumeDriver.MountVolume env name (VolumeDriver.fstypeOf env m) ""
          (VolumeDriver.isReadOnlyOf m) false s).2.w).2 := by
  have hd := MountVolume_d env name (VolumeDriver.fstypeOf env m) ""
    (VolumeDriver.isReadOnlyOf m) false s
  have hdecr := decr_after_incr s.d name f hinit hmap
  rw [hzero] at hdecr
  have hroll := mountRollback_of_zero env name e
    (VolumeDriver.MountVolume env name (VolumeDriver.fstypeOf env m) ""
      (VolumeDriver.isReadOnlyOf m) false s).2 (by rw [hd]; exact hdecr.1)
  simp only [VolumeDriver.mountWithMeta, hfail, hroll, hd]
  exact ⟨trivial, hdecr.2, trivial, trivial⟩

/-- C17, as the code has it. On a bootstrapped store, take a `Mount` whose name
resolves and which is not answered by a short-circuit, so that the count was
incremented (to 1). If the metadata fetch fails, the count is decremented back,
the fetch error is returned, and the calls are name resolution, the
already-mounted check and the fetch: no `Detach`. If `MountVolume` fails (at
mkdir, attach, device-path resolution or the filesystem mount), the count is
decremented back to zero, backend `Detach` is attempted as the last call, and
the error returned is that of `MountVolume`, whatever `Detach` returns. -/
theorem Mount_failure_rollback (env : Env ω) (r : MountRequest) (s : Sys ω) (vi : VolumeInfo)
    (hinit : s.d.refCounts.GetInitSuccess = true)
    (hres : (mountResolve env r s).1 = Except.ok vi)
    (hfirst : ¬ (mountIncr env r vi.VolumeName s).1.1 > 1)
    (hcheck : (mountCheck env r vi.VolumeName s).1 = false) :
    (mountIncr env r vi.VolumeName s).2.d.refCounts.GetCount vi.VolumeName
      = s.d.refCounts.GetCount vi.VolumeName + 1 ∧
    (∀ e, vi.VolumeMeta = none → (mountGet env r vi.VolumeName s).1 = Except.error e →
      (VolumeDriver.Mount env r s).1 = { Err := e } ∧
      (VolumeDriver.Mount env r s).2.d.refCounts.refMap = s.d.refCounts.refMap ∧
      callsSince s (VolumeDriver.Mount env r s).2
        = [Call.getVolumeInfo r.Name, Call.alreadyMounted vi.VolumeName s.d.mountRoot,
           Call.opsGet vi.VolumeName]) ∧
    (∀ m e, mountMetaOf env r vi s = Except.ok m →
      (mountVolumeCall env r vi m s).1.2 = some e →
      (VolumeDriver.Mount env r s).1 = { Err := e } ∧
      (VolumeDriver.Mount env r s).2.d.refCounts.refMap = s.d.refCounts.refMap ∧
      (VolumeDriver.Mount env r s).2.d.refCounts.GetCount vi.VolumeName = 0 ∧
      (VolumeDriver.Mount env r s).2.trace
        = (mountVolumeCall env r vi m s).2.trace ++ [Call.opsDetach vi.VolumeName] ∧
      (VolumeDriver.Mount env r s).2.w
        = (env.opsDetach vi.VolumeName (mountVolumeCall env r vi m s).2.w).2) := by
  obtain ⟨hincr, hinit', hmap⟩ := mountIncr_of_init env r vi.VolumeName s hinit
  have hzero : s.d.refCounts.refMap vi.VolumeName = 0 := by
    rw [hincr] at hfirst
    simp only [gt_iff_lt, not_lt] at hfirst
    omega
  have hc := Mount_eq env r s
  simp only [hres, hfirst, hcheck, if_false, Bool.false_eq_true] at hc
  refine ⟨by simp [RefCountsMap.GetCount, hmap], ?_, ?_⟩
  · intro e hmeta hget
    simp only [hmeta, hget] at hc
    have hdecr := decr_after_incr (mountGet env r vi.VolumeName s).2.d vi.VolumeName
      s.d.refCounts.refMap hinit' hmap
    rw [hc]
    refine ⟨rfl, hdecr.2, ?_⟩
    exact callsSince_of_trace _ _ _ (mountGet_trace env r vi.VolumeName s)
  · intro m e hm hfail
    cases hmeta : vi.VolumeMeta with
    | some m' =>
      simp only [hmeta] at hc
      simp only [mountMetaOf, hmeta, Except.ok.injEq] at hm
      subst hm
      have hpre : mountPre env r vi s = (mountCheck env r vi.VolumeName s).2 := by
        simp [mountPre, hmeta]
      simp only [mountVolumeCall, hpre] at hfail ⊢
      have hnone : (mountIncr env r vi.VolumeName s).1.2 = none := by rw [hincr]
      rw [hc, hnone]
      obtain ⟨h1, h2, h3, h4⟩ := mountWithMeta_of_failure env vi.VolumeName e (some m')
        (mountCheck env r vi.VolumeName s).2 s.d.refCounts.refMap hinit' hmap hzero hfail
      exact ⟨h1, h2, by rw [RefCountsMap.GetCount, h2, hzero], h3, h4⟩
    | none =>
      simp only [mountMetaOf, hmeta] at hm
      simp only [hmeta, hm] at hc
      have hpre : mountPre env r vi s = (mountGet env r vi.VolumeName s).2 := by
        simp [mountPre, hmeta]
      simp only [mountVolumeCall, hpre] at hfail ⊢
      rw [hc]
      obtain ⟨h1, h2, h3, h4⟩ := mountWithMeta_of_failure env vi.VolumeName e m
        (mountGet env r vi.VolumeName s).2 s.d.refCounts.refMap hinit' hmap hzero hfail
      exact ⟨h1, h2, by rw [RefCountsMap.GetCount, h2, hzero], h3, h4⟩

/-- The decrement leaves the mount records alone. -/
theorem decrRefCount_records (d : Driver) (vol : String) :
    (VolumeDriver.decrRefCount d vol).2.mountIDtoName = d.mountIDtoName := by
  unfold VolumeDriver.decrRefCount; split <;> rfl

/-- The decrement leaves the counts of the other volumes alone. -/
theorem decrRefCount_other (d : Driver) (vol v : String) (hv : v ≠ vol) :
    (VolumeDriver.decrRefCount d vol).2.refCounts.refMap v = d.refCounts.refMap v := by
  unfold VolumeDriver.decrRefCount RefCountsMap.Decr
  split
  · rfl
  · split
    · rfl
    · simp [hv]

/-- The block of `Unmount` after name resolution keeps the mount records, keeps
the counts of the other volumes, and calls nothing but the filesystem unmount
of the volume's mountpoint and backend `Detach` of the volume. -/
theorem unmountResolved_frame (env : Env ω) (name : String) (s : Sys ω) :
    (VolumeDriver.unmountResolved env name s).2.d.mountIDtoName = s.d.mountIDtoName ∧
    (∀ v, v ≠ name →
      (VolumeDriver.unmountResolved env name s).2.d.refCounts.refMap v = s.d.refCounts.refMap v) ∧
    (∀ c ∈ callsSince s (VolumeDriver.unmountResolved env name s).2,
      c = Call.fsUnmount (getMountPoint env s.d name) ∨ c = Call.opsDetach name) := by
  simp only [VolumeDriver.unmountResolved, VolumeDriver.sysDecr, VolumeDriver.UnmountVolume,
    Sys.call, callsSince]
  split
  · refine ⟨decrRefCount_records _ _, fun v hv => decrRefCount_other _ _ _ hv, ?_⟩
    simp
  · refine ⟨decrRefCount_records _ _, fun v hv => decrRefCount_other _ _ _ hv, ?_⟩
    simp [getMountPoint]

/-- C19. On a bootstrapped store, when the mount ID of an `Unmount` request is
recorded, `Unmount` works on the recorded full name whatever name the request
carries: it deletes that record and no other, leaves the counts of all other
volumes alone, and calls nothing but the filesystem unmount and `Detach` of the
recorded volume. When the ID is not recorded it resolves the request's name and
leaves the records unchanged; if resolution fails it returns that error with
the driver state (all counts) untouched and no call besides name resolution. -/
theorem Unmount_name_resolution (env : Env ω) (r : UnmountRequest) (s : Sys ω)
    (hinit : s.d.refCounts.GetInitSuccess = true) :
    (∀ full, s.d.mountIDtoName r.ID = some full →
      VolumeDriver.Unmount env r s =
        VolumeDriver.unmountResolved env full
          { s with d := { s.d with mountIDtoName :=
              fun i => if i = r.ID then none else s.d.mountIDtoName i } } ∧
      (∀ r' : UnmountRequest, r'.ID = r.ID →
        VolumeDriver.Unmount env r' s = VolumeDriver.Unmount env r s) ∧
      (∀ i, (VolumeDriver.Unmount env r s).2.d.mountIDtoName i
        = if i = r.ID then none else s.d.mountIDtoName i) ∧
      (∀ v, v ≠ full →
        (VolumeDriver.Unmount env r s).2.d.refCounts.GetCount v = s.d.refCounts.GetCount v) ∧
      (∀ c ∈ callsSince s (VolumeDriver.Unmount env r s).2,
        c = Call.fsUnmount (getMountPoint env s.d full) ∨ c = Call.opsDetach full)) ∧
    (s.d.mountIDtoName r.ID = none →
      (VolumeDriver.Unmount env r s).2.d.mountIDtoName = s.d.mountIDtoName ∧
      (∀ e, (env.getVolumeInfo r.Name s.w).1 = Except.error e →
        VolumeDriver.Unmount env r s =
          ({ Err := e },
           { s with w := (env.getVolumeInfo r.Name s.w).2,
                    trace := s.trace ++ [Call.getVolumeInfo r.Name] })) ∧
      (∀ vi, (env.getVolumeInfo r.Name s.w).1 = Except.ok vi →
        VolumeDriver.Unmount env r s =
          VolumeDriver.unmountResolved env vi.VolumeName
            { s with w := (env.getVolumeInfo r.Name s.w).2,
                     trace := s.trace ++ [Call.getVolumeInfo r.Name] })) := by
  constructor
  · intro full hrec
    have hU : ∀ r' : UnmountRequest, r'.ID = r.ID →
        VolumeDriver.Unmount env r' s =
          VolumeDriver.unmountResolved env full
            { s with d := { s.d with mountIDtoName :=
                fun i => if i = r.ID then none else s.d.mountIDtoName i } } := by
      intro r' hid
      simp [VolumeDriver.Unmount, hinit, hid, hrec]
    obtain ⟨hf1, hf2, hf3⟩ := unmountResolved_frame env full
      ({ s with d := { s.d with mountIDtoName :=
          fun i => if i = r.ID then none else s.d.mountIDtoName i } } : Sys ω)
    refine ⟨hU r rfl, fun r' hid => (hU r' hid).trans (hU r rfl).symm, ?_, ?_, ?_⟩
    · intro i
      rw [hU r rfl, hf1]
    · intro v hv
      rw [hU r rfl]
      exact hf2 v hv
    · rw [hU r rfl]
      exact hf3
  · intro hrec
    have hE : ∀ e, (env.getVolumeInfo r.Name s.w).1 = Except.error e →
        VolumeDriver.Unmount env r s =
          ({ Err := e },
           { s with w := (env.getVolumeInfo r.Name s.w).2,
                    trace := s.trace ++ [Call.getVolumeInfo r.Name] }) := by
      intro e he
      simp [VolumeDriver.Unmount, hinit, hrec, Sys.call, he]
    have hO : ∀ vi, (env.getVolumeInfo r.Name s.w).1 = Except.ok vi →
        VolumeDriver.Unmount env r s =
          VolumeDriver.unmountResolved env vi.VolumeName
            { s with w := (env.getVolumeInfo r.Name s.w).2,
                     trace := s.trace ++ [Call.getVolumeInfo r.Name] } := by
      intro vi hv
      simp [VolumeDriver.Unmount, hinit, hrec, Sys.call, hv]
    refine ⟨?_, hE, hO⟩
    cases hres : (env.getVolumeInfo r.Name s.w).1 with
    | error e => rw [hE e hres]
    | ok vi =>
      rw [hO vi hres]
      exact (unmountResolved_frame env vi.VolumeName _).1

/-- C20. On a bootstrapped store, an `Unmount` whose decrement yields 0 makes,
after resolving the name, exactly the filesystem unmount of the mountpoint and
then backend `Detach`, once each; `Detach` is made whatever the filesystem
unmount returned, and the response error is the error of `Detach`, empty when
`Detach` succeeds. -/
theorem Unmount_last_holder_calls (env : Env ω) (r : UnmountRequest) (s : Sys ω) (name : String)
    (hinit : s.d.refCounts.GetInitSuccess = true)
    (htarget : unmountTarget env r s = some name)
    (hzero : (VolumeDriver.decrRefCount s.d name).1.1 = 0) :
    callsSince s (VolumeDriver.Unmount env r s).2
      = unmountResolveCalls r s
          ++ [Call.fsUnmount (getMountPoint env s.d name), Call.opsDetach name] ∧
    (VolumeDriver.Unmount env r s).1.Err
      = ((env.opsDetach name
          (env.fsUnmount (getMountPoint env s.d name) (unmountWorld env r s)).2).1).getD "" := by
  simp only [VolumeDriver.decrRefCount, hinit, bne_self_eq_false, Bool.false_eq_true,
    if_false] at hzero
  cases hrec : s.d.mountIDtoName r.ID with
  | some full =>
    have hname : full = name := by simpa [unmountTarget, hrec] using htarget
    subst hname
    simp [VolumeDriver.Unmount, hinit, hrec, VolumeDriver.unmountResolved,
      VolumeDriver.sysDecr, VolumeDriver.decrRefCount, hzero, VolumeDriver.UnmountVolume,
      Sys.call, callsSince, unmountResolveCalls, unmountWorld, getMountPoint]
  | none =>
    cases hres : (env.getVolumeInfo r.Name s.w).1 with
    | error e => simp [unmountTarget, hrec, hres] at htarget
    | ok vi =>
      have hname : vi.VolumeName = name := by simpa [unmountTarget, hrec, hres] using htarget
      subst hname
      simp [VolumeDriver.Unmount, hinit, hrec, hres, VolumeDriver.unmountResolved,
        VolumeDriver.sysDecr, VolumeDriver.decrRefCount, hzero, VolumeDriver.UnmountVolume,
        Sys.call, callsSince, unmountResolveCalls, unmountWorld, getMountPoint]

end stages

/-! ### Failing mounts and last unmounts, evaluated -/

/-- Instance of `Mount_failure_rollback`: the filesystem mount fails for the
first holder of `vol1`; the mount error is returned. -/
theorem Mount_failure_rollback_witness :
    (VolumeDriver.Mount (flakyEnv bareInfo (fun _ => none) false [] ["Mount", "Detach"])
        { Name := "vol1", ID := "a" }
        (freshSys InitState.ready (fun _ => 0) emptyWorld)).1 = { Err := "Mount failed" } :=
  ((Mount_failure_rollback (flakyEnv bareInfo (fun _ => none) false [] ["Mount", "Detach"])
      { Name := "vol1", ID := "a" } (freshSys InitState.ready (fun _ => 0) emptyWorld)
      (bareInfo "vol1") rfl rfl (by decide) rfl).2.2 none "Mount failed" rfl (by decide)).1

/-- A `Mount` whose metadata fetch fails, for a volume nobody holds: the count
goes back to zero and backend `Detach` is not attempted. -/
theorem Mount_get_failure_makes_no_detach :
    (VolumeDriver.Mount (flakyEnv bareInfo (fun _ => none) false [] ["Get"])
        { Name := "vol1", ID := "a" }
        (freshSys InitState.ready (fun _ => 0) emptyWorld)).1 = { Err := "Get failed" } ∧
    (VolumeDriver.Mount (flakyEnv bareInfo (fun _ => none) false [] ["Get"])
        { Name := "vol1", ID := "a" }
        (freshSys InitState.ready (fun _ => 0) emptyWorld)).2.d.refCounts.GetCount "vol1" = 0 ∧
    callsSince (freshSys InitState.ready (fun _ => 0) emptyWorld)
        (VolumeDriver.Mount (flakyEnv bareInfo (fun _ => none) false [] ["Get"])
          { Name := "vol1", ID := "a" }
          (freshSys InitState.ready (fun _ => 0) emptyWorld)).2
      = [Call.getVolumeInfo "vol1", Call.alreadyMounted "vol1" "/mnt/vmdk",
         Call.opsGet "vol1"] := by
  refine ⟨rfl, ?_, ?_⟩ <;> decide

/-- C18: the code at the failing input. The read-only flag is lost on the sleep
fallback. A `Mount` of a volume
whose metadata says read-only, on a host where the device watch cannot be
armed, succeeds and makes the filesystem mount with the flag clear; the same
request on a host where the watch works makes it with the flag set. -/
theorem Mount_read_only_lost_on_sleep_path :
    VolumeDriver.isReadOnlyOf readOnlyMeta = true ∧
    (VolumeDriver.Mount (okEnv bareInfo (fun _ => readOnlyMeta) true [])
        { Name := "vol1", ID := "a" }
        (freshSys InitState.ready (fun _ => 0) emptyWorld)).1
      = { Err := "", Mountpoint := "/mnt/vmdk/vol1" } ∧
    callsSince (freshSys InitState.ready (fun _ => 0) emptyWorld)
        (VolumeDriver.Mount (okEnv bareInfo (fun _ => readOnlyMeta) true [])
          { Name := "vol1", ID := "a" }
          (freshSys InitState.ready (fun _ => 0) emptyWorld)).2
      = [Call.getVolumeInfo "vol1", Call.alreadyMounted "vol1" "/mnt/vmdk",
         Call.opsGet "vol1", Call.fsMkdir "/mnt/vmdk/vol1",
         Call.fsDevAttachWaitPrep "vol1" watchPath, Call.opsAttach "vol1",
         Call.fsGetDevicePath "0:0", Call.sleep,
         Call.fsMount "/mnt/vmdk/vol1" "ext4" "/dev/disk/by-path/0:0" false] ∧
    callsSince (freshSys InitState.ready (fun _ => 0) emptyWorld)
        (VolumeDriver.Mount (okEnv bareInfo (fun _ => readOnlyMeta) false [])
          { Name := "vol1", ID := "a" }
          (freshSys InitState.ready (fun _ => 0) emptyWorld)).2
      = [Call.getVolumeInfo "vol1", Call.alreadyMounted "vol1" "/mnt/vmdk",
         Call.opsGet "vol1", Call.fsMkdir "/mnt/vmdk/vol1",
         Call.fsDevAttachWaitPrep "vol1" watchPath, Call.opsAttach "vol1",
         Call.fsGetDevicePath "0:0", Call.fsDevAttachWait 0 "vol1" "/dev/disk/by-path/0:0",
         Call.fsMount "/mnt/vmdk/vol1" "ext4" "/dev/disk/by-path/0:0" true] := by
  refine ⟨by decide, rfl, ?_, ?_⟩ <;> decide

/-- Instance of `Unmount_name_resolution`: after a `Mount` of `vol1` with ID `a`
recorded the qualified name, an `Unmount` with that ID and another name does
what the `Unmount` with the mounted name does. -/
theorem Unmount_name_resolution_witness :
    VolumeDriver.Unmount (okEnv qualifiedInfo (fun _ => none) false [])
        { Name := "other", ID := "a" }
        (VolumeDriver.Mount (okEnv qualifiedInfo (fun _ => none) false [])
          { Name := "vol1", ID := "a" } (freshSys InitState.ready (fun _ => 0) emptyWorld)).2
      = VolumeDriver.Unmount (okEnv qualifiedInfo (fun _ => none) false [])
        { Name := "vol1", ID := "a" }
        (VolumeDriver.Mount (okEnv qualifiedInfo (fun _ => none) false [])
          { Name := "vol1", ID := "a" } (freshSys InitState.ready (fun _ => 0) emptyWorld)).2 :=
  ((Unmount_name_resolution (okEnv qualifiedInfo (fun _ => none) false [])
      { Name := "vol1", ID := "a" }
      (VolumeDriver.Mount (okEnv qualifiedInfo (fun _ => none) false [])
        { Name := "vol1", ID := "a" } (freshSys InitState.ready (fun _ => 0) emptyWorld)).2
      (by decide)).1 "vol1@datastore1" (by decide)).2.1 { Name := "other", ID := "a" } rfl

/-- Instance of `Unmount_last_holder_calls`: the filesystem unmount fails for
the last holder of `vol1`; `Detach` is still called and the response is a
success. -/
theorem Unmount_last_holder_calls_witness :
    callsSince (freshSys InitState.ready (fun v => if v = "vol1" then 1 else 0) emptyWorld)
        (VolumeDriver.Unmount (flakyEnv bareInfo (fun _ => none) false [] ["Unmount"])
          { Name := "vol1", ID := "a" }
          (freshSys InitState.ready (fun v => if v = "vol1" then 1 else 0) emptyWorld)).2
      = [Call.getVolumeInfo "vol1", Call.fsUnmount "/mnt/vmdk/vol1", Call.opsDetach "vol1"] ∧
    (VolumeDriver.Unmount (flakyEnv bareInfo (fun _ => none) false [] ["Unmount"])
        { Name := "vol1", ID := "a" }
        (freshSys InitState.ready (fun v => if v = "vol1" then 1 else 0) emptyWorld)).1.Err
      = "" :=
  Unmount_last_holder_calls (flakyEnv bareInfo (fun _ => none) false [] ["Unmount"])
    { Name := "vol1", ID := "a" }
    (freshSys InitState.ready (fun v => if v = "vol1" then 1 else 0) emptyWorld) "vol1"
    rfl rfl (by decide)

/-! ### Unmount with other holders, mount records, reported mountpoints -/

section holders
variable {ω : Type}

/-- C21. On a bootstrapped store, an `Unmount` whose decrement yields a count of
at least 1 answers with an empty error, makes no call besides resolving the
name (no filesystem unmount, no backend `Detach`), and leaves the count of the
volume exactly one less than before; the counts of other volumes stay. -/
theorem Unmount_still_in_use (env : Env ω) (r : UnmountRequest) (s : Sys ω) (name : String)
    (hinit : s.d.refCounts.GetInitSuccess = true)
    (htarget : unmountTarget env r s = some name)
    (hge : (VolumeDriver.decrRefCount s.d name).1.1 ≥ 1) :
    (VolumeDriver.Unmount env r s).1 = { Err := "" } ∧
    callsSince s (VolumeDriver.Unmount env r s).2 = unmountResolveCalls r s ∧
    (∀ c ∈ callsSince s (VolumeDriver.Unmount env r s).2, c.isUnmountOrDetach = false) ∧
    (VolumeDriver.Unmount env r s).2.d.refCounts.GetCount name + 1
      = s.d.refCounts.GetCount name ∧
    (∀ v, v ≠ name →
      (VolumeDriver.Unmount env r s).2.d.refCounts.GetCount v = s.d.refCounts.GetCount v) := by
  have hpos : s.d.refCounts.refMap name ≠ 0 := by
    intro h0
    simp [VolumeDriver.decrRefCount, hinit, RefCountsMap.Decr, h0] at hge
  have hdec : 1 ≤ s.d.refCounts.refMap name - 1 := by
    simpa [VolumeDriver.decrRefCount, hinit, RefCountsMap.Decr, hpos] using hge
  cases hrec : s.d.mountIDtoName r.ID with
  | some full =>
    have hname : full = name := by simpa [unmountTarget, hrec] using htarget
    subst hname
    simp [VolumeDriver.Unmount, hinit, hrec, VolumeDriver.unmountResolved,
      VolumeDriver.sysDecr, VolumeDriver.decrRefCount, RefCountsMap.Decr, hpos, hdec,
      callsSince, unmountResolveCalls, RefCountsMap.GetCount]
    constructor
    · omega
    · intro v hv; simp [hv]
  | none =>
    cases hres : (env.getVolumeInfo r.Name s.w).1 with
    | error e => simp [unmountTarget, hrec, hres] at htarget
    | ok vi =>
      have hname : vi.VolumeName = name := by simpa [unmountTarget, hrec, hres] using htarget
      subst hname
      simp [VolumeDriver.Unmount, hinit, hrec, hres, VolumeDriver.unmountResolved,
        VolumeDriver.sysDecr, VolumeDriver.decrRefCount, RefCountsMap.Decr, hpos, hdec,
        Sys.call, callsSince, unmountResolveCalls, RefCountsMap.GetCount,
        Call.isUnmountOrDetach]
      constructor
      · omega
      · intro v hv; simp [hv]

/-- The increment leaves the mount records alone. -/
theorem incrRefCount_records (d : Driver) (vol : String) :
    (VolumeDriver.incrRefCount d vol).2.mountIDtoName = d.mountIDtoName := by
  unfold VolumeDriver.incrRefCount; split <;> rfl

/-- The rollback block of `processMount` leaves the mount records alone. -/
theorem mountRollback_records (env : Env ω) (name e : String) (s : Sys ω) :
    (VolumeDriver.mountRollback env name e s).2.d.mountIDtoName = s.d.mountIDtoName := by
  simp only [VolumeDriver.mountRollback, VolumeDriver.sysDecr, Sys.call]
  repeat' split
  all_goals exact decrRefCount_records _ _

/-- The mount block of `processMount` leaves the mount records alone. -/
theorem mountWithMeta_records (env : Env ω) (name : String) (m : VolMeta) (err : Option Error)
    (s : Sys ω) :
    (VolumeDriver.mountWithMeta env name m err s).2.d.mountIDtoName = s.d.mountIDtoName := by
  cases err with
  | some e => exact decrRefCount_records _ _
  | none =>
    simp only [VolumeDriver.mountWithMeta]
    split
    · rw [MountVolume_d]
    · rw [mountRollback_records, MountVolume_d]

/-- The mount records after the increment of `Mount`: the record of the request
was written. -/
theorem mountIncr_records (env : Env ω) (r : MountRequest) (name : String) (s : Sys ω) :
    (mountIncr env r name s).2.d.mountIDtoName
      = fun i => if i = r.ID then some name else s.d.mountIDtoName i := by
  simp only [mountIncr, VolumeDriver.sysIncr, incrRefCount_records]
  rfl

/-- C22, as the code has it. `Mount` writes the mount record as soon as the name
is resolved, before the count is incremented, and no later step removes it:
after a `Mount` that fails at name resolution the records are unchanged, and
after every other `Mount`, failed or not, the records hold the resolved full
name under the mount ID of the request and are otherwise unchanged. -/
theorem Mount_records (env : Env ω) (r : MountRequest) (s : Sys ω) :
    (∀ e, (mountResolve env r s).1 = Except.error e →
      (VolumeDriver.Mount env r s).1 = { Err := e } ∧
      (VolumeDriver.Mount env r s).2.d.mountIDtoName = s.d.mountIDtoName) ∧
    (∀ vi, (mountResolve env r s).1 = Except.ok vi →
      (VolumeDriver.Mount env r s).2.d.mountIDtoName
        = fun i => if i = r.ID then some vi.VolumeName else s.d.mountIDtoName i) := by
  have hc := Mount_eq env r s
  constructor
  · intro e he
    simp only [he] at hc
    rw [hc]
    exact ⟨rfl, rfl⟩
  · intro vi hv
    simp only [hv] at hc
    rw [hc]
    have hI := mountIncr_records env r vi.VolumeName s
    have hC : (mountCheck env r vi.VolumeName s).2.d = (mountIncr env r vi.VolumeName s).2.d := rfl
    have hG : (mountGet env r vi.VolumeName s).2.d = (mountIncr env r vi.VolumeName s).2.d := rfl
    split
    · exact hI
    · split
      · rw [hC]; exact hI
      · split
        · rw [mountWithMeta_records, hC]; exact hI
        · split
          · show (VolumeDriver.decrRefCount _ _).2.mountIDtoName = _
            rw [decrRefCount_records, hG]; exact hI
          · rw [mountWithMeta_records, hG]; exact hI

/-- C23, as the code has it. `Path` of a name answers with the mount root joined
with the name, without error, call or change of state; a successful `Get`
reports the same path, and so does every entry of a successful `List` for its
name. A `Mount` of the name either fails, or reports the mount root joined with
the full volume name that name resolution gave for the name. -/
theorem mountpoint_reports (env : Env ω) (s : Sys ω) (n : String) :
    (∀ opts, VolumeDriver.Path env { Name := n, Options := opts } s
      = ({ Mountpoint := env.join s.d.mountRoot n }, s)) ∧
    (∀ opts status, (env.opsGet n s.w).1 = Except.ok status →
      (VolumeDriver.Get env { Name := n, Options := opts } s).1
        = { Volume := some { Name := n, Mountpoint := env.join s.d.mountRoot n,
                             Status := status } }) ∧
    (∀ q volumes, (env.opsList s.w).1 = Except.ok volumes →
      (VolumeDriver.List env q s).1
        = { Volumes := volumes.map (fun v =>
              { Name := v, Mountpoint := env.join s.d.mountRoot v, Status := none }) }) ∧
    (∀ id vi, (env.getVolumeInfo n s.w).1 = Except.ok vi →
      (VolumeDriver.Mount env { Name := n, ID := id } s).1
          = { Mountpoint := env.join s.d.mountRoot vi.VolumeName } ∨
        ∃ e, (VolumeDriver.Mount env { Name := n, ID := id } s).1 = { Err := e }) := by
  refine ⟨fun _ => rfl, ?_, ?_, ?_⟩
  · intro opts status h
    simp [VolumeDriver.Get, VolumeDriver.GetVolume, Sys.call, h, getMountPoint]
  · intro q volumes h
    simp [VolumeDriver.List, Sys.call, h, getMountPoint]
  · intro id vi h
    rcases Mount_resp env { Name := n, ID := id } s with ⟨e, he⟩ | ⟨vi', hv, hm⟩
    · exact Or.inr ⟨e, he⟩
    · left
      have : vi' = vi := by
        have h2 : (Except.ok vi' : Except String VolumeInfo) = Except.ok vi := by
          rw [← hv, ← h]
        exact Except.ok.inj h2
      rw [← this]; exact hm

end holders

/-! ### The calls of `MountVolume` and of a `Mount` that reaches it -/

section attach
variable {ω : Type}

/-- The call log of `MountVolume`. -/
theorem MountVolume_trace (env : Env ω) (name fstype id : String) (ro sk : Bool) (s : Sys ω) :
    (VolumeDriver.MountVolume env name fstype id ro sk s).2.trace
      = s.trace ++ mvCalls env name fstype ro s := by
  simp only [VolumeDriver.MountVolume, mvCalls, mvMkdir, mvPrep, mvAttach, mvDevPath, Sys.call]
  repeat' split
  all_goals simp_all

/-- In `MountVolume` every `Attach` comes after the arming of the watch. -/
theorem mvCalls_armed (env : Env ω) (name fstype : String) (ro : Bool) (s : Sys ω) (b : Bool) :
    armedBeforeAttach b (mvCalls env name fstype ro s) = true := by
  simp only [mvCalls]
  repeat' split
  all_goals simp [armedBeforeAttach]

/-- `MountVolume` makes no `Detach`. -/
theorem mvCalls_detaches (env : Env ω) (name fstype : String) (ro : Bool) (s : Sys ω) :
    detaches (mvCalls env name fstype ro s) = [] := by
  simp only [mvCalls]
  repeat' split
  all_goals simp [detaches]

/-- Every filesystem mount of `MountVolume` is of the mountpoint with the given
filesystem type, and read-only only if asked so. -/
theorem mvCalls_fsMounts (env : Env ω) (name fstype : String) (ro : Bool) (s : Sys ω) :
    ∀ c ∈ fsMounts (mvCalls env name fstype ro s),
      ∃ d ro', c = Call.fsMount (getMountPoint env s.d name) fstype d ro' ∧
        (ro' = true → ro = true) := by
  simp only [mvCalls]
  repeat' split
  all_goals first
    | (simp [fsMounts]; done)
    | (cases ro <;> simp [fsMounts])

/-- After a successful `Attach` and, on the real backend, a successful
device-path resolution, `MountVolume` makes the filesystem mount exactly once. -/
theorem mvCalls_fsMount_once (env : Env ω) (name fstype : String) (ro : Bool) (s : Sys ω)
    (dev : String) (hmk : (mvMkdir env name s).1 = none)
    (hat : (mvAttach env name s).1 = Except.ok dev)
    (hdp : s.d.useMockEsx = true ∨ ∃ device, (mvDevPath env name s dev).1 = Except.ok device) :
    (fsMounts (mvCalls env name fstype ro s)).length = 1 := by
  simp only [mvCalls, hmk, hat]
  rcases hdp with hm | ⟨device, hd⟩
  · simp [hm, fsMounts]
  · simp only [hd]
    repeat' split
    all_goals simp [fsMounts]

/-- The call log when `Mount` calls `MountVolume`. -/
theorem mountPre_trace (env : Env ω) (r : MountRequest) (vi : VolumeInfo) (s : Sys ω) :
    (mountPre env r vi s).trace = s.trace ++ mountPreCalls r vi s := by
  simp only [mountPre, mountPreCalls]
  split
  · exact mountCheck_trace env r vi.VolumeName s
  · exact mountGet_trace env r vi.VolumeName s

/-- A `Mount` whose name resolves, that is answered by no short-circuit, holds
no pending error and has its metadata, is the mount block run on that metadata. -/
theorem Mount_of_meta (env : Env ω) (r : MountRequest) (s : Sys ω) (vi : VolumeInfo)
    (m : VolMeta)
    (hres : (mountResolve env r s).1 = Except.ok vi)
    (hfirst : ¬ (mountIncr env r vi.VolumeName s).1.1 > 1)
    (hcheck : (mountCheck env r vi.VolumeName s).1 = false)
    (hpend : mountPending env r vi s = none)
    (hmeta : mountMetaOf env r vi s = Except.ok m) :
    VolumeDriver.Mount env r s
      = VolumeDriver.mountWithMeta env vi.VolumeName m none (mountPre env r vi s) := by
  have hc := Mount_eq env r s
  simp only [hres, hfirst, hcheck, if_false, Bool.false_eq_true] at hc
  cases hvm : vi.VolumeMeta with
  | some m' =>
    simp only [hvm] at hc
    simp only [mountMetaOf, hvm, Except.ok.injEq] at hmeta
    simp only [mountPending, hvm] at hpend
    rw [hc, hpend, ← hmeta]
    simp [mountPre, hvm]
  | none =>
    simp only [mountMetaOf, hvm] at hmeta
    simp only [hvm, hmeta] at hc
    rw [hc]
    simp [mountPre, hvm]

/-- The rollback block fails the request with the original error and adds
nothing to the call log, or the one `Detach`. -/
theorem mountRollback_calls (env : Env ω) (name e : String) (s : Sys ω) :
    (VolumeDriver.mountRollback env name e s).1 = { Err := e } ∧
    ∃ post, (post = [] ∨ post = [Call.opsDetach name]) ∧
      (VolumeDriver.mountRollback env name e s).2.trace = s.trace ++ post := by
  simp only [VolumeDriver.mountRollback, VolumeDriver.sysDecr, Sys.call]
  repeat' split
  · exact ⟨rfl, [], Or.inl rfl, by simp⟩
  · exact ⟨rfl, [Call.opsDetach name], Or.inr rfl, rfl⟩
  · exact ⟨rfl, [], Or.inl rfl, by simp⟩

/-- The calls of a `Mount` that reaches `MountVolume`: those up to the metadata,
those of `MountVolume`, and on failure possibly the `Detach` of the rollback.
Its response is the mountpoint when `MountVolume` succeeds and the error of
`MountVolume` otherwise. -/
theorem Mount_calls_of_meta (env : Env ω) (r : MountRequest) (s : Sys ω) (vi : VolumeInfo)
    (m : VolMeta)
    (hres : (mountResolve env r s).1 = Except.ok vi)
    (hfirst : ¬ (mountIncr env r vi.VolumeName s).1.1 > 1)
    (hcheck : (mountCheck env r vi.VolumeName s).1 = false)
    (hpend : mountPending env r vi s = none)
    (hmeta : mountMetaOf env r vi s = Except.ok m) :
    ((mountVolumeCall env r vi m s).1.2 = none →
      (VolumeDriver.Mount env r s).1
        = { Mountpoint := getMountPoint env (mountPre env r vi s).d vi.VolumeName }) ∧
    (∀ e, (mountVolumeCall env r vi m s).1.2 = some e →
      (VolumeDriver.Mount env r s).1 = { Err := e }) ∧
    ∃ post, (post = [] ∨ post = [Call.opsDetach vi.VolumeName]) ∧
      callsSince s (VolumeDriver.Mount env r s).2
        = mountPreCalls r vi s
          ++ mvCalls env vi.VolumeName (VolumeDriver.fstypeOf env m) (VolumeDriver.isReadOnlyOf m)
              (mountPre env r vi s)
          ++ post := by
  rw [Mount_of_meta env r s vi m hres hfirst hcheck hpend hmeta]
  have hresp := mountWithMeta_resp env vi.VolumeName m none (mountPre env r vi s)
  have htr := MountVolume_trace env vi.VolumeName (VolumeDriver.fstypeOf env m) ""
    (VolumeDriver.isReadOnlyOf m) false (mountPre env r vi s)
  rw [mountPre_trace] at htr
  refine ⟨?_, ?_, ?_⟩
  · intro hok
    simp only [mountVolumeCall] at hok
    rw [hresp]; simp only [hok]
  · intro e he
    simp only [mountVolumeCall] at he
    rw [hresp]; simp only [he]
  · simp only [VolumeDriver.mountWithMeta]
    split
    · refine ⟨[], Or.inl rfl, ?_⟩
      apply callsSince_of_trace
      rw [htr]; simp
    · next e he =>
      obtain ⟨-, post, hpost, htrace⟩ := mountRollback_calls env vi.VolumeName e
        (VolumeDriver.MountVolume env vi.VolumeName (VolumeDriver.fstypeOf env m) ""
          (VolumeDriver.isReadOnlyOf m) false (mountPre env r vi s)).2
      refine ⟨post, hpost, ?_⟩
      apply callsSince_of_trace
      rw [htrace, htr]; simp

/-- Armed attaches in two lists of calls in a row. -/
theorem armedBeforeAttach_append (xs ys : List Call) (b : Bool)
    (hx : armedBeforeAttach b xs = true) (hy : ∀ b', armedBeforeAttach b' ys = true) :
    armedBeforeAttach b (xs ++ ys) = true := by
  induction xs generalizing b with
  | nil => exact hy b
  | cons x xs ih =>
    cases x <;> simp only [List.cons_append, armedBeforeAttach, Bool.and_eq_true] at hx ⊢
    all_goals first
      | exact ih _ hx
      | exact ⟨hx.1, ih _ hx.2⟩

/-- The filesystem mounts of two lists of calls in a row. -/
theorem fsMounts_append (xs ys : List Call) : fsMounts (xs ++ ys) = fsMounts xs ++ fsMounts ys := by
  simp [fsMounts]

/-- The `Detach` calls of two lists of calls in a row. -/
theorem detaches_append (xs ys : List Call) : detaches (xs ++ ys) = detaches xs ++ detaches ys := by
  simp [detaches]

/-- No filesystem mount before `MountVolume`. -/
theorem fsMounts_mountPreCalls (r : MountRequest) (vi : VolumeInfo) (s : Sys ω) :
    fsMounts (mountPreCalls r vi s) = [] := by
  simp only [mountPreCalls]
  split <;> simp [fsMounts]

/-- No `Detach` before `MountVolume`. -/
theorem detaches_mountPreCalls (r : MountRequest) (vi : VolumeInfo) (s : Sys ω) :
    detaches (mountPreCalls r vi s) = [] := by
  simp only [mountPreCalls]
  split <;> simp [detaches]

/-- The mount block adds to the call log calls in which every `Attach` comes
after the arming of the watch. -/
theorem mountWithMeta_armed (env : Env ω) (name : String) (m : VolMeta) (err : Option Error)
    (s : Sys ω) :
    ∃ cs, (VolumeDriver.mountWithMeta env name m err s).2.trace = s.trace ++ cs ∧
      ∀ b, armedBeforeAttach b cs = true := by
  cases err with
  | some e => exact ⟨[], by simp [VolumeDriver.mountWithMeta, VolumeDriver.sysDecr], fun _ => rfl⟩
  | none =>
    have htr := MountVolume_trace env name (VolumeDriver.fstypeOf env m) ""
      (VolumeDriver.isReadOnlyOf m) false s
    simp only [VolumeDriver.mountWithMeta]
    split
    · exact ⟨_, htr, fun b => mvCalls_armed env name _ _ s b⟩
    · next e he =>
      obtain ⟨-, post, hpost, htrace⟩ := mountRollback_calls env name e
        (VolumeDriver.MountVolume env name (VolumeDriver.fstypeOf env m) ""
          (VolumeDriver.isReadOnlyOf m) false s).2
      refine ⟨mvCalls env name (VolumeDriver.fstypeOf env m) (VolumeDriver.isReadOnlyOf m) s
        ++ post, by rw [htrace, htr, List.append_assoc], ?_⟩
      intro b
      apply armedBeforeAttach_append _ _ _ (mvCalls_armed env name _ _ s b)
      intro b'
      rcases hpost with h | h <;> subst h <;> rfl

/-- In `Mount` every `Attach` comes after the arming of the watch. -/
theorem Mount_armed (env : Env ω) (r : MountRequest) (s : Sys ω) :
    armedBeforeAttach false (callsSince s (VolumeDriver.Mount env r s).2) = true := by
  have hc := Mount_eq env r s
  cases hres : (mountResolve env r s).1 with
  | error e =>
    simp only [hres] at hc
    rw [hc, callsSince_of_trace _ _ _ (mountResolve_trace env r s)]
    rfl
  | ok vi =>
    simp only [hres] at hc
    rw [hc]
    split
    · rw [callsSince_of_trace _ _ [Call.getVolumeInfo r.Name] rfl]
      rfl
    · split
      · rw [callsSince_of_trace _ _ _ (mountCheck_trace env r vi.VolumeName s)]
        rfl
      · split
        · obtain ⟨cs, hcs, harm⟩ := mountWithMeta_armed env vi.VolumeName _
            (mountIncr env r vi.VolumeName s).1.2 (mountCheck env r vi.VolumeName s).2
          rw [mountCheck_trace, List.append_assoc] at hcs
          rw [callsSince_of_trace _ _ _ hcs]
          exact armedBeforeAttach_append _ _ _ rfl harm
        · split
          · rw [callsSince_of_trace _ _ _
              (show (VolumeDriver.sysDecr (mountGet env r vi.VolumeName s).2 vi.VolumeName).2.trace
                  = _ from mountGet_trace env r vi.VolumeName s)]
            rfl
          · next m hm =>
            obtain ⟨cs, hcs, harm⟩ := mountWithMeta_armed env vi.VolumeName m none
              (mountGet env r vi.VolumeName s).2
            rw [mountGet_trace, List.append_assoc] at hcs
            rw [callsSince_of_trace _ _ _ hcs]
            exact armedBeforeAttach_append _ _ _ rfl harm

/-- The wait of `Create` neither arms the watch nor attaches. -/
theorem armedBeforeAttach_wait_cons (env : Env ω) (r : Request) (s : Sys ω) (device : String)
    (b : Bool) (cs : List Call) :
    armedBeforeAttach b (createWaitCall env r s device :: cs) = armedBeforeAttach b cs := by
  unfold createWaitCall
  split <;> simp [armedBeforeAttach]

/-- In `Create` every `Attach` comes after the arming of the watch. -/
theorem Create_armed (env : Env ω) (r : Request) (s : Sys ω) :
    armedBeforeAttach false (callsSince s (VolumeDriver.Create env r s).2) = true := by
  cases hclone : (optionsOf r).lookup "clone-from" with
  | some src =>
    have h0 : (match r.Options with | none => [] | some m => m) = optionsOf r := rfl
    simp only [VolumeDriver.Create, h0, hclone, Option.isSome_some, if_true]
    rw [callsSince_of_trace _ _ [Call.opsCreate r.Name (optionsOf r)] rfl]
    rfl
  | none =>
    have hc := Create_eq env r s hclone
    rw [hc]
    split
    · rw [callsSince_of_trace _ _ _ (createLookup_trace env s)]; rfl
    · next mkfscmd ht =>
      split
      · rw [callsSince_of_trace _ _ _ (createBackend_trace env r s)]; rfl
      · split
        · rw [callsSince_of_trace _ _
            [Call.fsMkfsLookup, Call.opsCreate r.Name (createOptions env r),
             Call.fsDevAttachWaitPrep r.Name watchPath, Call.opsAttach r.Name,
             Call.opsDetach r.Name, Call.opsRemove r.Name none]
            (by simp [createRollback_trace, createAttach_trace])]
          rfl
        · next dev ha =>
          split
          · rw [callsSince_of_trace _ _
              [Call.fsMkfsLookup, Call.opsCreate r.Name (createOptions env r),
               Call.fsDevAttachWaitPrep r.Name watchPath, Call.opsAttach r.Name,
               Call.fsGetDevicePath dev, Call.opsDetach r.Name, Call.opsRemove r.Name none]
              (by simp [createRollback_trace, createDevPath_trace])]
            rfl
          · next device hd =>
            split
            · rw [callsSince_of_trace _ _
                [Call.fsMkfsLookup, Call.opsCreate r.Name (createOptions env r),
                 Call.fsDevAttachWaitPrep r.Name watchPath, Call.opsAttach r.Name,
                 Call.fsGetDevicePath dev, createWaitCall env r s device,
                 Call.fsMkfs mkfscmd r.Name device, Call.opsDetach r.Name,
                 Call.opsRemove r.Name none]
                (by simp [createRollback_trace, createMkfs_trace])]
              simp [armedBeforeAttach, armedBeforeAttach_wait_cons]
            · rw [callsSince_of_trace _ _ _ (createDetach_trace env r s dev device mkfscmd)]
              simp [armedBeforeAttach, armedBeforeAttach_wait_cons]

/-- The filesystem mounts of a `Mount` that reaches `MountVolume` are those of
`MountVolume`. -/
theorem Mount_fsMounts_of_meta (env : Env ω) (r : MountRequest) (s : Sys ω) (vi : VolumeInfo)
    (m : VolMeta)
    (hres : (mountResolve env r s).1 = Except.ok vi)
    (hfirst : ¬ (mountIncr env r vi.VolumeName s).1.1 > 1)
    (hcheck : (mountCheck env r vi.VolumeName s).1 = false)
    (hpend : mountPending env r vi s = none)
    (hmeta : mountMetaOf env r vi s = Except.ok m) :
    fsMounts (callsSince s (VolumeDriver.Mount env r s).2)
      = fsMounts (mvCalls env vi.VolumeName (VolumeDriver.fstypeOf env m)
          (VolumeDriver.isReadOnlyOf m) (mountPre env r vi s)) := by
  obtain ⟨-, -, post, hpost, hcalls⟩ :=
    Mount_calls_of_meta env r s vi m hres hfirst hcheck hpend hmeta
  rw [hcalls, fsMounts_append, fsMounts_append, fsMounts_mountPreCalls]
  rcases hpost with h | h <;> subst h <;> simp [fsMounts]

/-- C26. In a `Mount` that reaches the metadata step (the name resolved, no
short-circuit answered, no error is pending, the metadata is at hand), the
metadata never fails the request: without a string under `access`, or with a
string other than `read-only`, the volume is treated as read-write; without a
string under `fstype` the default filesystem type is used, else the string
unchanged; the request fails only with the error of `MountVolume`, and every
filesystem mount it makes carries that filesystem type and is read-only only
if the metadata says `read-only`. -/
theorem Mount_metadata_defaults (env : Env ω) (r : MountRequest) (s : Sys ω) (vi : VolumeInfo)
    (m : VolMeta)
    (hres : (mountResolve env r s).1 = Except.ok vi)
    (hfirst : ¬ (mountIncr env r vi.VolumeName s).1.1 > 1)
    (hcheck : (mountCheck env r vi.VolumeName s).1 = false)
    (hpend : mountPending env r vi s = none)
    (hmeta : mountMetaOf env r vi s = Except.ok m) :
    (m.str "access" = none → VolumeDriver.isReadOnlyOf m = false) ∧
    (∀ v, m.str "access" = some v → v ≠ "read-only" → VolumeDriver.isReadOnlyOf m = false) ∧
    (m.str "fstype" = none → VolumeDriver.fstypeOf env m = env.fstypeDefault) ∧
    (∀ v, m.str "fstype" = some v → VolumeDriver.fstypeOf env m = v) ∧
    ((mountVolumeCall env r vi m s).1.2 = none →
      (VolumeDriver.Mount env r s).1
        = { Mountpoint := getMountPoint env (mountPre env r vi s).d vi.VolumeName }) ∧
    (∀ e, (mountVolumeCall env r vi m s).1.2 = some e →
      (VolumeDriver.Mount env r s).1 = { Err := e }) ∧
    (∀ c ∈ fsMounts (callsSince s (VolumeDriver.Mount env r s).2),
      ∃ d ro, c = Call.fsMount (getMountPoint env (mountPre env r vi s).d vi.VolumeName)
                    (VolumeDriver.fstypeOf env m) d ro ∧
        (ro = true → VolumeDriver.isReadOnlyOf m = true)) := by
  obtain ⟨hok, herr, -⟩ := Mount_calls_of_meta env r s vi m hres hfirst hcheck hpend hmeta
  refine ⟨?_, ?_, ?_, ?_, hok, herr, ?_⟩
  · intro h; simp [VolumeDriver.isReadOnlyOf, h]
  · intro v h hv; simp [VolumeDriver.isReadOnlyOf, h, hv]
  · intro h; simp [VolumeDriver.fstypeOf, h]
  · intro v h; simp [VolumeDriver.fstypeOf, h]
  · rw [Mount_fsMounts_of_meta env r s vi m hres hfirst hcheck hpend hmeta]
    exact mvCalls_fsMounts env vi.VolumeName _ _ _

/-- C27. In `Create` and in `Mount`, every backend `Attach` comes after an
arming of the device watch. In a `Create` whose `Attach` and device-path
resolution succeed, `Mkfs` is invoked exactly once, and in a `Mount` whose
`Attach` and (on the real backend) device-path resolution succeed, the
filesystem mount is invoked exactly once, whatever the device wait did. -/
theorem attach_after_arming (env : Env ω) :
    (∀ r s, armedBeforeAttach false (callsSince s (VolumeDriver.Create env r s).2) = true) ∧
    (∀ r s, armedBeforeAttach false (callsSince s (VolumeDriver.Mount env r s).2) = true) ∧
    (∀ (r : Request) (s : Sys ω) (mkfscmd dev device : String),
      (optionsOf r).lookup "clone-from" = none →
      (env.fsMkfsLookup s.w).1.lookup (createFstype env r) = some mkfscmd →
      (createBackend env r s).1 = none →
      (createAttach env r s).1 = Except.ok dev →
      (createDevPath env r s dev).1 = Except.ok device →
      (provisioning (callsSince s (VolumeDriver.Create env r s).2)).1 = 1) ∧
    (∀ (r : MountRequest) (s : Sys ω) (vi : VolumeInfo) (m : VolMeta) (dev : String),
      (mountResolve env r s).1 = Except.ok vi →
      ¬ (mountIncr env r vi.VolumeName s).1.1 > 1 →
      (mountCheck env r vi.VolumeName s).1 = false →
      mountPending env r vi s = none →
      mountMetaOf env r vi s = Except.ok m →
      (mvMkdir env vi.VolumeName (mountPre env r vi s)).1 = none →
      (mvAttach env vi.VolumeName (mountPre env r vi s)).1 = Except.ok dev →
      ((mountPre env r vi s).d.useMockEsx = true ∨
        ∃ device, (mvDevPath env vi.VolumeName (mountPre env r vi s) dev).1 = Except.ok device) →
      (fsMounts (callsSince s (VolumeDriver.Mount env r s).2)).length = 1) := by
  refine ⟨Create_armed env, Mount_armed env, ?_, ?_⟩
  · intro r s mkfscmd dev device hnoclone htool hcreate ha hd
    have ht : (createLookup env s).1.lookup (createFstype env r) = some mkfscmd := htool
    have hc := Create_eq env r s hnoclone
    simp only [ht, hcreate, ha, hd] at hc
    cases hm : (createMkfs env r s dev device mkfscmd).1 with
    | some e =>
      simp only [hm] at hc
      rw [hc, callsSince_of_trace _ _
        [Call.fsMkfsLookup, Call.opsCreate r.Name (createOptions env r),
         Call.fsDevAttachWaitPrep r.Name watchPath, Call.opsAttach r.Name,
         Call.fsGetDevicePath dev, createWaitCall env r s device,
         Call.fsMkfs mkfscmd r.Name device, Call.opsDetach r.Name,
         Call.opsRemove r.Name none]
        (by simp [createRollback_trace, createMkfs_trace])]
      cases hsk : (createPrep env r s).1.2 <;>
        simp [provisioning_cons, provisioning_nil, createWaitCall, hsk]
    | none =>
      simp only [hm] at hc
      rw [hc, callsSince_of_trace _ _ _ (createDetach_trace env r s dev device mkfscmd)]
      cases hsk : (createPrep env r s).1.2 <;>
        simp [provisioning_cons, provisioning_nil, createWaitCall, hsk]
  · intro r s vi m dev hres hfirst hcheck hpend hmeta hmk hat hdp
    rw [Mount_fsMounts_of_meta env r s vi m hres hfirst hcheck hpend hmeta]
    exact mvCalls_fsMount_once env vi.VolumeName _ _ _ dev hmk hat hdp

end attach

/-! ### `MountVolume` fails: the rollback with and without a bootstrapped store -/

section rollback
variable {ω : Type}

/-- The driver state in which `Mount` calls `MountVolume` is the one the
increment left. -/
theorem mountPre_d (env : Env ω) (r : MountRequest) (vi : VolumeInfo) (s : Sys ω) :
    (mountPre env r vi s).d = (mountIncr env r vi.VolumeName s).2.d := by
  simp only [mountPre]
  split <;> rfl

/-- The rollback block on a bootstrapped store that counts `k + 1` holders: the
count goes to `k`, and `Detach` is called exactly when `k` is zero. -/
theorem mountRollback_of_init (env : Env ω) (name e : String) (k : Nat) (s : Sys ω)
    (hinit : s.d.refCounts.GetInitSuccess = true) (hk : s.d.refCounts.refMap name = k + 1) :
    (VolumeDriver.mountRollback env name e s).1 = { Err := e } ∧
    (VolumeDriver.mountRollback env name e s).2.d.refCounts.refMap name = k ∧
    callsSince s (VolumeDriver.mountRollback env name e s).2
      = if k = 0 then [Call.opsDetach name] else [] := by
  cases k with
  | zero =>
    simp [VolumeDriver.mountRollback, VolumeDriver.sysDecr, VolumeDriver.decrRefCount, hinit,
      RefCountsMap.Decr, hk, Sys.call, callsSince]
  | succ j =>
    simp [VolumeDriver.mountRollback, VolumeDriver.sysDecr, VolumeDriver.decrRefCount, hinit,
      RefCountsMap.Decr, hk, callsSince]

/-- C29. On a bootstrapped store, a `Mount` in which `MountVolume` fails (at
mkdir, attach, device-path resolution or the filesystem mount) takes its
increment back exactly once, so that the counts are those before the request
and the count of the volume is zero; it invokes backend `Detach` exactly once,
as its last call, and answers with the error of `MountVolume` whatever `Detach`
returns. The rollback block itself, entered with `k + 1` holders, leaves `k`
and calls `Detach` exactly when `k` is zero. -/
theorem Mount_volume_failure_rollback (env : Env ω) (r : MountRequest) (s : Sys ω)
    (vi : VolumeInfo) (m : VolMeta) (e : String)
    (hinit : s.d.refCounts.GetInitSuccess = true)
    (hres : (mountResolve env r s).1 = Except.ok vi)
    (hfirst : ¬ (mountIncr env r vi.VolumeName s).1.1 > 1)
    (hcheck : (mountCheck env r vi.VolumeName s).1 = false)
    (hmeta : mountMetaOf env r vi s = Except.ok m)
    (hfail : (mountVolumeCall env r vi m s).1.2 = some e) :
    (VolumeDriver.Mount env r s).1 = { Err := e } ∧
    (mountPre env r vi s).d.refCounts.GetCount vi.VolumeName
      = s.d.refCounts.GetCount vi.VolumeName + 1 ∧
    (VolumeDriver.Mount env r s).2.d.refCounts.refMap = s.d.refCounts.refMap ∧
    (VolumeDriver.Mount env r s).2.d.refCounts.GetCount vi.VolumeName = 0 ∧
    callsSince s (VolumeDriver.Mount env r s).2
      = mountPreCalls r vi s
        ++ mvCalls env vi.VolumeName (VolumeDriver.fstypeOf env m) (VolumeDriver.isReadOnlyOf m)
            (mountPre env r vi s)
        ++ [Call.opsDetach vi.VolumeName] ∧
    detaches (callsSince s (VolumeDriver.Mount env r s).2) = [Call.opsDetach vi.VolumeName] ∧
    (∀ (s7 : Sys ω) (name e7 : String) (k : Nat),
      s7.d.refCounts.GetInitSuccess = true → s7.d.refCounts.refMap name = k + 1 →
      (VolumeDriver.mountRollback env name e7 s7).1 = { Err := e7 } ∧
      (VolumeDriver.mountRollback env name e7 s7).2.d.refCounts.refMap name = k ∧
      callsSince s7 (VolumeDriver.mountRollback env name e7 s7).2
        = if k = 0 then [Call.opsDetach name] else []) := by
  obtain ⟨hincr, hinit', hmap⟩ := mountIncr_of_init env r vi.VolumeName s hinit
  have hzero : s.d.refCounts.refMap vi.VolumeName = 0 := by
    rw [hincr] at hfirst
    simp only [gt_iff_lt, not_lt] at hfirst
    omega
  have hpend : mountPending env r vi s = none := by
    simp only [mountPending]
    split
    · rw [hincr]
    · rfl
  have hpd := mountPre_d env r vi s
  have hM := Mount_of_meta env r s vi m hres hfirst hcheck hpend hmeta
  obtain ⟨h1, h2, h3, -⟩ := mountWithMeta_of_failure env vi.VolumeName e m
    (mountPre env r vi s) s.d.refCounts.refMap (by rw [hpd]; exact hinit')
    (by rw [hpd]; exact hmap) hzero hfail
  have htr := MountVolume_trace env vi.VolumeName (VolumeDriver.fstypeOf env m) ""
    (VolumeDriver.isReadOnlyOf m) false (mountPre env r vi s)
  rw [mountPre_trace] at htr
  have hcalls : callsSince s (VolumeDriver.Mount env r s).2
      = mountPreCalls r vi s
        ++ mvCalls env vi.VolumeName (VolumeDriver.fstypeOf env m) (VolumeDriver.isReadOnlyOf m)
            (mountPre env r vi s)
        ++ [Call.opsDetach vi.VolumeName] := by
    apply callsSince_of_trace
    rw [hM, h3, htr]
    simp
  refine ⟨by rw [hM]; exact h1, ?_, by rw [hM]; exact h2, ?_, hcalls, ?_, ?_⟩
  · rw [hpd, RefCountsMap.GetCount, hmap]
    simp [RefCountsMap.GetCount]
  · rw [hM, RefCountsMap.GetCount, h2, hzero]
  · rw [hcalls, detaches_append, detaches_append, detaches_mountPreCalls, mvCalls_detaches]
    simp [detaches]
  · intro s7 name e7 k hi hk
    exact mountRollback_of_init env name e7 k s7 hi hk

/-- On a store that has not completed bootstrap the increment of `Mount` fails
with the plugin-init error, reports count 0 and leaves the counts alone. -/
theorem mountIncr_of_uninit (env : Env ω) (r : MountRequest) (name : String) (s : Sys ω)
    (h : s.d.refCounts.GetInitSuccess = false) :
    (mountIncr env r name s).1 = (0, some Error.pluginInit) ∧
    (mountIncr env r name s).2.d.refCounts.GetInitSuccess = false ∧
    (mountIncr env r name s).2.d.refCounts.refMap = s.d.refCounts.refMap := by
  have hst := MarkDirty_state_of_uninit _ h
  have hg : s.d.refCounts.MarkDirty.GetInitSuccess = false := by
    simp [RefCountsMap.GetInitSuccess, hst]
  simp [mountIncr, mountResolve, VolumeDriver.sysIncr, VolumeDriver.incrRefCount, Sys.call, hg,
    MarkDirty_refMap]

/-- C30. While the store has not completed bootstrap, a `Mount` that reaches
`MountVolume` (name resolution supplied no metadata and the fetch succeeded)
and whose `MountVolume` fails answers with the error of `MountVolume`, leaves
every count as it was, and makes no `Detach`: its calls and the world are those
`MountVolume` left, so a volume that was attached stays attached. -/
theorem Mount_uninit_failure_leaves_attached (env : Env ω) (r : MountRequest) (s : Sys ω)
    (vi : VolumeInfo) (m : VolMeta) (e : String)
    (huninit : s.d.refCounts.GetInitSuccess = false)
    (hres : (mountResolve env r s).1 = Except.ok vi)
    (hcheck : (mountCheck env r vi.VolumeName s).1 = false)
    (hnometa : vi.VolumeMeta = none)
    (hget : (mountGet env r vi.VolumeName s).1 = Except.ok m)
    (hfail : (mountVolumeCall env r vi m s).1.2 = some e) :
    (VolumeDriver.Mount env r s).1 = { Err := e } ∧
    (VolumeDriver.Mount env r s).2.d.refCounts.refMap = s.d.refCounts.refMap ∧
    (VolumeDriver.Mount env r s).2.w = (mountVolumeCall env r vi m s).2.w ∧
    callsSince s (VolumeDriver.Mount env r s).2
      = mountPreCalls r vi s
        ++ mvCalls env vi.VolumeName (VolumeDriver.fstypeOf env m) (VolumeDriver.isReadOnlyOf m)
            (mountPre env r vi s) ∧
    detaches (callsSince s (VolumeDriver.Mount env r s).2) = [] := by
  obtain ⟨hincr, hun', hmap⟩ := mountIncr_of_uninit env r vi.VolumeName s huninit
  have hfirst : ¬ (mountIncr env r vi.VolumeName s).1.1 > 1 := by rw [hincr]; simp
  have hpend : mountPending env r vi s = none := by simp [mountPending, hnometa]
  have hmeta : mountMetaOf env r vi s = Except.ok m := by simp [mountMetaOf, hnometa, hget]
  have hpd := mountPre_d env r vi s
  have hM := Mount_of_meta env r s vi m hres hfirst hcheck hpend hmeta
  have hd := MountVolume_d env vi.VolumeName (VolumeDriver.fstypeOf env m) ""
    (VolumeDriver.isReadOnlyOf m) false (mountPre env r vi s)
  have htr := MountVolume_trace env vi.VolumeName (VolumeDriver.fstypeOf env m) ""
    (VolumeDriver.isReadOnlyOf m) false (mountPre env r vi s)
  rw [mountPre_trace] at htr
  simp only [mountVolumeCall] at hfail ⊢
  have hroll : VolumeDriver.mountRollback env vi.VolumeName e
      (VolumeDriver.MountVolume env vi.VolumeName (VolumeDriver.fstypeOf env m) ""
        (VolumeDriver.isReadOnlyOf m) false (mountPre env r vi s)).2
      = ({ Err := e },
         (VolumeDriver.MountVolume env vi.VolumeName (VolumeDriver.fstypeOf env m) ""
           (VolumeDriver.isReadOnlyOf m) false (mountPre env r vi s)).2) := by
    have hdec : VolumeDriver.decrRefCount
        (VolumeDriver.MountVolume env vi.VolumeName (VolumeDriver.fstypeOf env m) ""
          (VolumeDriver.isReadOnlyOf m) false (mountPre env r vi s)).2.d vi.VolumeName
        = ((0, some Error.pluginInit),
           (VolumeDriver.MountVolume env vi.VolumeName (VolumeDriver.fstypeOf env m) ""
             (VolumeDriver.isReadOnlyOf m) false (mountPre env r vi s)).2.d) := by
      rw [hd, hpd]
      simp [VolumeDriver.decrRefCount, hun']
    simp only [VolumeDriver.mountRollback, VolumeDriver.sysDecr, hdec]
  have hMM : VolumeDriver.Mount env r s
      = ({ Err := e },
         (VolumeDriver.MountVolume env vi.VolumeName (VolumeDriver.fstypeOf env m) ""
           (VolumeDriver.isReadOnlyOf m) false (mountPre env r vi s)).2) := by
    rw [hM]
    simp only [VolumeDriver.mountWithMeta, hfail, hroll]
  have hcalls : callsSince s (VolumeDriver.Mount env r s).2
      = mountPreCalls r vi s
        ++ mvCalls env vi.VolumeName (VolumeDriver.fstypeOf env m) (VolumeDriver.isReadOnlyOf m)
            (mountPre env r vi s) := by
    apply callsSince_of_trace
    rw [hMM, htr]
    simp
  refine ⟨by rw [hMM], ?_, by rw [hMM], hcalls, ?_⟩
  · rw [hMM]
    show (VolumeDriver.MountVolume env vi.VolumeName (VolumeDriver.fstypeOf env m) ""
      (VolumeDriver.isReadOnlyOf m) false (mountPre env r vi s)).2.d.refCounts.refMap = _
    rw [hd, hpd, hmap]
  · rw [hcalls, detaches_append, detaches_mountPreCalls, mvCalls_detaches]
    rfl

end rollback

/-! ### Mount, unmount, remove in the world where every call succeeds -/

section removal
variable (resolve : String → VolumeInfo) (volMeta : String → VolMeta) (skip : Bool)
  (tools : StrMap)

/-- A `Mount` of a volume without holders sets its count to one and leaves the
other counts alone. -/
theorem Mount_first_counts (root name full id : String) (s : Sys World)
    (hfull : (resolve name).VolumeName = full) (h : Holders root full 0 s) :
    (VolumeDriver.Mount (okEnv resolve volMeta skip tools)
      { Name := name, ID := id } s).2.d.refCounts.refMap
      = fun v => if v = full then 1 else s.d.refCounts.refMap v := by
  obtain ⟨hst, hcnt, hroot, hmnt, -⟩ := h
  have hinit : s.d.refCounts.GetInitSuccess = true := by simp [RefCountsMap.GetInitSuccess, hst]
  simp only [decide_eq_false_iff_not, Nat.lt_irrefl, not_false_eq_true, decide_False] at hmnt
  subst hfull
  have hget : ∀ w, (okEnv resolve volMeta skip tools).getVolumeInfo name w
      = (Except.ok (resolve name), w) := fun _ => rfl
  have hal : ∀ n r w, (okEnv resolve volMeta skip tools).alreadyMounted n r w
      = (w.mounted (r ++ "/" ++ n), w) := fun _ _ _ => rfl
  have hops : ∀ n w, (okEnv resolve volMeta skip tools).opsGet n w
      = (Except.ok (volMeta n), w) := fun _ _ => rfl
  simp only [VolumeDriver.Mount, VolumeDriver.processMount, Sys.call,
    VolumeDriver.sysIncr, VolumeDriver.incrRefCount, MarkDirty_of_init _ hinit, hinit,
    RefCountsMap.Incr, hcnt, hroot, hmnt, hget, hal, hops, VolumeDriver.mountWithMeta,
    MountVolume_okEnv]
  cases hvm : (resolve name).VolumeMeta <;> simp [hroot, hmnt, hst]

/-- On a bootstrapped store an `Unmount` by a recorded mount ID leaves the
counts of the other volumes alone. -/
theorem Unmount_other_counts {ω : Type} (env : Env ω) (r : UnmountRequest) (s : Sys ω)
    (full : String) (hinit : s.d.refCounts.GetInitSuccess = true)
    (hrec : s.d.mountIDtoName r.ID = some full) (v : String) (hv : v ≠ full) :
    (VolumeDriver.Unmount env r s).2.d.refCounts.refMap v = s.d.refCounts.refMap v := by
  have hU : VolumeDriver.Unmount env r s =
      VolumeDriver.unmountResolved env full
        { s with d := { s.d with mountIDtoName :=
            fun i => if i = r.ID then none else s.d.mountIDtoName i } } := by
    simp [VolumeDriver.Unmount, hinit, hrec]
  rw [hU]
  exact (unmountResolved_frame env full _).2.1 v hv

/-- In the world where every call succeeds, `Remove` of a name that the
bootstrapped store does not count is handed to backend `Remove` and succeeds. -/
theorem Remove_okEnv_of_zero (name : String) (opts : Option StrMap) (s : Sys World)
    (hst : s.d.refCounts.state = InitState.ready) (hzero : s.d.refCounts.refMap name = 0) :
    (VolumeDriver.Remove (okEnv resolve volMeta skip tools)
      { Name := name, Options := opts } s).1 = { Err := "" } ∧
    callsSince s (VolumeDriver.Remove (okEnv resolve volMeta skip tools)
      { Name := name, Options := opts } s).2 = [Call.opsRemove name opts] := by
  have hinit : s.d.refCounts.GetInitSuccess = true := by simp [RefCountsMap.GetInitSuccess, hst]
  rw [Remove_eq_of_init _ _ _ hinit]
  simp [hzero, callsSince, okEnv, errResponse]

/-- C24, as the code has it. On a bootstrapped store, for a volume without
holders whose mountpoint is not mounted, with every call succeeding: `Mount`
attaches and mounts the volume, the matching `Unmount` then unmounts and
detaches it and leaves the count at 0, and a `Remove` of the name after that
is handed to backend `Remove` and answers with an empty error. -/
theorem mount_unmount_remove (root name full id : String) (opts : Option StrMap)
    (s : Sys World) (hfull : (resolve name).VolumeName = full) (h : Holders root full 0 s)
    (hname : s.d.refCounts.refMap name = 0) :
    (VolumeDriver.Mount (okEnv resolve volMeta skip tools) { Name := name, ID := id } s).1
      = { Mountpoint := root ++ "/" ++ full } ∧
    physical (callsSince s
      (VolumeDriver.Mount (okEnv resolve volMeta skip tools) { Name := name, ID := id } s).2)
      = (1, 1, 0, 0) ∧
    (VolumeDriver.Unmount (okEnv resolve volMeta skip tools) { Name := name, ID := id }
      (VolumeDriver.Mount (okEnv resolve volMeta skip tools) { Name := name, ID := id } s).2).1
      = { Err := "" } ∧
    physical (callsSince
      (VolumeDriver.Mount (okEnv resolve volMeta skip tools) { Name := name, ID := id } s).2
      (VolumeDriver.Unmount (okEnv resolve volMeta skip tools) { Name := name, ID := id }
        (VolumeDriver.Mount (okEnv resolve volMeta skip tools) { Name := name, ID := id } s).2).2)
      = (0, 0, 1, 1) ∧
    (VolumeDriver.Unmount (okEnv resolve volMeta skip tools) { Name := name, ID := id }
      (VolumeDriver.Mount (okEnv resolve volMeta skip tools)
        { Name := name, ID := id } s).2).2.d.refCounts.GetCount full = 0 ∧
    (VolumeDriver.Remove (okEnv resolve volMeta skip tools) { Name := name, Options := opts }
      (VolumeDriver.Unmount (okEnv resolve volMeta skip tools) { Name := name, ID := id }
        (VolumeDriver.Mount (okEnv resolve volMeta skip tools)
          { Name := name, ID := id } s).2).2).1 = { Err := "" } ∧
    callsSince
      (VolumeDriver.Unmount (okEnv resolve volMeta skip tools) { Name := name, ID := id }
        (VolumeDriver.Mount (okEnv resolve volMeta skip tools) { Name := name, ID := id } s).2).2
      (VolumeDriver.Remove (okEnv resolve volMeta skip tools) { Name := name, Options := opts }
        (VolumeDriver.Unmount (okEnv resolve volMeta skip tools) { Name := name, ID := id }
          (VolumeDriver.Mount (okEnv resolve volMeta skip tools)
            { Name := name, ID := id } s).2).2).2
      = [Call.opsRemove name opts] := by
  obtain ⟨hm1, hm2, hm3, hm4⟩ :=
    Mount_first resolve volMeta skip tools root name full id s hfull h
  have hmc := Mount_first_counts resolve volMeta skip tools root name full id s hfull h
  have hrec : (VolumeDriver.Mount (okEnv resolve volMeta skip tools)
      { Name := name, ID := id } s).2.d.mountIDtoName id = some full := by
    rw [hm4]; simp
  obtain ⟨hu1, hu2, hu3, -⟩ := Unmount_last resolve volMeta skip tools root name full id
    (VolumeDriver.Mount (okEnv resolve volMeta skip tools) { Name := name, ID := id } s).2
    hfull hm3 (Or.inr hrec)
  have hinit1 : (VolumeDriver.Mount (okEnv resolve volMeta skip tools)
      { Name := name, ID := id } s).2.d.refCounts.GetInitSuccess = true := by
    simp [RefCountsMap.GetInitSuccess, hm3.1]
  obtain ⟨hst2, hcnt2, -⟩ := hu3
  have hname2 : (VolumeDriver.Unmount (okEnv resolve volMeta skip tools) { Name := name, ID := id }
      (VolumeDriver.Mount (okEnv resolve volMeta skip tools)
        { Name := name, ID := id } s).2).2.d.refCounts.refMap name = 0 := by
    by_cases hnf : name = full
    · rw [← hnf] at hcnt2
      exact hcnt2
    · have ho := Unmount_other_counts (okEnv resolve volMeta skip tools)
        { Name := name, ID := id } _ full hinit1 hrec name hnf
      rw [hmc] at ho
      rw [ho]
      simp [hnf, hname]
  obtain ⟨hr1, hr2⟩ := Remove_okEnv_of_zero resolve volMeta skip tools name opts _ hst2 hname2
  exact ⟨hm1, hm2, hu1, hu2, hcnt2, hr1, hr2⟩

end removal

/-! ### The lifecycle properties, evaluated -/

/-- Instance of `Unmount_still_in_use`: one of two holders of `vol1` unmounts. -/
theorem Unmount_still_in_use_witness :
    (VolumeDriver.Unmount (okEnv bareInfo (fun _ => none) false []) { Name := "vol1", ID := "a" }
      (freshSys InitState.ready (fun v => if v = "vol1" then 2 else 0) emptyWorld)).1
      = { Err := "" } ∧
    callsSince (freshSys InitState.ready (fun v => if v = "vol1" then 2 else 0) emptyWorld)
      (VolumeDriver.Unmount (okEnv bareInfo (fun _ => none) false []) { Name := "vol1", ID := "a" }
        (freshSys InitState.ready (fun v => if v = "vol1" then 2 else 0) emptyWorld)).2
      = [Call.getVolumeInfo "vol1"] :=
  ⟨(Unmount_still_in_use (okEnv bareInfo (fun _ => none) false []) { Name := "vol1", ID := "a" }
      (freshSys InitState.ready (fun v => if v = "vol1" then 2 else 0) emptyWorld) "vol1"
      rfl rfl (by decide)).1,
   (Unmount_still_in_use (okEnv bareInfo (fun _ => none) false []) { Name := "vol1", ID := "a" }
      (freshSys InitState.ready (fun v => if v = "vol1" then 2 else 0) emptyWorld) "vol1"
      rfl rfl (by decide)).2.1⟩

/-- Instance of `Mount_records`: a `Mount` whose name resolves writes the record. -/
theorem Mount_records_witness :
    (VolumeDriver.Mount (okEnv bareInfo (fun _ => none) false []) { Name := "vol1", ID := "a" }
      (freshSys InitState.ready (fun _ => 0) emptyWorld)).2.d.mountIDtoName
      = fun i => if i = "a" then some "vol1" else none :=
  (Mount_records (okEnv bareInfo (fun _ => none) false []) { Name := "vol1", ID := "a" }
    (freshSys InitState.ready (fun _ => 0) emptyWorld)).2 (bareInfo "vol1") rfl

/-- C22 fails as stated: a `Mount` of `vol1` with mount ID `a` whose `Attach`
fails returns the non-empty attach error, and the records, which held nothing
for `a` before the call, hold `vol1` for `a` after it. -/
theorem Mount_failure_keeps_record :
    (VolumeDriver.Mount (flakyEnv bareInfo (fun _ => none) false [] ["Attach"])
      { Name := "vol1", ID := "a" }
      (freshSys InitState.ready (fun _ => 0) emptyWorld)).1 = { Err := "Attach failed" } ∧
    (freshSys InitState.ready (fun _ => 0) emptyWorld).d.mountIDtoName "a" = none ∧
    (VolumeDriver.Mount (flakyEnv bareInfo (fun _ => none) false [] ["Attach"])
      { Name := "vol1", ID := "a" }
      (freshSys InitState.ready (fun _ => 0) emptyWorld)).2.d.mountIDtoName "a" = some "vol1" := by
  refine ⟨rfl, rfl, ?_⟩
  decide

/-- Instance of `mountpoint_reports`: `Path` of `vol1`. -/
theorem mountpoint_reports_witness :
    VolumeDriver.Path (okEnv qualifiedInfo (fun _ => none) false [])
      { Name := "vol1", Options := none } (freshSys InitState.ready (fun _ => 0) emptyWorld)
      = ({ Mountpoint := "/mnt/vmdk/vol1" }, freshSys InitState.ready (fun _ => 0) emptyWorld) :=
  (mountpoint_reports (okEnv qualifiedInfo (fun _ => none) false [])
    (freshSys InitState.ready (fun _ => 0) emptyWorld) "vol1").1 none

/-- C23 fails as stated: when name resolution qualifies `vol1` with its
datastore, a successful `Mount` of `vol1` reports the mountpoint of the full
name, which is not the path `Path` and `Get` report for `vol1`. -/
theorem Mount_reports_resolved_path :
    (VolumeDriver.Mount (okEnv qualifiedInfo (fun _ => none) false []) { Name := "vol1", ID := "a" }
      (freshSys InitState.ready (fun _ => 0) emptyWorld)).1
      = { Mountpoint := "/mnt/vmdk/vol1@datastore1" } ∧
    (VolumeDriver.Path (okEnv qualifiedInfo (fun _ => none) false [])
      { Name := "vol1", Options := none }
      (freshSys InitState.ready (fun _ => 0) emptyWorld)).1 = { Mountpoint := "/mnt/vmdk/vol1" } ∧
    (VolumeDriver.Get (okEnv qualifiedInfo (fun _ => none) false [])
      { Name := "vol1", Options := none }
      (freshSys InitState.ready (fun _ => 0) emptyWorld)).1
      = { Volume := some { Name := "vol1", Mountpoint := "/mnt/vmdk/vol1", Status := none } } ∧
    (VolumeDriver.Mount (okEnv qualifiedInfo (fun _ => none) false []) { Name := "vol1", ID := "a" }
      (freshSys InitState.ready (fun _ => 0) emptyWorld)).1.Mountpoint
      ≠ (VolumeDriver.Path (okEnv qualifiedInfo (fun _ => none) false [])
          { Name := "vol1", Options := none }
          (freshSys InitState.ready (fun _ => 0) emptyWorld)).1.Mountpoint := by
  refine ⟨?_, ?_, ?_, ?_⟩ <;> decide

/-- Instance of `mount_unmount_remove`: `vol1`, mount ID `a`. -/
theorem mount_unmount_remove_witness :
    (VolumeDriver.Remove (okEnv bareInfo (fun _ => none) false [])
      { Name := "vol1", Options := none }
      (VolumeDriver.Unmount (okEnv bareInfo (fun _ => none) false []) { Name := "vol1", ID := "a" }
        (VolumeDriver.Mount (okEnv bareInfo (fun _ => none) false [])
          { Name := "vol1", ID := "a" }
          (freshSys InitState.ready (fun _ => 0) emptyWorld)).2).2).1 = { Err := "" } :=
  (mount_unmount_remove bareInfo (fun _ => none) false [] "/mnt/vmdk" "vol1" "vol1" "a" none
    (freshSys InitState.ready (fun _ => 0) emptyWorld) rfl
    ⟨rfl, rfl, rfl, rfl, fun h => absurd h (by decide)⟩ rfl).2.2.2.2.2.1

/-- C24 fails as stated: on a bootstrapped store with no holder of `vol1` whose
mountpoint is still mounted, with every call succeeding, `Mount` makes no
`Attach` (it is answered by the already-mounted check), and the matching
`Unmount` still unmounts and detaches. -/
theorem mount_without_attach_then_detach :
    (freshSys InitState.ready (fun _ => 0) staleWorld).d.refCounts.GetCount "vol1" = 0 ∧
    callsSince (freshSys InitState.ready (fun _ => 0) staleWorld)
      (VolumeDriver.Mount (okEnv bareInfo (fun _ => none) false []) { Name := "vol1", ID := "a" }
        (freshSys InitState.ready (fun _ => 0) staleWorld)).2
      = [Call.getVolumeInfo "vol1", Call.alreadyMounted "vol1" "/mnt/vmdk"] ∧
    callsSince
      (VolumeDriver.Mount (okEnv bareInfo (fun _ => none) false []) { Name := "vol1", ID := "a" }
        (freshSys InitState.ready (fun _ => 0) staleWorld)).2
      (VolumeDriver.Unmount (okEnv bareInfo (fun _ => none) false []) { Name := "vol1", ID := "a" }
        (VolumeDriver.Mount (okEnv bareInfo (fun _ => none) false [])
          { Name := "vol1", ID := "a" }
          (freshSys InitState.ready (fun _ => 0) staleWorld)).2).2
      = [Call.fsUnmount "/mnt/vmdk/vol1", Call.opsDetach "vol1"] := by
  refine ⟨rfl, ?_, ?_⟩ <;> decide

/-- Instance of `Mount_metadata_defaults`: backend metadata whose `access` entry
is not a string and that has no `fstype` entry; the volume is mounted
read-write with the default filesystem type. -/
theorem Mount_metadata_defaults_witness :
    (VolumeDriver.Mount
      (okEnv bareInfo (fun _ => some [("access", MetaVal.other)]) false [])
      { Name := "vol1", ID := "a" }
      (freshSys InitState.ready (fun _ => 0) emptyWorld)).1
      = { Mountpoint := "/mnt/vmdk/vol1" } ∧
    ∀ c ∈ fsMounts (callsSince (freshSys InitState.ready (fun _ => 0) emptyWorld)
        (VolumeDriver.Mount
          (okEnv bareInfo (fun _ => some [("access", MetaVal.other)]) false [])
          { Name := "vol1", ID := "a" }
          (freshSys InitState.ready (fun _ => 0) emptyWorld)).2),
      ∃ d ro, c = Call.fsMount "/mnt/vmdk/vol1" "ext4" d ro ∧ (ro = true → False) :=
  ⟨(Mount_metadata_defaults
      (okEnv bareInfo (fun _ => some [("access", MetaVal.other)]) false [])
      { Name := "vol1", ID := "a" } (freshSys InitState.ready (fun _ => 0) emptyWorld)
      (bareInfo "vol1") (some [("access", MetaVal.other)]) rfl (by decide) rfl rfl rfl).2.2.2.2.1
      rfl,
   fun c hc =>
    match (Mount_metadata_defaults
      (okEnv bareInfo (fun _ => some [("access", MetaVal.other)]) false [])
      { Name := "vol1", ID := "a" } (freshSys InitState.ready (fun _ => 0) emptyWorld)
      (bareInfo "vol1") (some [("access", MetaVal.other)]) rfl (by decide) rfl rfl
      rfl).2.2.2.2.2.2 c hc with
    | ⟨d, ro, h1, h2⟩ => ⟨d, ro, h1, fun hro => Bool.noConfusion (h2 hro)⟩⟩

/-- Instance of `attach_after_arming`: a `Mount` of `vol1` on a host where the
watch cannot be armed makes the filesystem mount once. -/
theorem attach_after_arming_witness :
    (fsMounts (callsSince (freshSys InitState.ready (fun _ => 0) emptyWorld)
      (VolumeDriver.Mount (okEnv bareInfo (fun _ => none) true []) { Name := "vol1", ID := "a" }
        (freshSys InitState.ready (fun _ => 0) emptyWorld)).2)).length = 1 :=
  (attach_after_arming (okEnv bareInfo (fun _ => none) true [])).2.2.2
    { Name := "vol1", ID := "a" } (freshSys InitState.ready (fun _ => 0) emptyWorld)
    (bareInfo "vol1") none "0:0" rfl (by decide) rfl rfl rfl rfl rfl
    (Or.inr ⟨"/dev/disk/by-path/0:0", rfl⟩)

/-- C28: the code at the failing input. The comment above the three wrappers
says they return 1 while the store is not bootstrapped; the code returns 0
along with the plugin-init error, here on a store that is not bootstrapped and
counts two holders of `vol1`. -/
theorem refcount_wrappers_return_zero_when_uninit :
    (freshDriver InitState.uninit
      (fun v => if v = "vol1" then 2 else 0)).refCounts.GetInitSuccess = false ∧
    VolumeDriver.getRefCount
      (freshDriver InitState.uninit (fun v => if v = "vol1" then 2 else 0)) "vol1"
      = (0, some Error.pluginInit) ∧
    (VolumeDriver.incrRefCount
      (freshDriver InitState.uninit (fun v => if v = "vol1" then 2 else 0)) "vol1").1
      = (0, some Error.pluginInit) ∧
    (VolumeDriver.decrRefCount
      (freshDriver InitState.uninit (fun v => if v = "vol1" then 2 else 0)) "vol1").1
      = (0, some Error.pluginInit) ∧
    (VolumeDriver.getRefCount
      (freshDriver InitState.uninit (fun v => if v = "vol1" then 2 else 0)) "vol1").1 ≠ 1 := by
  refine ⟨?_, ?_, ?_, ?_, ?_⟩ <;> decide

/-- Instance of `Mount_volume_failure_rollback`: mkdir fails for the first
holder of `vol1`; `Detach` is invoked once although no `Attach` was made. -/
theorem Mount_volume_failure_rollback_witness :
    callsSince (freshSys InitState.ready (fun _ => 0) emptyWorld)
      (VolumeDriver.Mount (flakyEnv bareInfo (fun _ => none) false [] ["Mkdir", "Detach"])
        { Name := "vol1", ID := "a" } (freshSys InitState.ready (fun _ => 0) emptyWorld)).2
      = [Call.getVolumeInfo "vol1", Call.alreadyMounted "vol1" "/mnt/vmdk", Call.opsGet "vol1",
         Call.fsMkdir "/mnt/vmdk/vol1", Call.opsDetach "vol1"] ∧
    (VolumeDriver.Mount (flakyEnv bareInfo (fun _ => none) false [] ["Mkdir", "Detach"])
      { Name := "vol1", ID := "a" } (freshSys InitState.ready (fun _ => 0) emptyWorld)).1
      = { Err := "Mkdir failed" } :=
  ⟨(Mount_volume_failure_rollback (flakyEnv bareInfo (fun _ => none) false [] ["Mkdir", "Detach"])
      { Name := "vol1", ID := "a" } (freshSys InitState.ready (fun _ => 0) emptyWorld)
      (bareInfo "vol1") none "Mkdir failed" rfl rfl (by decide) rfl rfl
      (by decide)).2.2.2.2.1,
   (Mount_volume_failure_rollback (flakyEnv bareInfo (fun _ => none) false [] ["Mkdir", "Detach"])
      { Name := "vol1", ID := "a" } (freshSys InitState.ready (fun _ => 0) emptyWorld)
      (bareInfo "vol1") none "Mkdir failed" rfl rfl (by decide) rfl rfl (by decide)).1⟩

/-- Instance of `Mount_uninit_failure_leaves_attached`: the store is not
bootstrapped and the filesystem mount fails after `Attach` succeeded; `vol1` is
left attached and uncounted. -/
theorem Mount_uninit_failure_leaves_attached_witness :
    (VolumeDriver.Mount (flakyEnv bareInfo (fun _ => none) false [] ["Mount"])
      { Name := "vol1", ID := "a" } (freshSys InitState.uninit (fun _ => 0) emptyWorld)).1
      = { Err := "Mount failed" } ∧
    detaches (callsSince (freshSys InitState.uninit (fun _ => 0) emptyWorld)
      (VolumeDriver.Mount (flakyEnv bareInfo (fun _ => none) false [] ["Mount"])
        { Name := "vol1", ID := "a" } (freshSys InitState.uninit (fun _ => 0) emptyWorld)).2)
      = [] ∧
    (VolumeDriver.Mount (flakyEnv bareInfo (fun _ => none) false [] ["Mount"])
      { Name := "vol1", ID := "a" }
      (freshSys InitState.uninit (fun _ => 0) emptyWorld)).2.w.attached "vol1" = true ∧
    (VolumeDriver.Mount (flakyEnv bareInfo (fun _ => none) false [] ["Mount"])
      { Name := "vol1", ID := "a" }
      (freshSys InitState.uninit (fun _ => 0) emptyWorld)).2.d.refCounts.GetCount "vol1" = 0 :=
  ⟨(Mount_uninit_failure_leaves_attached (flakyEnv bareInfo (fun _ => none) false [] ["Mount"])
      { Name := "vol1", ID := "a" } (freshSys InitState.uninit (fun _ => 0) emptyWorld)
      (bareInfo "vol1") none "Mount failed" rfl rfl rfl rfl rfl (by decide)).1,
   (Mount_uninit_failure_leaves_attached (flakyEnv bareInfo (fun _ => none) false [] ["Mount"])
      { Name := "vol1", ID := "a" } (freshSys InitState.uninit (fun _ => 0) emptyWorld)
      (bareInfo "vol1") none "Mount failed" rfl rfl rfl rfl rfl (by decide)).2.2.2.2,
   by decide, by decide⟩

end Vmdk
